import Mathlib

/-!
# Glyph blitting geometry of `graph/gblblit.c`

A shallow embedding of the descriptor builder `gblender_blit_init` and of the
entry point `grBlitGlyphToSurface`.

Conventions of the embedding.

* C `int` values are mathematical integers (`Int`).  Signed overflow is
  undefined behaviour in C, so the embedding describes exactly the runs in
  which no `int` operation overflows.  `/` on `int` truncates toward zero and
  is `Int.tdiv`.
* A pointer into a pixel buffer is the byte address it holds (`Int`); pointer
  arithmetic is integer arithmetic on addresses.
* A pointer to a record (`grSurface*`, `grBitmap*`) is `Option` of the record
  it points to; `none` is the null pointer.
* The dispatch tables `blit_funcs_*`, the runner `gblender_blit_run` and the
  constant `gr_err_bad_argument` are declared in headers that are not part of
  the translated sources; they are parameters of the embedding (`GrExternals`).
-/

namespace GblBlit

/-- Pixel modes of a `grBitmap`.  The constructors are the enumerators named in
the translated sources; `other` stands for every remaining enumerator. -/
inductive grPixelMode where
  | gr_pixel_mode_mono
  | gr_pixel_mode_gray
  | gr_pixel_mode_rgb555
  | gr_pixel_mode_rgb565
  | gr_pixel_mode_rgb24
  | gr_pixel_mode_rgb32
  | gr_pixel_mode_lcd
  | gr_pixel_mode_lcdv
  | gr_pixel_mode_lcd2
  | gr_pixel_mode_lcdv2
  | gr_pixel_mode_bgra
  | other (tag : Nat)
  deriving DecidableEq, Repr

open grPixelMode

/-- Source formats, the column index of the dispatch table. -/
inductive GBlenderSourceFormat where
  | GBLENDER_SOURCE_GRAY8
  | GBLENDER_SOURCE_HRGB
  | GBLENDER_SOURCE_VRGB
  | GBLENDER_SOURCE_HBGR
  | GBLENDER_SOURCE_VBGR
  | GBLENDER_SOURCE_BGRA
  deriving DecidableEq, Repr

/-- Target formats, the row index of the dispatch table. -/
inductive GBlenderTargetFormat where
  | GBLENDER_TARGET_GRAY8
  | GBLENDER_TARGET_RGB32
  | GBLENDER_TARGET_RGB24
  | GBLENDER_TARGET_RGB565
  | GBLENDER_TARGET_RGB555
  deriving DecidableEq, Repr

open GBlenderSourceFormat GBlenderTargetFormat

/-- Values of a `GBlenderBlitFunc` function pointer: the null pointer, the
address of `_gblender_blit_dummy`, or the address of a blend kernel. -/
inductive GBlenderBlitFunc where
  | null
  | dummy
  | kernel (id : Nat)
  deriving DecidableEq, Repr

/-- The record `grBitmap`: geometry, signed pitch, mode, gray levels and the
address of the pixel buffer. -/
structure grBitmap where
  rows : Int
  width : Int
  pitch : Int
  mode : grPixelMode
  grays : Int
  buffer : Int
  deriving DecidableEq, Repr

/-- The union `grColor`, seen through both of its members. -/
structure grColor where
  value : Nat
  chroma : List Nat
  deriving DecidableEq, Repr

/-- The record `grSurface`.  Its first member is the bitmap, which is what the
cast `(grBitmap*)surface` reads.  Pointers are addresses, `none` is `NULL`. -/
structure grSurface where
  bitmap : grBitmap
  gblender : Int
  origin : Option Int
  gray_spans : Option Nat
  color : grColor
  deriving DecidableEq, Repr

/-- The record `GBlenderBlitRec`, the descriptor of one blit. -/
structure GBlenderBlitRec where
  width : Int
  height : Int
  src_line : Int
  src_pitch : Int
  src_x : Int
  src_y : Int
  dst_line : Int
  dst_pitch : Int
  dst_x : Int
  dst_y : Int
  src_format : GBlenderSourceFormat
  dst_format : GBlenderTargetFormat
  blender : Int
  blit_func : GBlenderBlitFunc
  deriving DecidableEq, Repr

/-- Byte memory holding the pixel buffers, indexed by address. -/
abbrev Pixels := Int → Nat

/-- What `gblblit.c` takes from headers outside the translated sources. -/
structure GrExternals where
  /-- The table `blit_funcs[dst_format][src_format]`. -/
  blit_funcs : GBlenderTargetFormat → GBlenderSourceFormat → GBlenderBlitFunc
  /-- The effect of `gblender_blit_run( blit, color )` on pixel memory. -/
  gblender_blit_run : GBlenderBlitRec → grColor → Pixels → Pixels
  /-- The error code `gr_err_bad_argument`. -/
  gr_err_bad_argument : Int

/-- One call made by `grBlitGlyphToSurface`, in the order of execution. -/
inductive GrCall where
  | blit_init (dst_x dst_y : Int)
  | blit_run (blit : GBlenderBlitRec) (color : grColor)
  deriving DecidableEq, Repr

/-- The mutable state around a call: pixel memory, the global `grError`, and
the log of calls made so far. -/
structure GrState where
  pixels : Pixels
  grError : Int
  calls : List GrCall

/-- The function `_gblender_blit_dummy`: it ignores both arguments and writes
nothing. -/
def _gblender_blit_dummy (_blit : GBlenderBlitRec) (_color : grColor) (px : Pixels) : Pixels :=
  px

/-- The function `gblender_blit_init`.  It receives the descriptor `blit` as
found (the caller passes an uninitialised local) and returns the `int` result
together with the descriptor as left behind. -/
def gblender_blit_init (ext : GrExternals) (blit : GBlenderBlitRec) (dst_x dst_y : Int)
    (surface : grSurface) (glyph : grBitmap) : Int × GBlenderBlitRec :=
  let src_x : Int := 0
  let src_y : Int := 0
  let target : grBitmap := surface.bitmap
  let src_buffer : Int := glyph.buffer
  let src_pitch : Int := glyph.pitch
  let src_width : Int := glyph.width
  let src_height : Int := glyph.rows
  let dst_buffer : Int := target.buffer
  let dst_pitch : Int := target.pitch
  let dst_width : Int := target.width
  let dst_height : Int := target.rows
  if glyph.grays ≠ 256 then (-2, blit) else
  let src_sel : Option GBlenderSourceFormat :=
    match glyph.mode with
    | gr_pixel_mode_gray => some GBLENDER_SOURCE_GRAY8
    | gr_pixel_mode_lcd => some GBLENDER_SOURCE_HRGB
    | gr_pixel_mode_lcdv => some GBLENDER_SOURCE_VRGB
    | gr_pixel_mode_lcd2 => some GBLENDER_SOURCE_HBGR
    | gr_pixel_mode_lcdv2 => some GBLENDER_SOURCE_VBGR
    | gr_pixel_mode_bgra => some GBLENDER_SOURCE_BGRA
    | _ => none
  match src_sel with
  | none => (-2, blit)
  | some src_format =>
  let dst_sel : Option GBlenderTargetFormat :=
    match target.mode with
    | gr_pixel_mode_gray => some GBLENDER_TARGET_GRAY8
    | gr_pixel_mode_rgb32 => some GBLENDER_TARGET_RGB32
    | gr_pixel_mode_rgb24 => some GBLENDER_TARGET_RGB24
    | gr_pixel_mode_rgb565 => some GBLENDER_TARGET_RGB565
    | gr_pixel_mode_rgb555 => some GBLENDER_TARGET_RGB555
    | _ => none
  match dst_sel with
  | none => (-2, blit)
  | some dst_format =>
  let blit := { blit with blender := surface.gblender,
                          blit_func := ext.blit_funcs dst_format src_format }
  if blit.blit_func = GBlenderBlitFunc.null then
    (-2, { blit with blit_func := GBlenderBlitFunc.dummy })
  else
  let src_width := if glyph.mode = gr_pixel_mode_lcd ∨ glyph.mode = gr_pixel_mode_lcd2
    then Int.tdiv src_width 3 else src_width
  let src_height := if glyph.mode = gr_pixel_mode_lcdv ∨ glyph.mode = gr_pixel_mode_lcdv2
    then Int.tdiv src_height 3 else src_height
  let src_width := if dst_x < 0 then src_width + dst_x else src_width
  let src_x := if dst_x < 0 then src_x - dst_x else src_x
  let dst_x := if dst_x < 0 then 0 else dst_x
  let delta := dst_x + src_width - dst_width
  let src_width := if delta > 0 then src_width - delta else src_width
  let src_height := if dst_y < 0 then src_height + dst_y else src_height
  let src_y := if dst_y < 0 then src_y - dst_y else src_y
  let dst_y := if dst_y < 0 then 0 else dst_y
  let delta := dst_y + src_height - dst_height
  let src_height := if delta > 0 then src_height - delta else src_height
  if src_width ≤ 0 ∨ src_height ≤ 0 then
    (-1, { blit with blit_func := GBlenderBlitFunc.dummy })
  else
  let src_line := src_buffer + src_pitch * src_y
  let src_line := if src_pitch < 0 then src_line - (src_height - 1) * src_pitch else src_line
  let dst_line := dst_buffer + dst_pitch * dst_y
  let dst_line := if dst_pitch < 0 then dst_line - (dst_height - 1) * dst_pitch else dst_line
  (0, { blit with
          width := src_width, height := src_height,
          src_format := src_format, dst_format := dst_format,
          src_x := src_x, src_y := src_y, src_line := src_line, src_pitch := src_pitch,
          dst_x := dst_x, dst_y := dst_y, dst_line := dst_line, dst_pitch := dst_pitch })

/-- The function `grBlitGlyphToSurface`.  `gblit` is the indeterminate initial
content of the local descriptor.  The result is the returned `int` and the
state after the call; the surface record is only read.  The positions `x` and
`y` are the values received by the `int` parameters of `gblender_blit_init`. -/
def grBlitGlyphToSurface (ext : GrExternals) (gblit : GBlenderBlitRec)
    (surface : Option grSurface) (glyph : Option grBitmap) (x y : Int) (color : grColor)
    (st : GrState) : Int × GrState :=
  match surface, glyph with
  | none, _ => (-1, { st with grError := ext.gr_err_bad_argument })
  | _, none => (-1, { st with grError := ext.gr_err_bad_argument })
  | some surface, some glyph =>
    if glyph.rows = 0 ∨ glyph.width = 0 then (0, st) else
    let r := gblender_blit_init ext gblit x y surface glyph
    let st := { st with calls := st.calls ++ [GrCall.blit_init x y] }
    if r.1 = -1 then (0, st)
    else if r.1 = -2 then (-1, st)
    else
      (1, { st with pixels := ext.gblender_blit_run r.2 color st.pixels,
                    calls := st.calls ++ [GrCall.blit_run r.2 color] })

/-- Effective source width: `glyph.width / 3` for `lcd` and `lcd2` sources. -/
def effWidth (glyph : grBitmap) : Int :=
  if glyph.mode = gr_pixel_mode_lcd ∨ glyph.mode = gr_pixel_mode_lcd2
  then Int.tdiv glyph.width 3 else glyph.width

/-- Effective source height: `glyph.rows / 3` for `lcdv` and `lcdv2` sources. -/
def effHeight (glyph : grBitmap) : Int :=
  if glyph.mode = gr_pixel_mode_lcdv ∨ glyph.mode = gr_pixel_mode_lcdv2
  then Int.tdiv glyph.rows 3 else glyph.rows

/-- The first switch of gblender_blit_init as a function: the source format a
glyph mode resolves to, if any. -/
def srcFormatOf : grPixelMode → Option GBlenderSourceFormat
  | gr_pixel_mode_gray => some GBLENDER_SOURCE_GRAY8
  | gr_pixel_mode_lcd => some GBLENDER_SOURCE_HRGB
  | gr_pixel_mode_lcdv => some GBLENDER_SOURCE_VRGB
  | gr_pixel_mode_lcd2 => some GBLENDER_SOURCE_HBGR
  | gr_pixel_mode_lcdv2 => some GBLENDER_SOURCE_VBGR
  | gr_pixel_mode_bgra => some GBLENDER_SOURCE_BGRA
  | _ => none

/-- The second switch of gblender_blit_init as a function: the target format a
surface mode resolves to, if any. -/
def dstFormatOf : grPixelMode → Option GBlenderTargetFormat
  | gr_pixel_mode_gray => some GBLENDER_TARGET_GRAY8
  | gr_pixel_mode_rgb32 => some GBLENDER_TARGET_RGB32
  | gr_pixel_mode_rgb24 => some GBLENDER_TARGET_RGB24
  | gr_pixel_mode_rgb565 => some GBLENDER_TARGET_RGB565
  | gr_pixel_mode_rgb555 => some GBLENDER_TARGET_RGB555
  | _ => none

/-- Source modes accepted by the first switch of gblender_blit_init. -/
def acceptedSourceModes : List grPixelMode :=
  [gr_pixel_mode_gray, gr_pixel_mode_lcd, gr_pixel_mode_lcdv, gr_pixel_mode_lcd2,
   gr_pixel_mode_lcdv2, gr_pixel_mode_bgra]

/-- Target modes accepted by the second switch of gblender_blit_init. -/
def acceptedTargetModes : List grPixelMode :=
  [gr_pixel_mode_gray, gr_pixel_mode_rgb32, gr_pixel_mode_rgb24, gr_pixel_mode_rgb565,
   gr_pixel_mode_rgb555]

/-- One axis of the clipping code: the extent left of a source of extent len
placed at pos after the two clipping steps against a target of extent lim. -/
def clipLen (pos len lim : Int) : Int :=
  let len1 := if pos < 0 then len + pos else len
  let pos1 := if pos < 0 then 0 else pos
  let delta := pos1 + len1 - lim
  if delta > 0 then len1 - delta else len1

/-- One axis of the clipping code: the source start coordinate. -/
def clipSrc (pos : Int) : Int := if pos < 0 then 0 - pos else 0

/-- One axis of the clipping code: the clamped destination coordinate. -/
def clipDst (pos : Int) : Int := if pos < 0 then 0 else pos

/-- The row-start computation shared by the source and destination lines: the
address of row number row, corrected by (rows - 1) * pitch for a negative pitch. -/
def rowStart (buffer pitch row rows : Int) : Int :=
  if pitch < 0 then buffer + pitch * row - (rows - 1) * pitch else buffer + pitch * row

/-- The body of gblender_blit_init with the clipping steps folded into clipLen,
clipSrc, clipDst and rowStart; it is definitionally the same function. -/
def initForm (ext : GrExternals) (blit : GBlenderBlitRec) (dst_x dst_y : Int)
    (surface : grSurface) (glyph : grBitmap) : Int × GBlenderBlitRec :=
  if glyph.grays ≠ 256 then (-2, blit) else
  match srcFormatOf glyph.mode with
  | none => (-2, blit)
  | some sf =>
  match dstFormatOf surface.bitmap.mode with
  | none => (-2, blit)
  | some df =>
  if ext.blit_funcs df sf = GBlenderBlitFunc.null then
    (-2, { blit with blender := surface.gblender, blit_func := GBlenderBlitFunc.dummy })
  else if clipLen dst_x (effWidth glyph) surface.bitmap.width ≤ 0 ∨
          clipLen dst_y (effHeight glyph) surface.bitmap.rows ≤ 0 then
    (-1, { blit with blender := surface.gblender, blit_func := GBlenderBlitFunc.dummy })
  else
    (0, { width := clipLen dst_x (effWidth glyph) surface.bitmap.width,
          height := clipLen dst_y (effHeight glyph) surface.bitmap.rows,
          src_line := rowStart glyph.buffer glyph.pitch (clipSrc dst_y)
                        (clipLen dst_y (effHeight glyph) surface.bitmap.rows),
          src_pitch := glyph.pitch,
          src_x := clipSrc dst_x, src_y := clipSrc dst_y,
          dst_line := rowStart surface.bitmap.buffer surface.bitmap.pitch (clipDst dst_y)
                        surface.bitmap.rows,
          dst_pitch := surface.bitmap.pitch,
          dst_x := clipDst dst_x, dst_y := clipDst dst_y,
          src_format := sf, dst_format := df,
          blender := surface.gblender,
          blit_func := ext.blit_funcs df sf })

/-- The effective glyph rectangle placed at (x, y) and the target rectangle
have a pixel in common. -/
def rectsMeet (x y : Int) (surface : grSurface) (glyph : grBitmap) : Prop :=
  ∃ px py : Int,
    x ≤ px ∧ px < x + effWidth glyph ∧ 0 ≤ px ∧ px < surface.bitmap.width ∧
    y ≤ py ∧ py < y + effHeight glyph ∧ 0 ≤ py ∧ py < surface.bitmap.rows

/-- Two results of gblender_blit_init agree on the return code, the clipped
extents and the destination rectangle. -/
def sameGeometry (a b : Int × GBlenderBlitRec) : Prop :=
  a.1 = b.1 ∧ a.2.width = b.2.width ∧ a.2.height = b.2.height ∧
  a.2.dst_x = b.2.dst_x ∧ a.2.dst_y = b.2.dst_y

/-- The surface with the pitch of its bitmap replaced, everything else kept. -/
def withPitch (surface : grSurface) (pitch : Int) : grSurface :=
  { surface with bitmap := { surface.bitmap with pitch := pitch } }

/-- A sample dispatch environment: every pair has a kernel except
(gray8 target, BGRA source); the runner stores 255 at the first destination byte. -/
def sampleExt : GrExternals where
  blit_funcs := fun df sf =>
    if df = GBLENDER_TARGET_GRAY8 ∧ sf = GBLENDER_SOURCE_BGRA then GBlenderBlitFunc.null
    else GBlenderBlitFunc.kernel 1
  gblender_blit_run := fun b _ px => Function.update px b.dst_line 255
  gr_err_bad_argument := -2

/-- A sample initial descriptor. -/
def sampleBlit : GBlenderBlitRec where
  width := 0
  height := 0
  src_line := 0
  src_pitch := 0
  src_x := 0
  src_y := 0
  dst_line := 0
  dst_pitch := 0
  dst_x := 0
  dst_y := 0
  src_format := GBLENDER_SOURCE_GRAY8
  dst_format := GBLENDER_TARGET_GRAY8
  blender := 0
  blit_func := GBlenderBlitFunc.null

/-- A sample pen colour. -/
def sampleColor : grColor := { value := 0, chroma := [0, 0, 0, 0] }

/-- A sample bitmap: rows, width, pitch, mode and buffer address are given, with
256 gray levels. -/
def sampleBitmap (rows width pitch : Int) (mode : grPixelMode) (buffer : Int) : grBitmap :=
  { rows := rows, width := width, pitch := pitch, mode := mode, grays := 256, buffer := buffer }

/-- A sample surface around a target bitmap. -/
def sampleSurface (target : grBitmap) : grSurface :=
  { bitmap := target, gblender := 7, origin := none, gray_spans := none, color := sampleColor }

/-- A sample target: a 10x10 top-down gray surface with its buffer at address 1000. -/
def sampleTarget : grSurface := sampleSurface (sampleBitmap 10 10 10 gr_pixel_mode_gray 1000)

/-- A sample glyph: a 4x4 top-down gray bitmap with its buffer at address 100. -/
def sampleGlyph : grBitmap := sampleBitmap 4 4 4 gr_pixel_mode_gray 100

/-- A sample state: zeroed pixel memory, no error, no call made. -/
def sampleState : GrState := { pixels := fun _ => 0, grError := 0, calls := [] }


/-! ### Pixel codec macros -/

/-- The cast to unsigned char. -/
def toUChar (x : Nat) : Nat := x % 2 ^ 8

/-- The cast to unsigned short. -/
def toUShort (x : Nat) : Nat := x % 2 ^ 16

/-- Modelled from the spec: the typedef of GBlenderPixel is in a header outside
the translated sources; following the spec (RGB32 is a single machine word with
an unused top byte, four bytes per pixel) it is an unsigned 32-bit word, and
this is the cast to it. -/
def toGBlenderPixel (x : Nat) : Nat := x % 2 ^ 32

/-- The macro GRGB_PACK; each shift is done in GBlenderPixel. -/
def GRGB_PACK (r g b : Nat) : Nat :=
  toGBlenderPixel (toGBlenderPixel r <<< 16) |||
  toGBlenderPixel (toGBlenderPixel g <<< 8) |||
  toGBlenderPixel b

/-- The macro GRGB_TO_RGB565. -/
def GRGB_TO_RGB565 (r g b : Nat) : Nat :=
  toUShort (((r <<< 8) &&& 0xF800) ||| ((g <<< 3) &&& 0x07E0) ||| ((b >>> 3) &&& 0x001F))

/-- The macro GRGB565_TO_RED. -/
def GRGB565_TO_RED (p : Nat) : Nat := ((p >>> 8) &&& 0xF8) ||| ((p >>> 13) &&& 0x07)

/-- The macro GRGB565_TO_GREEN. -/
def GRGB565_TO_GREEN (p : Nat) : Nat := ((p >>> 3) &&& 0xFC) ||| ((p >>> 9) &&& 0x03)

/-- The macro GRGB565_TO_BLUE. -/
def GRGB565_TO_BLUE (p : Nat) : Nat := ((p <<< 3) &&& 0xF8) ||| ((p >>> 2) &&& 0x07)

/-- The macro GRGB565_TO_RGB24. -/
def GRGB565_TO_RGB24 (p : Nat) : Nat :=
  ((p <<< 8) &&& 0xF80000) ||| ((p <<< 3) &&& 0x0700F8) ||| ((p <<< 5) &&& 0x00FC00) |||
  ((p >>> 1) &&& 0x000300) ||| ((p >>> 2) &&& 0x000007)

/-- The macro GRGB24_TO_RGB565. -/
def GRGB24_TO_RGB565 (p : Nat) : Nat :=
  toUShort (((p >>> 8) &&& 0xF800) ||| ((p >>> 5) &&& 0x07E0) ||| ((p >>> 3) &&& 0x001F))

/-- The macro GRGB_TO_RGB555. -/
def GRGB_TO_RGB555 (r g b : Nat) : Nat :=
  toUShort (((r <<< 7) &&& 0x7C00) ||| ((g <<< 2) &&& 0x03E0) ||| ((b >>> 3) &&& 0x001F))

/-- The macro GRGB555_TO_RED. -/
def GRGB555_TO_RED (p : Nat) : Nat := ((p >>> 7) &&& 0xF8) ||| ((p >>> 12) &&& 0x07)

/-- The macro GRGB555_TO_GREEN. -/
def GRGB555_TO_GREEN (p : Nat) : Nat := ((p >>> 2) &&& 0xF8) ||| ((p >>> 7) &&& 0x07)

/-- The macro GRGB555_TO_BLUE. -/
def GRGB555_TO_BLUE (p : Nat) : Nat := ((p <<< 3) &&& 0xF8) ||| ((p >>> 2) &&& 0x07)

/-- The macro GRGB555_TO_RGB24. -/
def GRGB555_TO_RGB24 (p : Nat) : Nat :=
  ((p <<< 9) &&& 0xF80000) ||| ((p <<< 4) &&& 0x070000) ||| ((p <<< 6) &&& 0x00F800) |||
  ((p <<< 1) &&& 0x000700) ||| ((p <<< 3) &&& 0x0000F8) ||| ((p >>> 2) &&& 0x000007)

/-- The macro GRGB24_TO_RGB555. -/
def GRGB24_TO_RGB555 (p : Nat) : Nat :=
  toUShort (((p >>> 9) &&& 0x7C00) ||| ((p >>> 6) &&& 0x03E0) ||| ((p >>> 3) &&& 0x001F))

/-- The macro GRGB_TO_GRAY8. -/
def GRGB_TO_GRAY8 (r g b : Nat) : Nat := toUChar ((3 * r + 6 * g + b) / 10)

/-- The macro GGRAY8_TO_RGB24. -/
def GGRAY8_TO_RGB24 (p : Nat) : Nat := GRGB_PACK p p p

/-- The macro GRGB24_TO_GRAY8. -/
def GRGB24_TO_GRAY8 (p : Nat) : Nat :=
  toUChar ((3 * ((p >>> 16) &&& 0xFF) + 6 * ((p >>> 8) &&& 0xFF) + (p &&& 0xFF)) / 10)

/-- The byte color.chroma[i] of the pen colour. -/
def chromaAt (color : grColor) (i : Nat) : Nat := color.chroma.getD i 0

/-- The macro GDST_STORE3: the bytes written to d[0], d[1], d[2]. -/
def GDST_STORE3 (r g b : Nat) : Nat × Nat × Nat := (toUChar r, toUChar g, toUChar b)

namespace rgb32

/-- The macro GDST_INCR of the rgb32 routines. -/
def GDST_INCR : Int := 4

/-- The macro GDST_CHANNELS of the rgb32 routines: the declared (r, g, b). -/
def GDST_CHANNELS (color : grColor) : Nat × Nat × Nat :=
  ((color.value >>> 16) &&& 255, (color.value >>> 8) &&& 255, color.value &&& 255)

/-- The macro GDST_PIX of the rgb32 routines. -/
def GDST_PIX (color : grColor) : Nat := color.value &&& 0xFFFFFF

/-- The macro GDST_READ of the rgb32 routines, from the word at d. -/
def GDST_READ (word : Nat) : Nat := word &&& 0xFFFFFF

/-- The macro GDST_COPY of the rgb32 routines: the word stored at d. -/
def GDST_COPY (color : grColor) : Nat := toGBlenderPixel color.value

/-- The macro GDST_STOREC of the rgb32 routines: the word stored at d. -/
def GDST_STOREC (r g b : Nat) : Nat := GRGB_PACK r g b

end rgb32

namespace rgb24

/-- The macro GDST_INCR of the rgb24 routines. -/
def GDST_INCR : Int := 3

/-- The macro GDST_CHANNELS of the rgb24 routines: the declared (r, g, b). -/
def GDST_CHANNELS (color : grColor) : Nat × Nat × Nat :=
  (chromaAt color 0, chromaAt color 1, chromaAt color 2)

/-- The macro GDST_PIX of the rgb24 routines. -/
def GDST_PIX (color : grColor) : Nat :=
  GRGB_PACK (chromaAt color 0) (chromaAt color 1) (chromaAt color 2)

/-- The macro GDST_READ of the rgb24 routines, from the bytes d[0], d[1], d[2]. -/
def GDST_READ (d : Nat × Nat × Nat) : Nat := GRGB_PACK d.1 d.2.1 d.2.2

/-- The macro GDST_COPY of the rgb24 routines: the bytes stored at d. -/
def GDST_COPY (color : grColor) : Nat × Nat × Nat :=
  GDST_STORE3 (chromaAt color 0) (chromaAt color 1) (chromaAt color 2)

/-- The macro GDST_STOREC of the rgb24 routines: the bytes stored at d. -/
def GDST_STOREC (r g b : Nat) : Nat × Nat × Nat := GDST_STORE3 r g b

end rgb24

namespace rgb565

/-- The macro GDST_INCR of the rgb565 routines. -/
def GDST_INCR : Int := 2

/-- The macro GDST_CHANNELS of the rgb565 routines: the declared (r, g, b). -/
def GDST_CHANNELS (color : grColor) : Nat × Nat × Nat :=
  (GRGB565_TO_RED color.value, GRGB565_TO_GREEN color.value, GRGB565_TO_BLUE color.value)

/-- The macro GDST_PIX of the rgb565 routines. -/
def GDST_PIX (color : grColor) : Nat := GRGB565_TO_RGB24 color.value

/-- The macro GDST_READ of the rgb565 routines, from the unsigned short at d. -/
def GDST_READ (half : Nat) : Nat := GRGB565_TO_RGB24 (toGBlenderPixel half)

/-- The macro GDST_COPY of the rgb565 routines: the unsigned short stored at d. -/
def GDST_COPY (color : grColor) : Nat := toUShort color.value

/-- The macro GDST_STOREC of the rgb565 routines: the unsigned short stored at d. -/
def GDST_STOREC (r g b : Nat) : Nat := GRGB_TO_RGB565 r g b

end rgb565

namespace rgb555

/-- The macro GDST_INCR of the rgb555 routines. -/
def GDST_INCR : Int := 2

/-- The macro GDST_CHANNELS of the rgb555 routines: the declared (r, g, b). -/
def GDST_CHANNELS (color : grColor) : Nat × Nat × Nat :=
  (GRGB555_TO_RED color.value, GRGB555_TO_GREEN color.value, GRGB555_TO_BLUE color.value)

/-- The macro GDST_PIX of the rgb555 routines. -/
def GDST_PIX (color : grColor) : Nat := GRGB555_TO_RGB24 color.value

/-- The macro GDST_READ of the rgb555 routines, from the unsigned short at d. -/
def GDST_READ (half : Nat) : Nat := GRGB555_TO_RGB24 (toGBlenderPixel half)

/-- The macro GDST_COPY of the rgb555 routines: the unsigned short stored at d. -/
def GDST_COPY (color : grColor) : Nat := toUShort color.value

/-- The macro GDST_STOREC of the rgb555 routines: the unsigned short stored at d. -/
def GDST_STOREC (r g b : Nat) : Nat := GRGB_TO_RGB555 r g b

end rgb555

namespace gray8

/-- The macro GDST_INCR of the gray8 routines. -/
def GDST_INCR : Int := 1

/-- The macro GDST_CHANNELS of the gray8 routines: the declared (r, g, b). -/
def GDST_CHANNELS (color : grColor) : Nat × Nat × Nat :=
  (color.value, color.value, color.value)

/-- The macro GDST_PIX of the gray8 routines. -/
def GDST_PIX (color : grColor) : Nat := GGRAY8_TO_RGB24 color.value

/-- The macro GDST_READ of the gray8 routines, from the byte d[0]. -/
def GDST_READ (byte : Nat) : Nat := GGRAY8_TO_RGB24 byte

/-- The macro GDST_COPY of the gray8 routines: the byte stored at d. -/
def GDST_COPY (color : grColor) : Nat := toUChar color.value

/-- The macro GDST_STOREC of the gray8 routines: the byte stored at d. -/
def GDST_STOREC (r g b : Nat) : Nat := GRGB_TO_GRAY8 r g b

end gray8

/-! ### Pen and brush -/

/-- The span functions generated per target format in a header outside the
translated sources, as the addresses stored in surface.gray_spans. -/
structure GrSpanFuncs where
  _gblender_spans_gray8 : Nat
  _gblender_spans_rgb555 : Nat
  _gblender_spans_rgb565 : Nat
  _gblender_spans_rgb24 : Nat
  _gblender_spans_rgb32 : Nat

/-- The function `grSetTargetPenBrush`, on the surface its argument points to;
the result is the surface as left behind. -/
def grSetTargetPenBrush (spans : GrSpanFuncs) (surface : grSurface) (x y : Int)
    (color : grColor) : grSurface :=
  let target : grBitmap := surface.bitmap
  let origin : Int := target.buffer
  let origin : Int :=
    if target.pitch < 0 then origin + (y - target.rows) * target.pitch
    else origin + (y - 1) * target.pitch
  let surface : grSurface := { surface with origin := some origin }
  let surface : grSurface :=
    match target.mode with
    | gr_pixel_mode_gray =>
      { surface with origin := some (origin + x),
                     gray_spans := some spans._gblender_spans_gray8 }
    | gr_pixel_mode_rgb555 =>
      { surface with origin := some (origin + x * 2),
                     gray_spans := some spans._gblender_spans_rgb555 }
    | gr_pixel_mode_rgb565 =>
      { surface with origin := some (origin + x * 2),
                     gray_spans := some spans._gblender_spans_rgb565 }
    | gr_pixel_mode_rgb24 =>
      { surface with origin := some (origin + x * 3),
                     gray_spans := some spans._gblender_spans_rgb24 }
    | gr_pixel_mode_rgb32 =>
      { surface with origin := some (origin + x * 4),
                     gray_spans := some spans._gblender_spans_rgb32 }
    | _ => { surface with origin := none, gray_spans := none }
  { surface with color := color }

/-- Bytes per pixel of a target mode supported by grSetTargetPenBrush. -/
def bytesPerPixel : grPixelMode → Option Int
  | gr_pixel_mode_gray => some 1
  | gr_pixel_mode_rgb555 => some 2
  | gr_pixel_mode_rgb565 => some 2
  | gr_pixel_mode_rgb24 => some 3
  | gr_pixel_mode_rgb32 => some 4
  | _ => none

/-- The address of pixel (column, row) of a bitmap under the signed-pitch
convention: row 0 is at buffer for a pitch >= 0 and at buffer - (rows - 1) * pitch
for a pitch < 0. -/
def pixelAddress (bitmap : grBitmap) (bpp column row : Int) : Int :=
  if bitmap.pitch < 0 then
    bitmap.buffer - (bitmap.rows - 1) * bitmap.pitch + row * bitmap.pitch + column * bpp
  else bitmap.buffer + row * bitmap.pitch + column * bpp

/-- Sample span function addresses. -/
def sampleSpans : GrSpanFuncs where
  _gblender_spans_gray8 := 11
  _gblender_spans_rgb555 := 12
  _gblender_spans_rgb565 := 13
  _gblender_spans_rgb24 := 14
  _gblender_spans_rgb32 := 15

/-! ### Cell stores of the 16-bit targets -/

namespace rgb565

/-- The macro GDST_STOREB of the rgb565 routines: the unsigned short stored at d
from the three channel cells at _g = cells + a * 3. -/
def GDST_STOREB (cells : Nat → Nat) (a : Nat) : Nat :=
  GRGB_TO_RGB565 (cells (a * 3)) (cells (a * 3 + 1)) (cells (a * 3 + 2))

/-- The macro GDST_STOREP of the rgb565 routines: the unsigned short stored at d
from the pixel cell _pix = cells[a]. -/
def GDST_STOREP (cells : Nat → Nat) (a : Nat) : Nat := GRGB24_TO_RGB565 (cells a)

end rgb565

namespace rgb555

/-- The macro GDST_STOREB of the rgb555 routines: the unsigned short stored at d
from the three channel cells at _g = cells + a * 3. -/
def GDST_STOREB (cells : Nat → Nat) (a : Nat) : Nat :=
  GRGB_TO_RGB555 (cells (a * 3)) (cells (a * 3 + 1)) (cells (a * 3 + 2))

/-- The macro GDST_STOREP of the rgb555 routines: the unsigned short stored at d
from the pixel cell _pix = cells[a]. -/
def GDST_STOREP (cells : Nat → Nat) (a : Nat) : Nat := GRGB24_TO_RGB555 (cells a)

end rgb555

/-! ### Transposition of the blit inputs -/

/-- The glyph mode with the two axes exchanged: lcd with lcdv and lcd2 with lcdv2. -/
def transposeMode : grPixelMode → grPixelMode
  | gr_pixel_mode_lcd => gr_pixel_mode_lcdv
  | gr_pixel_mode_lcdv => gr_pixel_mode_lcd
  | gr_pixel_mode_lcd2 => gr_pixel_mode_lcdv2
  | gr_pixel_mode_lcdv2 => gr_pixel_mode_lcd2
  | m => m

/-- The source format with the two axes exchanged. -/
def transposeFormat : GBlenderSourceFormat → GBlenderSourceFormat
  | GBLENDER_SOURCE_HRGB => GBLENDER_SOURCE_VRGB
  | GBLENDER_SOURCE_VRGB => GBLENDER_SOURCE_HRGB
  | GBLENDER_SOURCE_HBGR => GBLENDER_SOURCE_VBGR
  | GBLENDER_SOURCE_VBGR => GBLENDER_SOURCE_HBGR
  | f => f

/-- The glyph with width and rows exchanged and its mode transposed. -/
def transposeGlyph (glyph : grBitmap) : grBitmap :=
  { glyph with rows := glyph.width, width := glyph.rows, mode := transposeMode glyph.mode }

/-- The surface with the width and rows of its bitmap exchanged. -/
def transposeTarget (surface : grSurface) : grSurface :=
  { surface with
    bitmap := { surface.bitmap with rows := surface.bitmap.width, width := surface.bitmap.rows } }

/-- Count of gblender_blit_run entries in a call log. -/
def runCount : List GrCall → Nat
  | [] => 0
  | GrCall.blit_run _ _ :: rest => runCount rest + 1
  | GrCall.blit_init _ _ :: rest => runCount rest

theorem gblender_blit_init_eq (ext : GrExternals) (blit : GBlenderBlitRec) (dst_x dst_y : Int)
    (surface : grSurface) (glyph : grBitmap) :
    gblender_blit_init ext blit dst_x dst_y surface glyph
      = initForm ext blit dst_x dst_y surface glyph := rfl

theorem clipLen_eq (pos len lim : Int) :
    clipLen pos len lim = min (pos + len) lim - max pos 0 := by
  unfold clipLen
  simp only []
  split_ifs <;> omega

theorem clipSrc_eq (pos : Int) : clipSrc pos = max (-pos) 0 := by
  unfold clipSrc
  split_ifs <;> omega

theorem clipDst_eq (pos : Int) : clipDst pos = max pos 0 := by
  unfold clipDst
  split_ifs <;> omega

theorem srcFormatOf_isSome_iff (m : grPixelMode) :
    (srcFormatOf m).isSome = true ↔ m ∈ acceptedSourceModes := by
  cases m <;> simp [srcFormatOf, acceptedSourceModes]

theorem dstFormatOf_isSome_iff (m : grPixelMode) :
    (dstFormatOf m).isSome = true ↔ m ∈ acceptedTargetModes := by
  cases m <;> simp [dstFormatOf, acceptedTargetModes]

/-- Inversion of a successful call: the formats resolved, the table entry is
not null, both clipped extents are positive, and the descriptor is filled in. -/
theorem init_ok_inv (ext : GrExternals) (blit : GBlenderBlitRec) (dst_x dst_y : Int)
    (surface : grSurface) (glyph : grBitmap)
    (h : (gblender_blit_init ext blit dst_x dst_y surface glyph).1 = 0) :
    ∃ sf df, glyph.grays = 256 ∧ srcFormatOf glyph.mode = some sf ∧
      dstFormatOf surface.bitmap.mode = some df ∧
      ext.blit_funcs df sf ≠ GBlenderBlitFunc.null ∧
      0 < clipLen dst_x (effWidth glyph) surface.bitmap.width ∧
      0 < clipLen dst_y (effHeight glyph) surface.bitmap.rows ∧
      (gblender_blit_init ext blit dst_x dst_y surface glyph).2 =
        { width := clipLen dst_x (effWidth glyph) surface.bitmap.width,
          height := clipLen dst_y (effHeight glyph) surface.bitmap.rows,
          src_line := rowStart glyph.buffer glyph.pitch (clipSrc dst_y)
                        (clipLen dst_y (effHeight glyph) surface.bitmap.rows),
          src_pitch := glyph.pitch,
          src_x := clipSrc dst_x, src_y := clipSrc dst_y,
          dst_line := rowStart surface.bitmap.buffer surface.bitmap.pitch (clipDst dst_y)
                        surface.bitmap.rows,
          dst_pitch := surface.bitmap.pitch,
          dst_x := clipDst dst_x, dst_y := clipDst dst_y,
          src_format := sf, dst_format := df,
          blender := surface.gblender,
          blit_func := ext.blit_funcs df sf } := by
  rw [gblender_blit_init_eq] at h ⊢
  unfold initForm at h ⊢
  by_cases hg : glyph.grays = 256
  · cases hs : srcFormatOf glyph.mode with
    | none => simp [hg, hs] at h
    | some sf =>
      cases hd : dstFormatOf surface.bitmap.mode with
      | none => simp [hg, hs, hd] at h
      | some df =>
        by_cases hn : ext.blit_funcs df sf = GBlenderBlitFunc.null
        · simp [hg, hs, hd, hn] at h
        · by_cases hc : clipLen dst_x (effWidth glyph) surface.bitmap.width ≤ 0 ∨
              clipLen dst_y (effHeight glyph) surface.bitmap.rows ≤ 0
          · simp [hg, hs, hd, hn, hc] at h
          · refine ⟨sf, df, hg, rfl, rfl, hn, ?_, ?_, ?_⟩
            · omega
            · omega
            · simp [hg, hn, hc]
  · simp [hg] at h

/-- Bounds of the descriptor of a successful call, for use in later proofs. -/
theorem init_ok_bounds (ext : GrExternals) (blit : GBlenderBlitRec)
    (dst_x dst_y : Int) (surface : grSurface) (glyph : grBitmap)
    (h : (gblender_blit_init ext blit dst_x dst_y surface glyph).1 = 0) :
    0 < (gblender_blit_init ext blit dst_x dst_y surface glyph).2.width ∧
    0 < (gblender_blit_init ext blit dst_x dst_y surface glyph).2.height ∧
    0 ≤ (gblender_blit_init ext blit dst_x dst_y surface glyph).2.dst_x ∧
    (gblender_blit_init ext blit dst_x dst_y surface glyph).2.dst_x +
      (gblender_blit_init ext blit dst_x dst_y surface glyph).2.width ≤ surface.bitmap.width ∧
    0 ≤ (gblender_blit_init ext blit dst_x dst_y surface glyph).2.dst_y ∧
    (gblender_blit_init ext blit dst_x dst_y surface glyph).2.dst_y +
      (gblender_blit_init ext blit dst_x dst_y surface glyph).2.height ≤ surface.bitmap.rows ∧
    0 ≤ (gblender_blit_init ext blit dst_x dst_y surface glyph).2.src_x ∧
    (gblender_blit_init ext blit dst_x dst_y surface glyph).2.src_x +
      (gblender_blit_init ext blit dst_x dst_y surface glyph).2.width ≤ effWidth glyph ∧
    0 ≤ (gblender_blit_init ext blit dst_x dst_y surface glyph).2.src_y ∧
    (gblender_blit_init ext blit dst_x dst_y surface glyph).2.src_y +
      (gblender_blit_init ext blit dst_x dst_y surface glyph).2.height ≤ effHeight glyph := by
  obtain ⟨sf, df, -, -, -, -, hw, hh, hb⟩ := init_ok_inv ext blit dst_x dst_y surface glyph h
  rw [hb]
  simp only []
  rw [clipLen_eq] at hw hh ⊢
  rw [clipLen_eq, clipSrc_eq, clipSrc_eq, clipDst_eq, clipDst_eq]
  refine ⟨hw, hh, ?_, ?_, ?_, ?_, ?_, ?_, ?_, ?_⟩ <;> omega

/-- C1. Whenever gblender_blit_init returns 0, the clipped rectangle has
positive width and height, lies inside the target bitmap at (dst_x, dst_y) and
inside the effective source rectangle at (src_x, src_y). -/
theorem blit_init_within_bounds (ext : GrExternals) (blit : GBlenderBlitRec)
    (dst_x dst_y : Int) (surface : grSurface) (glyph : grBitmap)
    (h : (gblender_blit_init ext blit dst_x dst_y surface glyph).1 = 0) :
    0 < (gblender_blit_init ext blit dst_x dst_y surface glyph).2.width ∧
    0 < (gblender_blit_init ext blit dst_x dst_y surface glyph).2.height ∧
    0 ≤ (gblender_blit_init ext blit dst_x dst_y surface glyph).2.dst_x ∧
    (gblender_blit_init ext blit dst_x dst_y surface glyph).2.dst_x +
      (gblender_blit_init ext blit dst_x dst_y surface glyph).2.width ≤ surface.bitmap.width ∧
    0 ≤ (gblender_blit_init ext blit dst_x dst_y surface glyph).2.dst_y ∧
    (gblender_blit_init ext blit dst_x dst_y surface glyph).2.dst_y +
      (gblender_blit_init ext blit dst_x dst_y surface glyph).2.height ≤ surface.bitmap.rows ∧
    0 ≤ (gblender_blit_init ext blit dst_x dst_y surface glyph).2.src_x ∧
    (gblender_blit_init ext blit dst_x dst_y surface glyph).2.src_x +
      (gblender_blit_init ext blit dst_x dst_y surface glyph).2.width ≤ effWidth glyph ∧
    0 ≤ (gblender_blit_init ext blit dst_x dst_y surface glyph).2.src_y ∧
    (gblender_blit_init ext blit dst_x dst_y surface glyph).2.src_y +
      (gblender_blit_init ext blit dst_x dst_y surface glyph).2.height ≤ effHeight glyph :=
  init_ok_bounds ext blit dst_x dst_y surface glyph h

/-- Witness of C1: a 4x4 gray glyph at (-1, 8) on a 10x10 gray target returns 0
and its descriptor stays inside both bitmaps. -/
theorem blit_init_within_bounds_witness :
    (gblender_blit_init sampleExt sampleBlit (-1) 8 sampleTarget sampleGlyph).1 = 0 ∧
    (0 < (gblender_blit_init sampleExt sampleBlit (-1) 8 sampleTarget sampleGlyph).2.width ∧
    0 < (gblender_blit_init sampleExt sampleBlit (-1) 8 sampleTarget sampleGlyph).2.height ∧
    0 ≤ (gblender_blit_init sampleExt sampleBlit (-1) 8 sampleTarget sampleGlyph).2.dst_x ∧
    (gblender_blit_init sampleExt sampleBlit (-1) 8 sampleTarget sampleGlyph).2.dst_x +
      (gblender_blit_init sampleExt sampleBlit (-1) 8 sampleTarget sampleGlyph).2.width
        ≤ sampleTarget.bitmap.width ∧
    0 ≤ (gblender_blit_init sampleExt sampleBlit (-1) 8 sampleTarget sampleGlyph).2.dst_y ∧
    (gblender_blit_init sampleExt sampleBlit (-1) 8 sampleTarget sampleGlyph).2.dst_y +
      (gblender_blit_init sampleExt sampleBlit (-1) 8 sampleTarget sampleGlyph).2.height
        ≤ sampleTarget.bitmap.rows ∧
    0 ≤ (gblender_blit_init sampleExt sampleBlit (-1) 8 sampleTarget sampleGlyph).2.src_x ∧
    (gblender_blit_init sampleExt sampleBlit (-1) 8 sampleTarget sampleGlyph).2.src_x +
      (gblender_blit_init sampleExt sampleBlit (-1) 8 sampleTarget sampleGlyph).2.width
        ≤ effWidth sampleGlyph ∧
    0 ≤ (gblender_blit_init sampleExt sampleBlit (-1) 8 sampleTarget sampleGlyph).2.src_y ∧
    (gblender_blit_init sampleExt sampleBlit (-1) 8 sampleTarget sampleGlyph).2.src_y +
      (gblender_blit_init sampleExt sampleBlit (-1) 8 sampleTarget sampleGlyph).2.height
        ≤ effHeight sampleGlyph) :=
  ⟨by decide,
   blit_init_within_bounds sampleExt sampleBlit (-1) 8 sampleTarget sampleGlyph (by decide)⟩

/-- The rectangles meet exactly when both clipped extents are positive. -/
theorem rectsMeet_iff (x y : Int) (surface : grSurface) (glyph : grBitmap) :
    rectsMeet x y surface glyph ↔
      0 < clipLen x (effWidth glyph) surface.bitmap.width ∧
      0 < clipLen y (effHeight glyph) surface.bitmap.rows := by
  rw [clipLen_eq, clipLen_eq]
  constructor
  · rintro ⟨px, py, h1, h2, h3, h4, h5, h6, h7, h8⟩
    constructor <;> omega
  · rintro ⟨hw, hh⟩
    refine ⟨max x 0, max y 0, ?_, ?_, ?_, ?_, ?_, ?_, ?_, ?_⟩ <;> omega

/-- The return code of gblender_blit_init when formats and table entry are fine. -/
theorem init_ret_of_accepted (ext : GrExternals) (blit : GBlenderBlitRec) (dst_x dst_y : Int)
    (surface : grSurface) (glyph : grBitmap) (sf : GBlenderSourceFormat)
    (df : GBlenderTargetFormat) (hg : glyph.grays = 256)
    (hs : srcFormatOf glyph.mode = some sf) (hd : dstFormatOf surface.bitmap.mode = some df)
    (hn : ext.blit_funcs df sf ≠ GBlenderBlitFunc.null) :
    (gblender_blit_init ext blit dst_x dst_y surface glyph).1 =
      if clipLen dst_x (effWidth glyph) surface.bitmap.width ≤ 0 ∨
         clipLen dst_y (effHeight glyph) surface.bitmap.rows ≤ 0 then -1 else 0 := by
  rw [gblender_blit_init_eq]
  unfold initForm
  simp only [hg, hs, hd, hn, ne_eq, not_true_eq_false, if_false]
  split_ifs <;> rfl

/-- The return code of gblender_blit_init when a format check fails. -/
theorem init_ret_of_rejected (ext : GrExternals) (blit : GBlenderBlitRec) (dst_x dst_y : Int)
    (surface : grSurface) (glyph : grBitmap)
    (hbad : glyph.grays ≠ 256 ∨ srcFormatOf glyph.mode = none ∨
      dstFormatOf surface.bitmap.mode = none ∨
      ∃ sf df, srcFormatOf glyph.mode = some sf ∧ dstFormatOf surface.bitmap.mode = some df ∧
        ext.blit_funcs df sf = GBlenderBlitFunc.null) :
    (gblender_blit_init ext blit dst_x dst_y surface glyph).1 = -2 := by
  rw [gblender_blit_init_eq]
  unfold initForm
  by_cases hg : glyph.grays = 256
  · cases hs : srcFormatOf glyph.mode with
    | none => simp [hg]
    | some sf =>
      cases hd : dstFormatOf surface.bitmap.mode with
      | none => simp [hg]
      | some df =>
        rcases hbad with h | h | h | ⟨sf1, df1, h1, h2, h3⟩
        · exact absurd hg h
        · rw [hs] at h; cases h
        · rw [hd] at h; cases h
        · rw [hs] at h1; rw [hd] at h2
          cases h1; cases h2
          simp [hg, h3]
  · simp [hg]

theorem mem_accepted_src (m : grPixelMode) (h : m ∈ acceptedSourceModes) :
    ∃ sf, srcFormatOf m = some sf := by
  have := (srcFormatOf_isSome_iff m).2 h
  exact Option.isSome_iff_exists.1 this

theorem mem_accepted_dst (m : grPixelMode) (h : m ∈ acceptedTargetModes) :
    ∃ df, dstFormatOf m = some df := by
  have := (dstFormatOf_isSome_iff m).2 h
  exact Option.isSome_iff_exists.1 this

theorem not_mem_accepted_src (m : grPixelMode) (h : m ∉ acceptedSourceModes) :
    srcFormatOf m = none := by
  cases hs : srcFormatOf m with
  | none => rfl
  | some sf => exact absurd ((srcFormatOf_isSome_iff m).1 (by simp [hs])) h

theorem not_mem_accepted_dst (m : grPixelMode) (h : m ∉ acceptedTargetModes) :
    dstFormatOf m = none := by
  cases hs : dstFormatOf m with
  | none => rfl
  | some sf => exact absurd ((dstFormatOf_isSome_iff m).1 (by simp [hs])) h

/-- C2. For non-null arguments with grays = 256, accepted source and target
modes and a non-null table entry, grBlitGlyphToSurface returns 0 exactly when
glyph.rows = 0, glyph.width = 0 or the effective glyph rectangle misses the
target rectangle, and then writes nothing and runs no kernel; otherwise it
returns 1 after exactly one gblender_blit_run on the descriptor built by
gblender_blit_init.  The result is never negative. -/
theorem blit_glyph_zero_iff_nothing_to_draw (ext : GrExternals) (gblit : GBlenderBlitRec)
    (surface : grSurface) (glyph : grBitmap) (x y : Int) (color : grColor) (st : GrState)
    (hgrays : glyph.grays = 256)
    (hsrc : glyph.mode ∈ acceptedSourceModes)
    (hdst : surface.bitmap.mode ∈ acceptedTargetModes)
    (hentry : ∀ sf df, srcFormatOf glyph.mode = some sf →
      dstFormatOf surface.bitmap.mode = some df → ext.blit_funcs df sf ≠ GBlenderBlitFunc.null) :
    ((grBlitGlyphToSurface ext gblit (some surface) (some glyph) x y color st).1 = 0 ↔
        (glyph.rows = 0 ∨ glyph.width = 0 ∨ ¬ rectsMeet x y surface glyph)) ∧
    ((grBlitGlyphToSurface ext gblit (some surface) (some glyph) x y color st).1 = 0 →
        (grBlitGlyphToSurface ext gblit (some surface) (some glyph) x y color st).2.pixels
          = st.pixels ∧
        ∀ b c, GrCall.blit_run b c ∉
          ((grBlitGlyphToSurface ext gblit (some surface) (some glyph) x y color st).2.calls).drop
            st.calls.length) ∧
    ((grBlitGlyphToSurface ext gblit (some surface) (some glyph) x y color st).1 ≠ 0 →
        (grBlitGlyphToSurface ext gblit (some surface) (some glyph) x y color st).1 = 1 ∧
        (grBlitGlyphToSurface ext gblit (some surface) (some glyph) x y color st).2.calls
          = st.calls ++ [GrCall.blit_init x y,
              GrCall.blit_run (gblender_blit_init ext gblit x y surface glyph).2 color] ∧
        (grBlitGlyphToSurface ext gblit (some surface) (some glyph) x y color st).2.pixels
          = ext.gblender_blit_run (gblender_blit_init ext gblit x y surface glyph).2 color
              st.pixels) ∧
    0 ≤ (grBlitGlyphToSurface ext gblit (some surface) (some glyph) x y color st).1 := by
  obtain ⟨sf, hs⟩ := mem_accepted_src _ hsrc
  obtain ⟨df, hd⟩ := mem_accepted_dst _ hdst
  have hret := init_ret_of_accepted ext gblit x y surface glyph sf df hgrays hs hd
    (hentry sf df hs hd)
  have hmeet := rectsMeet_iff x y surface glyph
  unfold grBlitGlyphToSurface
  simp only []
  by_cases h0 : glyph.rows = 0 ∨ glyph.width = 0
  · rw [if_pos h0]
    refine ⟨?_, ?_, ?_, ?_⟩
    · simp only [true_iff]
      rcases h0 with h | h
      · exact Or.inl h
      · exact Or.inr (Or.inl h)
    · intro _
      simp
    · intro h; exact absurd rfl h
    · simp
  · rw [if_neg h0]
    by_cases hc : clipLen x (effWidth glyph) surface.bitmap.width ≤ 0 ∨
        clipLen y (effHeight glyph) surface.bitmap.rows ≤ 0
    · rw [if_pos hc] at hret
      rw [if_pos hret]
      refine ⟨?_, ?_, ?_, ?_⟩
      · simp only [true_iff]
        refine Or.inr (Or.inr ?_)
        rw [hmeet]
        omega
      · intro _
        simp
      · intro h; exact absurd rfl h
      · simp
    · rw [if_neg hc] at hret
      have h1 : ¬ (gblender_blit_init ext gblit x y surface glyph).1 = -1 := by rw [hret]; decide
      have h2 : ¬ (gblender_blit_init ext gblit x y surface glyph).1 = -2 := by rw [hret]; decide
      rw [if_neg h1, if_neg h2]
      refine ⟨?_, ?_, ?_, ?_⟩
      · simp only [one_ne_zero, false_iff]
        rw [hmeet]
        intro h
        rcases h with h | h | h
        · exact h0 (Or.inl h)
        · exact h0 (Or.inr h)
        · omega
      · intro h; simp at h
      · intro _
        simp
      · simp

/-- Witness of C2: the sample glyph at (-1, 8) on the sample target is drawn. -/
theorem blit_glyph_zero_iff_nothing_to_draw_witness :
    (sampleGlyph.grays = 256 ∧ sampleGlyph.mode ∈ acceptedSourceModes ∧
      sampleTarget.bitmap.mode ∈ acceptedTargetModes) ∧
    (((grBlitGlyphToSurface sampleExt sampleBlit (some sampleTarget) (some sampleGlyph)
          (-1) 8 sampleColor sampleState).1 = 0 ↔
        (sampleGlyph.rows = 0 ∨ sampleGlyph.width = 0 ∨
          ¬ rectsMeet (-1) 8 sampleTarget sampleGlyph)) ∧
    ((grBlitGlyphToSurface sampleExt sampleBlit (some sampleTarget) (some sampleGlyph)
          (-1) 8 sampleColor sampleState).1 = 0 →
        (grBlitGlyphToSurface sampleExt sampleBlit (some sampleTarget) (some sampleGlyph)
          (-1) 8 sampleColor sampleState).2.pixels = sampleState.pixels ∧
        ∀ b c, GrCall.blit_run b c ∉
          ((grBlitGlyphToSurface sampleExt sampleBlit (some sampleTarget) (some sampleGlyph)
            (-1) 8 sampleColor sampleState).2.calls).drop sampleState.calls.length) ∧
    ((grBlitGlyphToSurface sampleExt sampleBlit (some sampleTarget) (some sampleGlyph)
          (-1) 8 sampleColor sampleState).1 ≠ 0 →
        (grBlitGlyphToSurface sampleExt sampleBlit (some sampleTarget) (some sampleGlyph)
          (-1) 8 sampleColor sampleState).1 = 1 ∧
        (grBlitGlyphToSurface sampleExt sampleBlit (some sampleTarget) (some sampleGlyph)
          (-1) 8 sampleColor sampleState).2.calls
          = sampleState.calls ++ [GrCall.blit_init (-1) 8,
              GrCall.blit_run
                (gblender_blit_init sampleExt sampleBlit (-1) 8 sampleTarget sampleGlyph).2
                sampleColor] ∧
        (grBlitGlyphToSurface sampleExt sampleBlit (some sampleTarget) (some sampleGlyph)
          (-1) 8 sampleColor sampleState).2.pixels
          = sampleExt.gblender_blit_run
              (gblender_blit_init sampleExt sampleBlit (-1) 8 sampleTarget sampleGlyph).2
              sampleColor sampleState.pixels) ∧
    0 ≤ (grBlitGlyphToSurface sampleExt sampleBlit (some sampleTarget) (some sampleGlyph)
          (-1) 8 sampleColor sampleState).1) :=
  ⟨⟨by decide, by decide, by decide⟩,
   blit_glyph_zero_iff_nothing_to_draw sampleExt sampleBlit sampleTarget sampleGlyph (-1) 8
     sampleColor sampleState (by decide) (by decide) (by decide)
     (by
       intro sf df h1 h2
       cases h1
       cases h2
       decide)⟩

/-- The effect of grBlitGlyphToSurface when gblender_blit_init rejects the
formats: -1 is returned after the single call of gblender_blit_init. -/
theorem blit_glyph_of_rejected (ext : GrExternals) (gblit : GBlenderBlitRec)
    (surface : grSurface) (glyph : grBitmap) (x y : Int) (color : grColor) (st : GrState)
    (hrows : glyph.rows ≠ 0) (hwidth : glyph.width ≠ 0)
    (hret : (gblender_blit_init ext gblit x y surface glyph).1 = -2) :
    grBlitGlyphToSurface ext gblit (some surface) (some glyph) x y color st
      = (-1, { st with calls := st.calls ++ [GrCall.blit_init x y] }) := by
  unfold grBlitGlyphToSurface
  simp only []
  have h0 : ¬ (glyph.rows = 0 ∨ glyph.width = 0) := by
    rintro (h | h)
    · exact hrows h
    · exact hwidth h
  have h1 : ¬ (gblender_blit_init ext gblit x y surface glyph).1 = -1 := by rw [hret]; decide
  rw [if_neg h0, if_neg h1, if_pos hret]

/-- C3. For a non-null surface and a glyph with non-zero rows and width, if
grays is not 256, or the glyph mode or the target mode is not accepted, or the
dispatch table entry of the resolved pair is null, grBlitGlyphToSurface returns
-1, gblender_blit_run is not invoked (the only call is gblender_blit_init) and
pixel memory is unchanged. -/
theorem blit_glyph_rejects_unsupported (ext : GrExternals) (gblit : GBlenderBlitRec)
    (surface : grSurface) (glyph : grBitmap) (x y : Int) (color : grColor) (st : GrState)
    (hrows : glyph.rows ≠ 0) (hwidth : glyph.width ≠ 0)
    (hbad : glyph.grays ≠ 256 ∨ glyph.mode ∉ acceptedSourceModes ∨
      surface.bitmap.mode ∉ acceptedTargetModes ∨
      ∃ sf df, srcFormatOf glyph.mode = some sf ∧ dstFormatOf surface.bitmap.mode = some df ∧
        ext.blit_funcs df sf = GBlenderBlitFunc.null) :
    (grBlitGlyphToSurface ext gblit (some surface) (some glyph) x y color st).1 = -1 ∧
    (grBlitGlyphToSurface ext gblit (some surface) (some glyph) x y color st).2.calls
      = st.calls ++ [GrCall.blit_init x y] ∧
    (∀ b c, GrCall.blit_run b c ∉
      (grBlitGlyphToSurface ext gblit (some surface) (some glyph) x y color st).2.calls.drop
        st.calls.length) ∧
    (grBlitGlyphToSurface ext gblit (some surface) (some glyph) x y color st).2.pixels
      = st.pixels := by
  have hret : (gblender_blit_init ext gblit x y surface glyph).1 = -2 := by
    apply init_ret_of_rejected
    rcases hbad with h | h | h | h
    · exact Or.inl h
    · exact Or.inr (Or.inl (not_mem_accepted_src _ h))
    · exact Or.inr (Or.inr (Or.inl (not_mem_accepted_dst _ h)))
    · exact Or.inr (Or.inr (Or.inr h))
  rw [blit_glyph_of_rejected ext gblit surface glyph x y color st hrows hwidth hret]
  simp

/-- Witness of C3: a BGRA glyph on a gray target has a null table entry in the
sample environment. -/
theorem blit_glyph_rejects_unsupported_witness :
    (grBlitGlyphToSurface sampleExt sampleBlit (some sampleTarget)
        (some (sampleBitmap 4 4 16 gr_pixel_mode_bgra 100)) 2 3 sampleColor sampleState).1 = -1 ∧
    (grBlitGlyphToSurface sampleExt sampleBlit (some sampleTarget)
        (some (sampleBitmap 4 4 16 gr_pixel_mode_bgra 100)) 2 3 sampleColor sampleState).2.calls
      = sampleState.calls ++ [GrCall.blit_init 2 3] ∧
    (∀ b c, GrCall.blit_run b c ∉
      (grBlitGlyphToSurface sampleExt sampleBlit (some sampleTarget)
        (some (sampleBitmap 4 4 16 gr_pixel_mode_bgra 100)) 2 3 sampleColor
          sampleState).2.calls.drop sampleState.calls.length) ∧
    (grBlitGlyphToSurface sampleExt sampleBlit (some sampleTarget)
        (some (sampleBitmap 4 4 16 gr_pixel_mode_bgra 100)) 2 3 sampleColor sampleState).2.pixels
      = sampleState.pixels :=
  blit_glyph_rejects_unsupported sampleExt sampleBlit sampleTarget
    (sampleBitmap 4 4 16 gr_pixel_mode_bgra 100) 2 3 sampleColor sampleState
    (by decide) (by decide)
    (Or.inr (Or.inr (Or.inr ⟨GBLENDER_SOURCE_BGRA, GBLENDER_TARGET_GRAY8, rfl, rfl, by decide⟩)))

/-- Counterexample to C4 as stated: a glyph with 2 gray levels and rows = 0 makes
grBlitGlyphToSurface return 0, not a negative value. -/
theorem bad_grays_always_fails_counterexample :
    ¬ ∀ (ext : GrExternals) (gblit : GBlenderBlitRec) (surface : grSurface) (glyph : grBitmap)
        (x y : Int) (color : grColor) (st : GrState),
        glyph.grays ≠ 256 →
        (grBlitGlyphToSurface ext gblit (some surface) (some glyph) x y color st).1 < 0 := by
  intro h
  have h1 := h sampleExt sampleBlit sampleTarget
    { rows := 0, width := 4, pitch := 4, mode := gr_pixel_mode_gray, grays := 2, buffer := 100 }
    0 0 sampleColor sampleState (by decide)
  revert h1
  decide

/-- C4, amended. For a non-null surface and a non-null glyph with non-zero rows
and width whose grays is not 256, grBlitGlyphToSurface returns the negative
value -1, whatever the modes, the pitches and the position are. -/
theorem bad_grays_fails_when_nonempty (ext : GrExternals) (gblit : GBlenderBlitRec)
    (surface : grSurface) (glyph : grBitmap) (x y : Int) (color : grColor) (st : GrState)
    (hrows : glyph.rows ≠ 0) (hwidth : glyph.width ≠ 0) (hgrays : glyph.grays ≠ 256) :
    (grBlitGlyphToSurface ext gblit (some surface) (some glyph) x y color st).1 = -1 ∧
    (grBlitGlyphToSurface ext gblit (some surface) (some glyph) x y color st).1 < 0 := by
  have hret : (gblender_blit_init ext gblit x y surface glyph).1 = -2 :=
    init_ret_of_rejected ext gblit x y surface glyph (Or.inl hgrays)
  rw [blit_glyph_of_rejected ext gblit surface glyph x y color st hrows hwidth hret]
  simp

/-- Witness of C4, amended: a 4x4 gray glyph with 2 gray levels is refused. -/
theorem bad_grays_fails_when_nonempty_witness :
    (grBlitGlyphToSurface sampleExt sampleBlit (some sampleTarget)
      (some { rows := 4, width := 4, pitch := 4, mode := gr_pixel_mode_gray, grays := 2,
              buffer := 100 }) 0 0 sampleColor sampleState).1 = -1 ∧
    (grBlitGlyphToSurface sampleExt sampleBlit (some sampleTarget)
      (some { rows := 4, width := 4, pitch := 4, mode := gr_pixel_mode_gray, grays := 2,
              buffer := 100 }) 0 0 sampleColor sampleState).1 < 0 :=
  bad_grays_fails_when_nonempty sampleExt sampleBlit sampleTarget
    { rows := 4, width := 4, pitch := 4, mode := gr_pixel_mode_gray, grays := 2, buffer := 100 }
    0 0 sampleColor sampleState (by decide) (by decide) (by decide)

/-- C5. For a non-null surface and a non-null glyph with rows = 0 or width = 0,
grBlitGlyphToSurface returns 0 and leaves the state as it was: pixel memory and
grError are unchanged and the call log gains no entry, so neither
gblender_blit_init nor gblender_blit_run is invoked. -/
theorem blit_glyph_empty_is_noop (ext : GrExternals) (gblit : GBlenderBlitRec)
    (surface : grSurface) (glyph : grBitmap) (x y : Int) (color : grColor) (st : GrState)
    (h : glyph.rows = 0 ∨ glyph.width = 0) :
    grBlitGlyphToSurface ext gblit (some surface) (some glyph) x y color st = (0, st) := by
  unfold grBlitGlyphToSurface
  simp only []
  rw [if_pos h]

/-- Witness of C5: a glyph of width 0 and 4 rows. -/
theorem blit_glyph_empty_is_noop_witness :
    grBlitGlyphToSurface sampleExt sampleBlit (some sampleTarget)
      (some (sampleBitmap 4 0 4 gr_pixel_mode_gray 100)) 1 1 sampleColor sampleState
      = (0, sampleState) :=
  blit_glyph_empty_is_noop sampleExt sampleBlit sampleTarget
    (sampleBitmap 4 0 4 gr_pixel_mode_gray 100) 1 1 sampleColor sampleState
    (Or.inr (by decide))

/-- C6. When the surface pointer or the glyph pointer is null,
grBlitGlyphToSurface returns -1 and sets grError to gr_err_bad_argument; pixel
memory is unchanged and no call is made.  The result does not depend on the
record the other pointer refers to. -/
theorem blit_glyph_null_argument (ext : GrExternals) (gblit : GBlenderBlitRec)
    (surface : Option grSurface) (glyph : Option grBitmap) (x y : Int) (color : grColor)
    (st : GrState) (h : surface = none ∨ glyph = none) :
    grBlitGlyphToSurface ext gblit surface glyph x y color st
      = (-1, { pixels := st.pixels, grError := ext.gr_err_bad_argument, calls := st.calls }) := by
  rcases h with h | h
  · subst h
    cases glyph <;> rfl
  · subst h
    cases surface <;> rfl

/-- Witness of C6: a null glyph with a non-null surface. -/
theorem blit_glyph_null_argument_witness :
    grBlitGlyphToSurface sampleExt sampleBlit (some sampleTarget) none 3 4 sampleColor sampleState
      = (-1, { pixels := sampleState.pixels, grError := sampleExt.gr_err_bad_argument,
               calls := sampleState.calls }) :=
  blit_glyph_null_argument sampleExt sampleBlit (some sampleTarget) none 3 4 sampleColor
    sampleState (Or.inr rfl)

/-- Two calls on glyphs with the same grays and mode whose clipped extents and
clamped destinations agree yield the same return code, extents and destination. -/
theorem init_sameGeometry (ext : GrExternals) (blit : GBlenderBlitRec) (surface : grSurface)
    (g1 g2 : grBitmap) (x1 x2 y1 y2 : Int)
    (hgr : g1.grays = g2.grays) (hm : g1.mode = g2.mode)
    (hw : clipLen x1 (effWidth g1) surface.bitmap.width
        = clipLen x2 (effWidth g2) surface.bitmap.width)
    (hh : clipLen y1 (effHeight g1) surface.bitmap.rows
        = clipLen y2 (effHeight g2) surface.bitmap.rows)
    (hx : clipDst x1 = clipDst x2) (hy : clipDst y1 = clipDst y2) :
    sameGeometry (gblender_blit_init ext blit x1 y1 surface g1)
      (gblender_blit_init ext blit x2 y2 surface g2) := by
  rw [gblender_blit_init_eq, gblender_blit_init_eq]
  unfold initForm sameGeometry
  rw [hw, hh, hx, hy, hgr, hm]
  by_cases hg : g2.grays = 256
  · cases hs : srcFormatOf g2.mode with
    | none => simp [hg]
    | some sf =>
      cases hd : dstFormatOf surface.bitmap.mode with
      | none => simp [hg]
      | some df =>
        by_cases hn : ext.blit_funcs df sf = GBlenderBlitFunc.null
        · simp [hg, hn]
        · by_cases hc : clipLen x2 (effWidth g2) surface.bitmap.width ≤ 0 ∨
              clipLen y2 (effHeight g2) surface.bitmap.rows ≤ 0
          · simp [hg, hn, hc]
          · simp [hg, hn, hc]
  · simp [hg]

/-- Source and destination coordinates stored by a successful call. -/
theorem init_ok_coords (ext : GrExternals) (blit : GBlenderBlitRec) (dst_x dst_y : Int)
    (surface : grSurface) (glyph : grBitmap)
    (h : (gblender_blit_init ext blit dst_x dst_y surface glyph).1 = 0) :
    (gblender_blit_init ext blit dst_x dst_y surface glyph).2.src_x = clipSrc dst_x ∧
    (gblender_blit_init ext blit dst_x dst_y surface glyph).2.src_y = clipSrc dst_y ∧
    (gblender_blit_init ext blit dst_x dst_y surface glyph).2.dst_x = clipDst dst_x ∧
    (gblender_blit_init ext blit dst_x dst_y surface glyph).2.dst_y = clipDst dst_y := by
  obtain ⟨sf, df, -, -, -, -, -, -, hb⟩ := init_ok_inv ext blit dst_x dst_y surface glyph h
  rw [hb]
  exact ⟨rfl, rfl, rfl, rfl⟩

/-- A call that does not return 0 leaves the source coordinates of the
descriptor as they were. -/
theorem init_fail_blit (ext : GrExternals) (blit : GBlenderBlitRec) (dst_x dst_y : Int)
    (surface : grSurface) (glyph : grBitmap)
    (h : ¬ (gblender_blit_init ext blit dst_x dst_y surface glyph).1 = 0) :
    (gblender_blit_init ext blit dst_x dst_y surface glyph).2.src_x = blit.src_x ∧
    (gblender_blit_init ext blit dst_x dst_y surface glyph).2.src_y = blit.src_y ∧
    (gblender_blit_init ext blit dst_x dst_y surface glyph).2.src_line = blit.src_line := by
  rw [gblender_blit_init_eq] at h ⊢
  unfold initForm at h ⊢
  by_cases hg : glyph.grays = 256
  · cases hs : srcFormatOf glyph.mode with
    | none => simp [hg]
    | some sf =>
      cases hd : dstFormatOf surface.bitmap.mode with
      | none => simp [hg]
      | some df =>
        by_cases hn : ext.blit_funcs df sf = GBlenderBlitFunc.null
        · simp [hg, hn]
        · by_cases hc : clipLen dst_x (effWidth glyph) surface.bitmap.width ≤ 0 ∨
              clipLen dst_y (effHeight glyph) surface.bitmap.rows ≤ 0
          · simp [hg, hn, hc]
          · simp [hg, hs, hd, hn, hc] at h
  · simp [hg]

theorem effWidth_of_not_lcd (glyph : grBitmap)
    (h : glyph.mode ≠ gr_pixel_mode_lcd ∧ glyph.mode ≠ gr_pixel_mode_lcd2) :
    effWidth glyph = glyph.width := by
  unfold effWidth
  rw [if_neg]
  rintro (h1 | h1)
  · exact h.1 h1
  · exact h.2 h1

theorem effHeight_of_not_lcdv (glyph : grBitmap)
    (h : glyph.mode ≠ gr_pixel_mode_lcdv ∧ glyph.mode ≠ gr_pixel_mode_lcdv2) :
    effHeight glyph = glyph.rows := by
  unfold effHeight
  rw [if_neg]
  rintro (h1 | h1)
  · exact h.1 h1
  · exact h.2 h1

/-- C7. Clipping symmetry of the geometry for a source that is not sub-pixel.
With the glyph k columns to the left of the target (dst_x = -k, 0 < k < width)
the return code, the clipped extents and the destination rectangle are those
of the glyph cropped of its first k columns at dst_x = 0, the destination
starts at column 0, and src_x is k against 0 for the cropped glyph.  The same
holds for rows at dst_y = -k, and a glyph overflowing the right (bottom) edge
by k columns (rows) gives the same result, src_x (src_y) included, as the glyph
cropped of its last k columns (rows). -/
theorem clipping_symmetry_geometry (ext : GrExternals) (blit : GBlenderBlitRec)
    (surface : grSurface) (glyph : grBitmap) (dst_x dst_y k buffer2 : Int)
    (hmode : glyph.mode ∉ [gr_pixel_mode_lcd, gr_pixel_mode_lcd2, gr_pixel_mode_lcdv,
      gr_pixel_mode_lcdv2])
    (hk : 0 < k) :
    (k < glyph.width →
      sameGeometry (gblender_blit_init ext blit (-k) dst_y surface glyph)
        (gblender_blit_init ext blit 0 dst_y surface { glyph with width := glyph.width - k }) ∧
      ((gblender_blit_init ext blit (-k) dst_y surface glyph).1 = 0 →
        (gblender_blit_init ext blit (-k) dst_y surface glyph).2.dst_x = 0 ∧
        (gblender_blit_init ext blit (-k) dst_y surface glyph).2.src_x = k ∧
        (gblender_blit_init ext blit 0 dst_y surface
          { glyph with width := glyph.width - k }).2.src_x = 0)) ∧
    (k < glyph.rows →
      sameGeometry (gblender_blit_init ext blit dst_x (-k) surface glyph)
        (gblender_blit_init ext blit dst_x 0 surface
          { glyph with rows := glyph.rows - k, buffer := buffer2 }) ∧
      ((gblender_blit_init ext blit dst_x (-k) surface glyph).1 = 0 →
        (gblender_blit_init ext blit dst_x (-k) surface glyph).2.dst_y = 0 ∧
        (gblender_blit_init ext blit dst_x (-k) surface glyph).2.src_y = k ∧
        (gblender_blit_init ext blit dst_x 0 surface
          { glyph with rows := glyph.rows - k, buffer := buffer2 }).2.src_y = 0)) ∧
    (dst_x + glyph.width - surface.bitmap.width = k →
      sameGeometry (gblender_blit_init ext blit dst_x dst_y surface glyph)
        (gblender_blit_init ext blit dst_x dst_y surface
          { glyph with width := glyph.width - k }) ∧
      (gblender_blit_init ext blit dst_x dst_y surface glyph).2.src_x =
        (gblender_blit_init ext blit dst_x dst_y surface
          { glyph with width := glyph.width - k }).2.src_x) ∧
    (dst_y + glyph.rows - surface.bitmap.rows = k →
      sameGeometry (gblender_blit_init ext blit dst_x dst_y surface glyph)
        (gblender_blit_init ext blit dst_x dst_y surface
          { glyph with rows := glyph.rows - k, buffer := buffer2 }) ∧
      (gblender_blit_init ext blit dst_x dst_y surface glyph).2.src_y =
        (gblender_blit_init ext blit dst_x dst_y surface
          { glyph with rows := glyph.rows - k, buffer := buffer2 }).2.src_y) := by
  have hm1 : glyph.mode ≠ gr_pixel_mode_lcd ∧ glyph.mode ≠ gr_pixel_mode_lcd2 := by
    constructor <;> intro h <;> exact hmode (by simp [h])
  have hm2 : glyph.mode ≠ gr_pixel_mode_lcdv ∧ glyph.mode ≠ gr_pixel_mode_lcdv2 := by
    constructor <;> intro h <;> exact hmode (by simp [h])
  have ew := effWidth_of_not_lcd glyph hm1
  have eh := effHeight_of_not_lcdv glyph hm2
  have ewc : ∀ w : Int, effWidth { glyph with width := w } = w := fun w =>
    effWidth_of_not_lcd { glyph with width := w } hm1
  have ehc : ∀ r b : Int, effHeight { glyph with rows := r, buffer := b } = r := fun r b =>
    effHeight_of_not_lcdv { glyph with rows := r, buffer := b } hm2
  refine ⟨?_, ?_, ?_, ?_⟩
  · intro _
    have hs := init_sameGeometry ext blit surface glyph { glyph with width := glyph.width - k }
      (-k) 0 dst_y dst_y rfl rfl
      (by rw [ew, ewc, clipLen_eq, clipLen_eq]; omega)
      rfl
      (by rw [clipDst_eq, clipDst_eq]; omega) rfl
    refine ⟨hs, ?_⟩
    intro h0
    have h0c : (gblender_blit_init ext blit 0 dst_y surface
        { glyph with width := glyph.width - k }).1 = 0 := by rw [← hs.1]; exact h0
    obtain ⟨a1, -, a3, -⟩ := init_ok_coords ext blit (-k) dst_y surface glyph h0
    obtain ⟨b1, -, -, -⟩ := init_ok_coords ext blit 0 dst_y surface _ h0c
    rw [a1, a3, b1, clipSrc_eq, clipSrc_eq, clipDst_eq]
    omega
  · intro _
    have hs := init_sameGeometry ext blit surface glyph
      { glyph with rows := glyph.rows - k, buffer := buffer2 }
      dst_x dst_x (-k) 0 rfl rfl
      rfl
      (by rw [eh, ehc, clipLen_eq, clipLen_eq]; omega)
      rfl (by rw [clipDst_eq, clipDst_eq]; omega)
    refine ⟨hs, ?_⟩
    intro h0
    have h0c : (gblender_blit_init ext blit dst_x 0 surface
        { glyph with rows := glyph.rows - k, buffer := buffer2 }).1 = 0 := by
      rw [← hs.1]; exact h0
    obtain ⟨-, a2, -, a4⟩ := init_ok_coords ext blit dst_x (-k) surface glyph h0
    obtain ⟨-, b2, -, -⟩ := init_ok_coords ext blit dst_x 0 surface _ h0c
    rw [a2, a4, b2, clipSrc_eq, clipSrc_eq, clipDst_eq]
    omega
  · intro hov
    have hs := init_sameGeometry ext blit surface glyph { glyph with width := glyph.width - k }
      dst_x dst_x dst_y dst_y rfl rfl
      (by rw [ew, ewc, clipLen_eq, clipLen_eq]; omega)
      rfl rfl rfl
    refine ⟨hs, ?_⟩
    by_cases h0 : (gblender_blit_init ext blit dst_x dst_y surface glyph).1 = 0
    · have h0c : (gblender_blit_init ext blit dst_x dst_y surface
          { glyph with width := glyph.width - k }).1 = 0 := by rw [← hs.1]; exact h0
      rw [(init_ok_coords ext blit dst_x dst_y surface glyph h0).1,
        (init_ok_coords ext blit dst_x dst_y surface _ h0c).1]
    · have h0c : ¬ (gblender_blit_init ext blit dst_x dst_y surface
          { glyph with width := glyph.width - k }).1 = 0 := by rw [← hs.1]; exact h0
      rw [(init_fail_blit ext blit dst_x dst_y surface glyph h0).1,
        (init_fail_blit ext blit dst_x dst_y surface _ h0c).1]
  · intro hov
    have hs := init_sameGeometry ext blit surface glyph
      { glyph with rows := glyph.rows - k, buffer := buffer2 }
      dst_x dst_x dst_y dst_y rfl rfl rfl
      (by rw [eh, ehc, clipLen_eq, clipLen_eq]; omega)
      rfl rfl
    refine ⟨hs, ?_⟩
    by_cases h0 : (gblender_blit_init ext blit dst_x dst_y surface glyph).1 = 0
    · have h0c : (gblender_blit_init ext blit dst_x dst_y surface
          { glyph with rows := glyph.rows - k, buffer := buffer2 }).1 = 0 := by
        rw [← hs.1]; exact h0
      rw [(init_ok_coords ext blit dst_x dst_y surface glyph h0).2.1,
        (init_ok_coords ext blit dst_x dst_y surface _ h0c).2.1]
    · have h0c : ¬ (gblender_blit_init ext blit dst_x dst_y surface
          { glyph with rows := glyph.rows - k, buffer := buffer2 }).1 = 0 := by
        rw [← hs.1]; exact h0
      rw [(init_fail_blit ext blit dst_x dst_y surface glyph h0).2.1,
        (init_fail_blit ext blit dst_x dst_y surface _ h0c).2.1]

/-- Witness of C7: the 4x4 sample glyph on the 10x10 sample target with k = 1,
at dst_x = -1, at dst_y = -1, and overflowing by one column and one row at (7, 7). -/
theorem clipping_symmetry_geometry_witness :
    (sampleGlyph.mode ∉ [gr_pixel_mode_lcd, gr_pixel_mode_lcd2, gr_pixel_mode_lcdv,
        gr_pixel_mode_lcdv2] ∧ (0 : Int) < 1 ∧ 1 < sampleGlyph.width ∧ 1 < sampleGlyph.rows ∧
      7 + sampleGlyph.width - sampleTarget.bitmap.width = 1 ∧
      7 + sampleGlyph.rows - sampleTarget.bitmap.rows = 1) ∧
    sameGeometry (gblender_blit_init sampleExt sampleBlit (-1) 7 sampleTarget sampleGlyph)
      (gblender_blit_init sampleExt sampleBlit 0 7 sampleTarget
        { sampleGlyph with width := sampleGlyph.width - 1 }) ∧
    sameGeometry (gblender_blit_init sampleExt sampleBlit 7 (-1) sampleTarget sampleGlyph)
      (gblender_blit_init sampleExt sampleBlit 7 0 sampleTarget
        { sampleGlyph with rows := sampleGlyph.rows - 1, buffer := 104 }) ∧
    sameGeometry (gblender_blit_init sampleExt sampleBlit 7 7 sampleTarget sampleGlyph)
      (gblender_blit_init sampleExt sampleBlit 7 7 sampleTarget
        { sampleGlyph with width := sampleGlyph.width - 1 }) ∧
    sameGeometry (gblender_blit_init sampleExt sampleBlit 7 7 sampleTarget sampleGlyph)
      (gblender_blit_init sampleExt sampleBlit 7 7 sampleTarget
        { sampleGlyph with rows := sampleGlyph.rows - 1, buffer := 104 }) :=
  ⟨⟨by decide, by decide, by decide, by decide, by decide, by decide⟩,
   ((clipping_symmetry_geometry sampleExt sampleBlit sampleTarget sampleGlyph 7 7 1 104
      (by decide) (by decide)).1 (by decide)).1,
   ((clipping_symmetry_geometry sampleExt sampleBlit sampleTarget sampleGlyph 7 7 1 104
      (by decide) (by decide)).2.1 (by decide)).1,
   ((clipping_symmetry_geometry sampleExt sampleBlit sampleTarget sampleGlyph 7 7 1 104
      (by decide) (by decide)).2.2.1 (by decide)).1,
   ((clipping_symmetry_geometry sampleExt sampleBlit sampleTarget sampleGlyph 7 7 1 104
      (by decide) (by decide)).2.2.2 (by decide)).1⟩

/-- The row pointers stored by a successful call: the destination line is the
row start of row dst_y under the target row count, the source line is the row
start of row src_y under the clipped height. -/
theorem init_ok_lines (ext : GrExternals) (blit : GBlenderBlitRec) (dst_x dst_y : Int)
    (surface : grSurface) (glyph : grBitmap)
    (h : (gblender_blit_init ext blit dst_x dst_y surface glyph).1 = 0) :
    (gblender_blit_init ext blit dst_x dst_y surface glyph).2.dst_line =
      rowStart surface.bitmap.buffer surface.bitmap.pitch
        (gblender_blit_init ext blit dst_x dst_y surface glyph).2.dst_y surface.bitmap.rows ∧
    (gblender_blit_init ext blit dst_x dst_y surface glyph).2.src_line =
      rowStart glyph.buffer glyph.pitch
        (gblender_blit_init ext blit dst_x dst_y surface glyph).2.src_y
        (gblender_blit_init ext blit dst_x dst_y surface glyph).2.height ∧
    (gblender_blit_init ext blit dst_x dst_y surface glyph).2.dst_pitch = surface.bitmap.pitch ∧
    (gblender_blit_init ext blit dst_x dst_y surface glyph).2.src_pitch = glyph.pitch := by
  obtain ⟨sf, df, -, -, -, -, -, -, hb⟩ := init_ok_inv ext blit dst_x dst_y surface glyph h
  rw [hb]
  exact ⟨rfl, rfl, rfl, rfl⟩

/-- Row-pointer symmetry for a source with a non-negative pitch: clipping k rows
at the top gives the source line of the glyph cropped of its first k rows
(buffer advanced by k * pitch), and the same destination line. -/
theorem clipping_symmetry_rows_nonneg_pitch (ext : GrExternals) (blit : GBlenderBlitRec)
    (surface : grSurface) (glyph : grBitmap) (dst_x k : Int)
    (hmode : glyph.mode = gr_pixel_mode_gray) (hk : 0 < k) (hp : 0 ≤ glyph.pitch)
    (h0 : (gblender_blit_init ext blit dst_x (-k) surface glyph).1 = 0) :
    (gblender_blit_init ext blit dst_x (-k) surface glyph).2.src_line =
      (gblender_blit_init ext blit dst_x 0 surface
        { glyph with rows := glyph.rows - k,
                     buffer := glyph.buffer + k * glyph.pitch }).2.src_line ∧
    (gblender_blit_init ext blit dst_x (-k) surface glyph).2.dst_line =
      (gblender_blit_init ext blit dst_x 0 surface
        { glyph with rows := glyph.rows - k,
                     buffer := glyph.buffer + k * glyph.pitch }).2.dst_line := by
  have hm2 : glyph.mode ≠ gr_pixel_mode_lcdv ∧ glyph.mode ≠ gr_pixel_mode_lcdv2 := by
    rw [hmode]; exact ⟨by decide, by decide⟩
  have eh := effHeight_of_not_lcdv glyph hm2
  have ehc :
      effHeight { glyph with rows := glyph.rows - k, buffer := glyph.buffer + k * glyph.pitch }
        = glyph.rows - k :=
    effHeight_of_not_lcdv _ hm2
  have hs := init_sameGeometry ext blit surface glyph
    { glyph with rows := glyph.rows - k, buffer := glyph.buffer + k * glyph.pitch }
    dst_x dst_x (-k) 0 rfl rfl rfl
    (by rw [eh, ehc, clipLen_eq, clipLen_eq]; omega)
    rfl (by rw [clipDst_eq, clipDst_eq]; omega)
  have h0c : (gblender_blit_init ext blit dst_x 0 surface
      { glyph with rows := glyph.rows - k, buffer := glyph.buffer + k * glyph.pitch }).1 = 0 := by
    rw [← hs.1]; exact h0
  obtain ⟨a1, a2, -, -⟩ := init_ok_lines ext blit dst_x (-k) surface glyph h0
  obtain ⟨b1, b2, -, -⟩ := init_ok_lines ext blit dst_x 0 surface _ h0c
  obtain ⟨-, a4, -, -⟩ := init_ok_coords ext blit dst_x (-k) surface glyph h0
  obtain ⟨-, b4, -, -⟩ := init_ok_coords ext blit dst_x 0 surface _ h0c
  rw [a1, a2, b1, b2, a4, b4, hs.2.2.2.2]
  refine ⟨?_, rfl⟩
  have hn : ¬ glyph.pitch < 0 := by omega
  simp only [rowStart, if_neg hn, clipSrc_eq]
  have e1 : max (-(-k)) (0 : Int) = k := by omega
  have e2 : max (-(0 : Int)) 0 = 0 := by omega
  rw [e1, e2]
  ring

/-- C8, the code at a failing input. A 4x4 gray glyph with pitch -4 and base
address 100 has row 1 at address 108.  Placed at dst_y = -1, the call stores
src_line = 104, while for the same glyph cropped of its first row (same base,
3 rows) at dst_y = 0 it stores src_line = 108: the two calls do not address
the same byte. -/
theorem clipping_symmetry_rows_neg_pitch_fails :
    (gblender_blit_init sampleExt sampleBlit 0 (-1) sampleTarget
      (sampleBitmap 4 4 (-4) gr_pixel_mode_gray 100)).1 = 0 ∧
    (gblender_blit_init sampleExt sampleBlit 0 0 sampleTarget
      (sampleBitmap 3 4 (-4) gr_pixel_mode_gray 100)).1 = 0 ∧
    (gblender_blit_init sampleExt sampleBlit 0 (-1) sampleTarget
      (sampleBitmap 4 4 (-4) gr_pixel_mode_gray 100)).2.src_line = 104 ∧
    (gblender_blit_init sampleExt sampleBlit 0 0 sampleTarget
      (sampleBitmap 3 4 (-4) gr_pixel_mode_gray 100)).2.src_line = 108 ∧
    rowStart 100 (-4) 1 4 = 108 := by
  decide

/-- C9, the code at a failing input. For a source with pitch -4 and base address
100 the stored source line is not glyph.buffer - (glyph.rows - 1) * pitch +
pitch * src_y: a 4-row gray glyph clipped to 2 rows at the bottom edge gets
src_line = 104 instead of 112, and a 6-row lcdv glyph gets 104 instead of 120. -/
theorem signed_pitch_source_line_fails :
    (gblender_blit_init sampleExt sampleBlit 0 8 sampleTarget
      (sampleBitmap 4 4 (-4) gr_pixel_mode_gray 100)).1 = 0 ∧
    (gblender_blit_init sampleExt sampleBlit 0 8 sampleTarget
      (sampleBitmap 4 4 (-4) gr_pixel_mode_gray 100)).2.src_y = 0 ∧
    (gblender_blit_init sampleExt sampleBlit 0 8 sampleTarget
      (sampleBitmap 4 4 (-4) gr_pixel_mode_gray 100)).2.src_line = 104 ∧
    (100 : Int) - (4 - 1) * (-4) + (-4) * 0 = 112 ∧
    (gblender_blit_init sampleExt sampleBlit 0 0 sampleTarget
      (sampleBitmap 6 4 (-4) gr_pixel_mode_lcdv 100)).1 = 0 ∧
    (gblender_blit_init sampleExt sampleBlit 0 0 sampleTarget
      (sampleBitmap 6 4 (-4) gr_pixel_mode_lcdv 100)).2.src_y = 0 ∧
    (gblender_blit_init sampleExt sampleBlit 0 0 sampleTarget
      (sampleBitmap 6 4 (-4) gr_pixel_mode_lcdv 100)).2.src_line = 104 ∧
    (100 : Int) - (6 - 1) * (-4) + (-4) * 0 = 120 := by
  decide

/-- The part of C9 the code satisfies: on every successful call the destination
line honours the signed pitch of the target with the target row count, and the
source line does so with glyph.rows replaced by the clipped height. -/
theorem signed_pitch_lines (ext : GrExternals) (blit : GBlenderBlitRec) (dst_x dst_y : Int)
    (surface : grSurface) (glyph : grBitmap)
    (h : (gblender_blit_init ext blit dst_x dst_y surface glyph).1 = 0) :
    (0 ≤ surface.bitmap.pitch →
      (gblender_blit_init ext blit dst_x dst_y surface glyph).2.dst_line =
        surface.bitmap.buffer + surface.bitmap.pitch *
          (gblender_blit_init ext blit dst_x dst_y surface glyph).2.dst_y) ∧
    (surface.bitmap.pitch < 0 →
      (gblender_blit_init ext blit dst_x dst_y surface glyph).2.dst_line =
        surface.bitmap.buffer - (surface.bitmap.rows - 1) * surface.bitmap.pitch +
          surface.bitmap.pitch * (gblender_blit_init ext blit dst_x dst_y surface glyph).2.dst_y) ∧
    (0 ≤ glyph.pitch →
      (gblender_blit_init ext blit dst_x dst_y surface glyph).2.src_line =
        glyph.buffer + glyph.pitch *
          (gblender_blit_init ext blit dst_x dst_y surface glyph).2.src_y) ∧
    (glyph.pitch < 0 →
      (gblender_blit_init ext blit dst_x dst_y surface glyph).2.src_line =
        glyph.buffer - ((gblender_blit_init ext blit dst_x dst_y surface glyph).2.height - 1)
            * glyph.pitch +
          glyph.pitch * (gblender_blit_init ext blit dst_x dst_y surface glyph).2.src_y) := by
  obtain ⟨a1, a2, -, -⟩ := init_ok_lines ext blit dst_x dst_y surface glyph h
  rw [a1, a2]
  unfold rowStart
  refine ⟨?_, ?_, ?_, ?_⟩
  · intro hp
    rw [if_neg (by omega)]
  · intro hp
    rw [if_pos hp]
    ring
  · intro hp
    rw [if_neg (by omega)]
  · intro hp
    rw [if_pos hp]
    ring

/-- The result of gblender_blit_init on a surface whose pitch is replaced: the
return code and every field but dst_line and dst_pitch are those of the call
on the original surface. -/
theorem init_withPitch (ext : GrExternals) (blit : GBlenderBlitRec) (dst_x dst_y : Int)
    (surface : grSurface) (glyph : grBitmap) (p : Int) :
    (gblender_blit_init ext blit dst_x dst_y (withPitch surface p) glyph).1 =
      (gblender_blit_init ext blit dst_x dst_y surface glyph).1 ∧
    (gblender_blit_init ext blit dst_x dst_y (withPitch surface p) glyph).2 =
      { (gblender_blit_init ext blit dst_x dst_y surface glyph).2 with
        dst_line := (gblender_blit_init ext blit dst_x dst_y (withPitch surface p) glyph).2.dst_line,
        dst_pitch :=
          (gblender_blit_init ext blit dst_x dst_y (withPitch surface p) glyph).2.dst_pitch } := by
  rw [gblender_blit_init_eq, gblender_blit_init_eq]
  unfold initForm
  have e1 : (withPitch surface p).bitmap.mode = surface.bitmap.mode := rfl
  have e2 : (withPitch surface p).bitmap.width = surface.bitmap.width := rfl
  have e3 : (withPitch surface p).bitmap.rows = surface.bitmap.rows := rfl
  have e4 : (withPitch surface p).gblender = surface.gblender := rfl
  have e5 : (withPitch surface p).bitmap.buffer = surface.bitmap.buffer := rfl
  rw [e1, e2, e3, e4, e5]
  by_cases hg : glyph.grays = 256
  · cases hs : srcFormatOf glyph.mode with
    | none => simp [hg]
    | some sf =>
      cases hd : dstFormatOf surface.bitmap.mode with
      | none => simp [hg]
      | some df =>
        by_cases hn : ext.blit_funcs df sf = GBlenderBlitFunc.null
        · simp [hg, hn]
        · by_cases hc : clipLen dst_x (effWidth glyph) surface.bitmap.width ≤ 0 ∨
              clipLen dst_y (effHeight glyph) surface.bitmap.rows ≤ 0
          · simp [hg, hn, hc]
          · simp [hg, hn, hc]
  · simp [hg]

/-- C10. Bottom-up target equivalence. For two targets that differ only in
pitch, P top-down and -P bottom-up with P > 0, and the same glyph and
position, gblender_blit_init returns the same code and the same width, height,
src_x, src_y, dst_x, dst_y and src_line.  On success, for every i in
0..height-1 the bottom-up destination row dst_line + i * dst_pitch lies at byte
offset (H - 1 - (dst_y + i)) * P from the buffer start, the offset is within
[0, (H - 1) * P], the top-down row lies at offset (dst_y + i) * P, and the two
offsets are mirror images: they add up to (H - 1) * P. -/
theorem bottom_up_target_equivalence (ext : GrExternals) (blit : GBlenderBlitRec)
    (dst_x dst_y : Int) (surface : grSurface) (glyph : grBitmap) (P : Int) (hP : 0 < P) :
    (gblender_blit_init ext blit dst_x dst_y (withPitch surface (-P)) glyph).1 =
      (gblender_blit_init ext blit dst_x dst_y (withPitch surface P) glyph).1 ∧
    (gblender_blit_init ext blit dst_x dst_y (withPitch surface (-P)) glyph).2.width =
      (gblender_blit_init ext blit dst_x dst_y (withPitch surface P) glyph).2.width ∧
    (gblender_blit_init ext blit dst_x dst_y (withPitch surface (-P)) glyph).2.height =
      (gblender_blit_init ext blit dst_x dst_y (withPitch surface P) glyph).2.height ∧
    (gblender_blit_init ext blit dst_x dst_y (withPitch surface (-P)) glyph).2.src_x =
      (gblender_blit_init ext blit dst_x dst_y (withPitch surface P) glyph).2.src_x ∧
    (gblender_blit_init ext blit dst_x dst_y (withPitch surface (-P)) glyph).2.src_y =
      (gblender_blit_init ext blit dst_x dst_y (withPitch surface P) glyph).2.src_y ∧
    (gblender_blit_init ext blit dst_x dst_y (withPitch surface (-P)) glyph).2.dst_x =
      (gblender_blit_init ext blit dst_x dst_y (withPitch surface P) glyph).2.dst_x ∧
    (gblender_blit_init ext blit dst_x dst_y (withPitch surface (-P)) glyph).2.dst_y =
      (gblender_blit_init ext blit dst_x dst_y (withPitch surface P) glyph).2.dst_y ∧
    (gblender_blit_init ext blit dst_x dst_y (withPitch surface (-P)) glyph).2.src_line =
      (gblender_blit_init ext blit dst_x dst_y (withPitch surface P) glyph).2.src_line ∧
    ((gblender_blit_init ext blit dst_x dst_y (withPitch surface P) glyph).1 = 0 →
      ∀ i : Int, 0 ≤ i →
        i < (gblender_blit_init ext blit dst_x dst_y (withPitch surface P) glyph).2.height →
        (gblender_blit_init ext blit dst_x dst_y (withPitch surface (-P)) glyph).2.dst_line +
            i * (gblender_blit_init ext blit dst_x dst_y (withPitch surface (-P)) glyph).2.dst_pitch
          = surface.bitmap.buffer + (surface.bitmap.rows - 1 -
              ((gblender_blit_init ext blit dst_x dst_y (withPitch surface P) glyph).2.dst_y + i))
              * P ∧
        0 ≤ (surface.bitmap.rows - 1 -
              ((gblender_blit_init ext blit dst_x dst_y (withPitch surface P) glyph).2.dst_y + i))
              * P ∧
        (surface.bitmap.rows - 1 -
              ((gblender_blit_init ext blit dst_x dst_y (withPitch surface P) glyph).2.dst_y + i))
              * P ≤ (surface.bitmap.rows - 1) * P ∧
        (gblender_blit_init ext blit dst_x dst_y (withPitch surface P) glyph).2.dst_line +
            i * (gblender_blit_init ext blit dst_x dst_y (withPitch surface P) glyph).2.dst_pitch
          = surface.bitmap.buffer +
              ((gblender_blit_init ext blit dst_x dst_y (withPitch surface P) glyph).2.dst_y + i)
              * P ∧
        ((gblender_blit_init ext blit dst_x dst_y (withPitch surface P) glyph).2.dst_y + i) * P +
          (surface.bitmap.rows - 1 -
              ((gblender_blit_init ext blit dst_x dst_y (withPitch surface P) glyph).2.dst_y + i))
              * P = (surface.bitmap.rows - 1) * P) := by
  obtain ⟨u1, u2⟩ := init_withPitch ext blit dst_x dst_y surface glyph (-P)
  obtain ⟨d1, d2⟩ := init_withPitch ext blit dst_x dst_y surface glyph P
  refine ⟨by rw [u1, d1], by rw [u2, d2], by rw [u2, d2], by rw [u2, d2], by rw [u2, d2],
    by rw [u2, d2], by rw [u2, d2], by rw [u2, d2], ?_⟩
  intro h0 i hi0 hi
  have h0u : (gblender_blit_init ext blit dst_x dst_y (withPitch surface (-P)) glyph).1 = 0 := by
    rw [u1, ← d1]; exact h0
  obtain ⟨a1, -, a3, -⟩ := init_ok_lines ext blit dst_x dst_y (withPitch surface (-P)) glyph h0u
  obtain ⟨b1, -, b3, -⟩ := init_ok_lines ext blit dst_x dst_y (withPitch surface P) glyph h0
  have hyu : (gblender_blit_init ext blit dst_x dst_y (withPitch surface (-P)) glyph).2.dst_y =
      (gblender_blit_init ext blit dst_x dst_y (withPitch surface P) glyph).2.dst_y := by
    rw [u2, d2]
  obtain ⟨-, -, -, -, hy0, hyH, -, -, -, -⟩ :=
    init_ok_bounds ext blit dst_x dst_y (withPitch surface P) glyph h0
  have hH : (withPitch surface P).bitmap.rows = surface.bitmap.rows := rfl
  rw [hH] at hyH
  rw [a1, a3, b1, b3, hyu]
  have q1 : (withPitch surface (-P)).bitmap.pitch = -P := rfl
  have q2 : (withPitch surface P).bitmap.pitch = P := rfl
  have q3 : (withPitch surface (-P)).bitmap.buffer = surface.bitmap.buffer := rfl
  have q4 : (withPitch surface P).bitmap.buffer = surface.bitmap.buffer := rfl
  have q5 : (withPitch surface (-P)).bitmap.rows = surface.bitmap.rows := rfl
  rw [q1, q2, q3, q4, q5, hH]
  have n1 : -P < 0 := by omega
  have n2 : ¬ P < 0 := by omega
  simp only [rowStart, if_pos n1, if_neg n2]
  generalize (gblender_blit_init ext blit dst_x dst_y (withPitch surface P) glyph).2.dst_y = d
    at hy0 hyH ⊢
  generalize (gblender_blit_init ext blit dst_x dst_y (withPitch surface P) glyph).2.height = hgt
    at hi hyH ⊢
  have hnn : 0 ≤ surface.bitmap.rows - 1 - (d + i) := by omega
  refine ⟨by ring, mul_nonneg hnn (le_of_lt hP), ?_, by ring, by ring⟩
  exact mul_le_mul_of_nonneg_right (by omega) (le_of_lt hP)

/-- Witness of C10: the sample glyph at (-1, 8) on the sample target with
P = 10; row i = 1 of the bottom-up target lies at offset (10 - 1 - (8 + 1)) * 10. -/
theorem bottom_up_target_equivalence_witness :
    ((0 : Int) < 10 ∧
      (gblender_blit_init sampleExt sampleBlit (-1) 8 (withPitch sampleTarget 10) sampleGlyph).1
        = 0 ∧
      (1 : Int) < (gblender_blit_init sampleExt sampleBlit (-1) 8 (withPitch sampleTarget 10)
        sampleGlyph).2.height) ∧
    (gblender_blit_init sampleExt sampleBlit (-1) 8 (withPitch sampleTarget (-10)) sampleGlyph).1 =
      (gblender_blit_init sampleExt sampleBlit (-1) 8 (withPitch sampleTarget 10) sampleGlyph).1 ∧
    (gblender_blit_init sampleExt sampleBlit (-1) 8 (withPitch sampleTarget (-10))
        sampleGlyph).2.dst_line +
      1 * (gblender_blit_init sampleExt sampleBlit (-1) 8 (withPitch sampleTarget (-10))
        sampleGlyph).2.dst_pitch
      = sampleTarget.bitmap.buffer + (sampleTarget.bitmap.rows - 1 -
          ((gblender_blit_init sampleExt sampleBlit (-1) 8 (withPitch sampleTarget 10)
            sampleGlyph).2.dst_y + 1)) * 10 :=
  ⟨⟨by decide, by decide, by decide⟩,
   (bottom_up_target_equivalence sampleExt sampleBlit (-1) 8 sampleTarget sampleGlyph 10
      (by decide)).1,
   ((bottom_up_target_equivalence sampleExt sampleBlit (-1) 8 sampleTarget sampleGlyph 10
      (by decide)).2.2.2.2.2.2.2.2 (by decide) 1 (by decide) (by decide)).1⟩


/-! ### Bit fields as arithmetic -/

/-- Masking with w ones shifted left by s keeps the field of width w at bit s. -/
theorem and_mask_field (x w s : Nat) :
    x &&& ((2 ^ w - 1) * 2 ^ s) = x / 2 ^ s % 2 ^ w * 2 ^ s := by
  apply Nat.eq_of_testBit_eq
  intro i
  rw [Nat.testBit_and, Nat.mul_comm (2 ^ w - 1), Nat.mul_comm _ (2 ^ s),
    Nat.testBit_mul_pow_two, Nat.testBit_mul_pow_two, Nat.testBit_two_pow_sub_one,
    Nat.testBit_mod_two_pow, ← Nat.shiftRight_eq_div_pow, Nat.testBit_shiftRight]
  by_cases h : i ≥ s
  · have e : s + (i - s) = i := by omega
    simp [h, e, Bool.and_comm]
  · simp [h]

/-- Or-ing a field value into a word whose field is empty adds it. -/
theorem or_field (x c s w : Nat) (hx : x / 2 ^ s % 2 ^ w = 0) (hc : c < 2 ^ w) :
    x ||| (c * 2 ^ s) = x + c * 2 ^ s := by
  have hs : 0 < 2 ^ s := Nat.two_pow_pos s
  have hw : 0 < 2 ^ w := Nat.two_pow_pos w
  have hlo : x % 2 ^ s < 2 ^ s := Nat.mod_lt _ hs
  have hpow : 2 ^ (s + w) = 2 ^ s * 2 ^ w := Nat.pow_add 2 s w
  have hdiv : x / 2 ^ s = 2 ^ w * (x / 2 ^ (s + w)) := by
    have h1 := Nat.div_add_mod (x / 2 ^ s) (2 ^ w)
    rw [hx, Nat.add_zero, Nat.div_div_eq_div_mul, ← hpow] at h1
    exact h1.symm
  have hxe : x = 2 ^ (s + w) * (x / 2 ^ (s + w)) + x % 2 ^ s := by
    have h2 := (Nat.div_add_mod x (2 ^ s)).symm
    rw [hdiv, ← Nat.mul_assoc, ← hpow] at h2
    exact h2
  have hle : 2 ^ s ≤ 2 ^ (s + w) := by
    rw [hpow]; exact Nat.le_mul_of_pos_right _ hw
  have hsum : 2 ^ s * c + x % 2 ^ s < 2 ^ (s + w) := by
    rw [hpow]
    have : 2 ^ s * c + 2 ^ s ≤ 2 ^ s * 2 ^ w := by
      rw [← Nat.mul_succ]
      exact Nat.mul_le_mul_left _ hc
    omega
  have e1 : x = 2 ^ (s + w) * (x / 2 ^ (s + w)) ||| x % 2 ^ s := by
    rw [← Nat.mul_add_lt_is_or (lt_of_lt_of_le hlo hle)]
    exact hxe
  have e2 : 2 ^ s * c ||| x % 2 ^ s = 2 ^ s * c + x % 2 ^ s :=
    (Nat.mul_add_lt_is_or hlo c).symm
  have e3 : 2 ^ (s + w) * (x / 2 ^ (s + w)) ||| (2 ^ s * c + x % 2 ^ s)
      = 2 ^ (s + w) * (x / 2 ^ (s + w)) + (2 ^ s * c + x % 2 ^ s) :=
    (Nat.mul_add_lt_is_or hsum _).symm
  calc x ||| (c * 2 ^ s)
      = (2 ^ (s + w) * (x / 2 ^ (s + w)) ||| x % 2 ^ s) ||| (2 ^ s * c) := by
        rw [← e1, Nat.mul_comm c]
    _ = 2 ^ (s + w) * (x / 2 ^ (s + w)) ||| (2 ^ s * c ||| x % 2 ^ s) := by
        rw [Nat.or_assoc, Nat.or_comm (x % 2 ^ s)]
    _ = 2 ^ (s + w) * (x / 2 ^ (s + w)) + (2 ^ s * c + x % 2 ^ s) := by rw [e2, e3]
    _ = x + c * 2 ^ s := by
        rw [Nat.mul_comm c]
        omega

/-- Or-ing a value below 2 ^ w into a multiple of 2 ^ w adds it. -/
theorem or_low (x c w : Nat) (hx : x % 2 ^ w = 0) (hc : c < 2 ^ w) : x ||| c = x + c := by
  have h := or_field x c 0 w (by simpa using hx) hc
  simpa using h

/-- Masking with w low ones keeps the value modulo 2 ^ w. -/
theorem and_low (x w : Nat) : x &&& (2 ^ w - 1) = x % 2 ^ w :=
  Nat.and_pow_two_sub_one_eq_mod x w

/-- GRGB_PACK of three bytes is r * 2^16 + g * 2^8 + b. -/
theorem GRGB_PACK_form (r g b : Nat) (hr : r < 256) (hg : g < 256) (hb : b < 256) :
    GRGB_PACK r g b = r * 65536 + g * 256 + b := by
  unfold GRGB_PACK toGBlenderPixel
  simp only [Nat.shiftLeft_eq]
  have e1 : r % 2 ^ 32 * 2 ^ 16 % 2 ^ 32 = r * 2 ^ 16 := by omega
  have e2 : g % 2 ^ 32 * 2 ^ 8 % 2 ^ 32 = g * 2 ^ 8 := by omega
  have e3 : b % 2 ^ 32 = b := by omega
  rw [e1, e2, e3, or_field (r * 2 ^ 16) g 8 8 (by omega) (by omega),
    or_low (r * 2 ^ 16 + g * 2 ^ 8) b 8 (by omega) (by omega)]
  omega

/-- GRGB_TO_RGB565 of three bytes as a sum of its three fields. -/
theorem GRGB_TO_RGB565_form (r g b : Nat) (hr : r < 256) (hg : g < 256) (hb : b < 256) :
    GRGB_TO_RGB565 r g b = r / 8 * 2048 + g / 4 * 32 + b / 8 := by
  unfold GRGB_TO_RGB565 toUShort
  simp only [Nat.shiftLeft_eq, Nat.shiftRight_eq_div_pow]
  have a1 : (r * 2 ^ 8) &&& 0xF800 = r * 2 ^ 8 / 2 ^ 11 % 2 ^ 5 * 2 ^ 11 := and_mask_field _ 5 11
  have a2 : (g * 2 ^ 3) &&& 0x07E0 = g * 2 ^ 3 / 2 ^ 5 % 2 ^ 6 * 2 ^ 5 := and_mask_field _ 6 5
  have a3 : (b / 2 ^ 3) &&& 0x001F = b / 2 ^ 3 % 2 ^ 5 := and_low _ 5
  rw [a1, a2, a3, or_field _ _ 5 6 (by omega) (by omega), or_low _ _ 5 (by omega) (by omega)]
  omega

/-- GRGB565_TO_RED as the 5 red bits followed by a copy of their top 3. -/
theorem GRGB565_TO_RED_form (p : Nat) :
    GRGB565_TO_RED p = p / 2048 % 32 * 8 + p / 2048 % 32 / 4 := by
  unfold GRGB565_TO_RED
  simp only [Nat.shiftRight_eq_div_pow]
  have a1 : (p / 2 ^ 8) &&& 0xF8 = p / 2 ^ 8 / 2 ^ 3 % 2 ^ 5 * 2 ^ 3 := and_mask_field _ 5 3
  have a2 : (p / 2 ^ 13) &&& 0x07 = p / 2 ^ 13 % 2 ^ 3 := and_low _ 3
  rw [a1, a2, or_low _ _ 3 (by omega) (by omega)]
  omega

/-- GRGB565_TO_GREEN as the 6 green bits followed by a copy of their top 2. -/
theorem GRGB565_TO_GREEN_form (p : Nat) :
    GRGB565_TO_GREEN p = p / 32 % 64 * 4 + p / 32 % 64 / 16 := by
  unfold GRGB565_TO_GREEN
  simp only [Nat.shiftRight_eq_div_pow]
  have a1 : (p / 2 ^ 3) &&& 0xFC = p / 2 ^ 3 / 2 ^ 2 % 2 ^ 6 * 2 ^ 2 := and_mask_field _ 6 2
  have a2 : (p / 2 ^ 9) &&& 0x03 = p / 2 ^ 9 % 2 ^ 2 := and_low _ 2
  rw [a1, a2, or_low _ _ 2 (by omega) (by omega)]
  omega

/-- GRGB565_TO_BLUE as the 5 blue bits followed by a copy of their top 3. -/
theorem GRGB565_TO_BLUE_form (p : Nat) :
    GRGB565_TO_BLUE p = p % 32 * 8 + p % 32 / 4 := by
  unfold GRGB565_TO_BLUE
  simp only [Nat.shiftRight_eq_div_pow, Nat.shiftLeft_eq]
  have a1 : (p * 2 ^ 3) &&& 0xF8 = p * 2 ^ 3 / 2 ^ 3 % 2 ^ 5 * 2 ^ 3 := and_mask_field _ 5 3
  have a2 : (p / 2 ^ 2) &&& 0x07 = p / 2 ^ 2 % 2 ^ 3 := and_low _ 3
  rw [a1, a2, or_low _ _ 3 (by omega) (by omega)]
  omega

/-- GRGB565_TO_RGB24 as the sum of its six bit fields. -/
theorem GRGB565_TO_RGB24_form (p : Nat) :
    GRGB565_TO_RGB24 p =
      (p / 2048 % 32 * 8 + p / 2048 % 32 / 4) * 65536 +
      (p / 32 % 64 * 4 + p / 32 % 64 / 16) * 256 + (p % 32 * 8 + p % 32 / 4) := by
  unfold GRGB565_TO_RGB24
  simp only [Nat.shiftRight_eq_div_pow, Nat.shiftLeft_eq]
  have m : (0x0700F8 : Nat) = 0x070000 ||| 0xF8 := by decide
  have a1 : (p * 2 ^ 8) &&& 0xF80000 = p * 2 ^ 8 / 2 ^ 19 % 2 ^ 5 * 2 ^ 19 :=
    and_mask_field _ 5 19
  have a2 : (p * 2 ^ 3) &&& 0x070000 = p * 2 ^ 3 / 2 ^ 16 % 2 ^ 3 * 2 ^ 16 :=
    and_mask_field _ 3 16
  have a3 : (p * 2 ^ 3) &&& 0xF8 = p * 2 ^ 3 / 2 ^ 3 % 2 ^ 5 * 2 ^ 3 := and_mask_field _ 5 3
  have a4 : (p * 2 ^ 5) &&& 0x00FC00 = p * 2 ^ 5 / 2 ^ 10 % 2 ^ 6 * 2 ^ 10 :=
    and_mask_field _ 6 10
  have a5 : (p / 2 ^ 1) &&& 0x000300 = p / 2 ^ 1 / 2 ^ 8 % 2 ^ 2 * 2 ^ 8 := and_mask_field _ 2 8
  have a6 : (p / 2 ^ 2) &&& 0x000007 = p / 2 ^ 2 % 2 ^ 3 := and_low _ 3
  rw [m, Nat.and_or_distrib_left, a1, a2, a3, a4, a5, a6, ← Nat.or_assoc,
    or_field _ _ 16 3 (by omega) (by omega), or_field _ _ 3 5 (by omega) (by omega),
    or_field _ _ 10 6 (by omega) (by omega), or_field _ _ 8 2 (by omega) (by omega),
    or_low _ _ 3 (by omega) (by omega)]
  omega

/-- GRGB_TO_RGB555 of three bytes as a sum of its three fields. -/
theorem GRGB_TO_RGB555_form (r g b : Nat) (hr : r < 256) (hg : g < 256) (hb : b < 256) :
    GRGB_TO_RGB555 r g b = r / 8 * 1024 + g / 8 * 32 + b / 8 := by
  unfold GRGB_TO_RGB555 toUShort
  simp only [Nat.shiftLeft_eq, Nat.shiftRight_eq_div_pow]
  have a1 : (r * 2 ^ 7) &&& 0x7C00 = r * 2 ^ 7 / 2 ^ 10 % 2 ^ 5 * 2 ^ 10 := and_mask_field _ 5 10
  have a2 : (g * 2 ^ 2) &&& 0x03E0 = g * 2 ^ 2 / 2 ^ 5 % 2 ^ 5 * 2 ^ 5 := and_mask_field _ 5 5
  have a3 : (b / 2 ^ 3) &&& 0x001F = b / 2 ^ 3 % 2 ^ 5 := and_low _ 5
  rw [a1, a2, a3, or_field _ _ 5 5 (by omega) (by omega), or_low _ _ 5 (by omega) (by omega)]
  omega

/-- GRGB555_TO_RED as the 5 red bits followed by a copy of their top 3. -/
theorem GRGB555_TO_RED_form (p : Nat) :
    GRGB555_TO_RED p = p / 1024 % 32 * 8 + p / 1024 % 32 / 4 := by
  unfold GRGB555_TO_RED
  simp only [Nat.shiftRight_eq_div_pow]
  have a1 : (p / 2 ^ 7) &&& 0xF8 = p / 2 ^ 7 / 2 ^ 3 % 2 ^ 5 * 2 ^ 3 := and_mask_field _ 5 3
  have a2 : (p / 2 ^ 12) &&& 0x07 = p / 2 ^ 12 % 2 ^ 3 := and_low _ 3
  rw [a1, a2, or_low _ _ 3 (by omega) (by omega)]
  omega

/-- GRGB555_TO_GREEN as the 5 green bits followed by a copy of their top 3. -/
theorem GRGB555_TO_GREEN_form (p : Nat) :
    GRGB555_TO_GREEN p = p / 32 % 32 * 8 + p / 32 % 32 / 4 := by
  unfold GRGB555_TO_GREEN
  simp only [Nat.shiftRight_eq_div_pow]
  have a1 : (p / 2 ^ 2) &&& 0xF8 = p / 2 ^ 2 / 2 ^ 3 % 2 ^ 5 * 2 ^ 3 := and_mask_field _ 5 3
  have a2 : (p / 2 ^ 7) &&& 0x07 = p / 2 ^ 7 % 2 ^ 3 := and_low _ 3
  rw [a1, a2, or_low _ _ 3 (by omega) (by omega)]
  omega

/-- GRGB555_TO_BLUE as the 5 blue bits followed by a copy of their top 3. -/
theorem GRGB555_TO_BLUE_form (p : Nat) :
    GRGB555_TO_BLUE p = p % 32 * 8 + p % 32 / 4 := by
  unfold GRGB555_TO_BLUE
  simp only [Nat.shiftRight_eq_div_pow, Nat.shiftLeft_eq]
  have a1 : (p * 2 ^ 3) &&& 0xF8 = p * 2 ^ 3 / 2 ^ 3 % 2 ^ 5 * 2 ^ 3 := and_mask_field _ 5 3
  have a2 : (p / 2 ^ 2) &&& 0x07 = p / 2 ^ 2 % 2 ^ 3 := and_low _ 3
  rw [a1, a2, or_low _ _ 3 (by omega) (by omega)]
  omega

/-- GRGB555_TO_RGB24 as the sum of its six bit fields. -/
theorem GRGB555_TO_RGB24_form (p : Nat) :
    GRGB555_TO_RGB24 p =
      (p / 1024 % 32 * 8 + p / 1024 % 32 / 4) * 65536 +
      (p / 32 % 32 * 8 + p / 32 % 32 / 4) * 256 + (p % 32 * 8 + p % 32 / 4) := by
  unfold GRGB555_TO_RGB24
  simp only [Nat.shiftRight_eq_div_pow, Nat.shiftLeft_eq]
  have a1 : (p * 2 ^ 9) &&& 0xF80000 = p * 2 ^ 9 / 2 ^ 19 % 2 ^ 5 * 2 ^ 19 :=
    and_mask_field _ 5 19
  have a2 : (p * 2 ^ 4) &&& 0x070000 = p * 2 ^ 4 / 2 ^ 16 % 2 ^ 3 * 2 ^ 16 :=
    and_mask_field _ 3 16
  have a3 : (p * 2 ^ 6) &&& 0x00F800 = p * 2 ^ 6 / 2 ^ 11 % 2 ^ 5 * 2 ^ 11 :=
    and_mask_field _ 5 11
  have a4 : (p * 2 ^ 1) &&& 0x000700 = p * 2 ^ 1 / 2 ^ 8 % 2 ^ 3 * 2 ^ 8 := and_mask_field _ 3 8
  have a5 : (p * 2 ^ 3) &&& 0x0000F8 = p * 2 ^ 3 / 2 ^ 3 % 2 ^ 5 * 2 ^ 3 := and_mask_field _ 5 3
  have a6 : (p / 2 ^ 2) &&& 0x000007 = p / 2 ^ 2 % 2 ^ 3 := and_low _ 3
  rw [a1, a2, a3, a4, a5, a6,
    or_field _ _ 16 3 (by omega) (by omega), or_field _ _ 11 5 (by omega) (by omega),
    or_field _ _ 8 3 (by omega) (by omega), or_field _ _ 3 5 (by omega) (by omega),
    or_low _ _ 3 (by omega) (by omega)]
  omega

/-- A 5-bit field f followed by a copy of its top 3 bits: the byte f * 8 + f / 4. -/
theorem replicate5 (f : Nat) (hf : f < 32) :
    (f * 8 + f / 4) / 8 = f ∧ (f * 8 + f / 4) % 8 = f / 4 ∧
    (f * 8 + f / 4) / 32 = f / 4 ∧ f * 8 + f / 4 < 256 := by
  refine ⟨?_, ?_, ?_, ?_⟩ <;> omega

/-- A 6-bit field f followed by a copy of its top 2 bits: the byte f * 4 + f / 16. -/
theorem replicate6 (f : Nat) (hf : f < 64) :
    (f * 4 + f / 16) / 4 = f ∧ (f * 4 + f / 16) % 4 = f / 16 ∧
    (f * 4 + f / 16) / 64 = f / 16 ∧ f * 4 + f / 16 < 256 := by
  refine ⟨?_, ?_, ?_, ?_⟩ <;> omega

/-- C11. For bytes r, g, b, GRGB_TO_RGB565 is ((r & 0xF8) << 8) | ((g & 0xFC) << 3)
| (b >> 3); it is below 2^16, its bits 15..11 are the top 5 bits of r, its bits
10..5 the top 6 bits of g and its bits 4..0 the top 5 bits of b. -/
theorem rgb565_pack_layout (r g b : Nat) (hr : r < 256) (hg : g < 256) (hb : b < 256) :
    GRGB_TO_RGB565 r g b = ((r &&& 0xF8) <<< 8) ||| ((g &&& 0xFC) <<< 3) ||| (b >>> 3) ∧
    GRGB_TO_RGB565 r g b < 2 ^ 16 ∧
    GRGB_TO_RGB565 r g b >>> 11 = r >>> 3 ∧
    (GRGB_TO_RGB565 r g b >>> 5) &&& 0x3F = g >>> 2 ∧
    GRGB_TO_RGB565 r g b &&& 0x1F = b >>> 3 := by
  rw [GRGB_TO_RGB565_form r g b hr hg hb]
  have a1 : r &&& 0xF8 = r / 2 ^ 3 % 2 ^ 5 * 2 ^ 3 := and_mask_field _ 5 3
  have a2 : g &&& 0xFC = g / 2 ^ 2 % 2 ^ 6 * 2 ^ 2 := and_mask_field _ 6 2
  have a3 : ((r / 8 * 2048 + g / 4 * 32 + b / 8) >>> 5) &&& 0x3F
      = ((r / 8 * 2048 + g / 4 * 32 + b / 8) >>> 5) % 2 ^ 6 := and_low _ 6
  have a4 : (r / 8 * 2048 + g / 4 * 32 + b / 8) &&& 0x1F
      = (r / 8 * 2048 + g / 4 * 32 + b / 8) % 2 ^ 5 := and_low _ 5
  rw [a1, a2, a3, a4]
  simp only [Nat.shiftLeft_eq, Nat.shiftRight_eq_div_pow]
  rw [or_field _ _ 3 8 (by omega) (by omega), or_low _ _ 5 (by omega) (by omega)]
  refine ⟨?_, ?_, ?_, ?_, ?_⟩ <;> omega

/-- Witness of C11 at the colour (255, 0, 128). -/
theorem rgb565_pack_layout_witness :
    GRGB_TO_RGB565 255 0 128 = ((255 &&& 0xF8) <<< 8) ||| ((0 &&& 0xFC) <<< 3) ||| (128 >>> 3) ∧
    GRGB_TO_RGB565 255 0 128 < 2 ^ 16 ∧
    GRGB_TO_RGB565 255 0 128 >>> 11 = 255 >>> 3 ∧
    (GRGB_TO_RGB565 255 0 128 >>> 5) &&& 0x3F = 0 >>> 2 ∧
    GRGB_TO_RGB565 255 0 128 &&& 0x1F = 128 >>> 3 :=
  rgb565_pack_layout 255 0 128 (by decide) (by decide) (by decide)

/-- C12. RGB565 round trip of bytes r, g, b with p = GRGB_TO_RGB565(r, g, b):
each unpacked channel keeps the top 5 (red, blue) or top 6 (green) bits of the
original and differs from it by at most 7 (red, blue) or 3 (green); the low bits
of each unpacked channel are a copy of its own top 3 (red, blue) or top 2
(green) bits. -/
theorem rgb565_round_trip_error (r g b : Nat) (hr : r < 256) (hg : g < 256) (hb : b < 256) :
    (GRGB565_TO_RED (GRGB_TO_RGB565 r g b) >>> 3 = r >>> 3 ∧
      GRGB565_TO_RED (GRGB_TO_RGB565 r g b) ≤ r + 7 ∧
      r ≤ GRGB565_TO_RED (GRGB_TO_RGB565 r g b) + 7 ∧
      GRGB565_TO_RED (GRGB_TO_RGB565 r g b) &&& 0x07
        = GRGB565_TO_RED (GRGB_TO_RGB565 r g b) >>> 5) ∧
    (GRGB565_TO_GREEN (GRGB_TO_RGB565 r g b) >>> 2 = g >>> 2 ∧
      GRGB565_TO_GREEN (GRGB_TO_RGB565 r g b) ≤ g + 3 ∧
      g ≤ GRGB565_TO_GREEN (GRGB_TO_RGB565 r g b) + 3 ∧
      GRGB565_TO_GREEN (GRGB_TO_RGB565 r g b) &&& 0x03
        = GRGB565_TO_GREEN (GRGB_TO_RGB565 r g b) >>> 6) ∧
    (GRGB565_TO_BLUE (GRGB_TO_RGB565 r g b) >>> 3 = b >>> 3 ∧
      GRGB565_TO_BLUE (GRGB_TO_RGB565 r g b) ≤ b + 7 ∧
      b ≤ GRGB565_TO_BLUE (GRGB_TO_RGB565 r g b) + 7 ∧
      GRGB565_TO_BLUE (GRGB_TO_RGB565 r g b) &&& 0x07
        = GRGB565_TO_BLUE (GRGB_TO_RGB565 r g b) >>> 5) := by
  rw [GRGB565_TO_RED_form, GRGB565_TO_GREEN_form, GRGB565_TO_BLUE_form,
    GRGB_TO_RGB565_form r g b hr hg hb]
  have h1 : (r / 8 * 2048 + g / 4 * 32 + b / 8) / 2048 % 32 = r / 8 := by omega
  have h3 : (r / 8 * 2048 + g / 4 * 32 + b / 8) / 32 % 64 = g / 4 := by omega
  have h5 : (r / 8 * 2048 + g / 4 * 32 + b / 8) % 32 = b / 8 := by omega
  rw [h1, h3, h5]
  have a1 : (r / 8 * 8 + r / 8 / 4) &&& 0x07 = (r / 8 * 8 + r / 8 / 4) % 2 ^ 3 := and_low _ 3
  have a2 : (g / 4 * 4 + g / 4 / 16) &&& 0x03 = (g / 4 * 4 + g / 4 / 16) % 2 ^ 2 := and_low _ 2
  have a3 : (b / 8 * 8 + b / 8 / 4) &&& 0x07 = (b / 8 * 8 + b / 8 / 4) % 2 ^ 3 := and_low _ 3
  rw [a1, a2, a3]
  clear h1 h3 h5 a1 a2 a3
  simp only [Nat.shiftRight_eq_div_pow, Nat.reducePow]
  obtain ⟨r1, r2, r3, -⟩ := replicate5 (r / 8) (by omega)
  obtain ⟨g1, g2, g3, -⟩ := replicate6 (g / 4) (by omega)
  obtain ⟨b1, b2, b3, -⟩ := replicate5 (b / 8) (by omega)
  refine ⟨⟨?_, ?_, ?_, ?_⟩, ⟨?_, ?_, ?_, ?_⟩, ⟨?_, ?_, ?_, ?_⟩⟩ <;> omega

/-- Witness of C12 at the colour (255, 0, 128): the red channel. -/
theorem rgb565_round_trip_error_witness :
    ((255 : Nat) < 256 ∧ (0 : Nat) < 256 ∧ (128 : Nat) < 256) ∧
    (GRGB565_TO_RED (GRGB_TO_RGB565 255 0 128) >>> 3 = 255 >>> 3 ∧
      GRGB565_TO_RED (GRGB_TO_RGB565 255 0 128) ≤ 255 + 7 ∧
      255 ≤ GRGB565_TO_RED (GRGB_TO_RGB565 255 0 128) + 7 ∧
      GRGB565_TO_RED (GRGB_TO_RGB565 255 0 128) &&& 0x07
        = GRGB565_TO_RED (GRGB_TO_RGB565 255 0 128) >>> 5) :=
  ⟨⟨by decide, by decide, by decide⟩,
   (rgb565_round_trip_error 255 0 128 (by decide) (by decide) (by decide)).1⟩

/-- Counterexample to C13 as stated: for the pen colour (255, 0, 128) the blue
channel after packing and unpacking is neither 131 nor 124. -/
theorem rgb565_scenario_counterexample :
    ¬ (GRGB565_TO_RED (GRGB_TO_RGB565 255 0 128) = 255 ∧
       GRGB565_TO_GREEN (GRGB_TO_RGB565 255 0 128) = 0 ∧
       (GRGB565_TO_BLUE (GRGB_TO_RGB565 255 0 128) = 131 ∨
        GRGB565_TO_BLUE (GRGB_TO_RGB565 255 0 128) = 124)) := by
  decide

/-- C13, amended. For the pen colour (255, 0, 128), packing with GRGB_TO_RGB565
gives 0xF810 and unpacking gives red = 255, green = 0 and blue = 132. -/
theorem rgb565_scenario_exact :
    GRGB_TO_RGB565 255 0 128 = 0xF810 ∧
    GRGB565_TO_RED (GRGB_TO_RGB565 255 0 128) = 255 ∧
    GRGB565_TO_GREEN (GRGB_TO_RGB565 255 0 128) = 0 ∧
    GRGB565_TO_BLUE (GRGB_TO_RGB565 255 0 128) = 132 := by
  decide

/-- C14. RGB555 layout. For bytes r, g, b, GRGB_TO_RGB555 is ((r & 0xF8) << 7) |
((g & 0xF8) << 2) | (b >> 3) and is below 2^15.  For every p, 16-bit or not, each of
GRGB555_TO_RED, GREEN, BLUE is unchanged when bit 15 of p is cleared, carries the
5 stored bits of its channel in its high positions and the top 3 of them in its
low 3 bits.  Unpacking a packed colour keeps the top 5 bits of every channel. -/
theorem rgb555_layout (r g b p : Nat) (hr : r < 256) (hg : g < 256) (hb : b < 256) :
    (GRGB_TO_RGB555 r g b = ((r &&& 0xF8) <<< 7) ||| ((g &&& 0xF8) <<< 2) ||| (b >>> 3) ∧
      GRGB_TO_RGB555 r g b < 2 ^ 15) ∧
    (GRGB555_TO_RED p = GRGB555_TO_RED (p % 2 ^ 15) ∧
      GRGB555_TO_GREEN p = GRGB555_TO_GREEN (p % 2 ^ 15) ∧
      GRGB555_TO_BLUE p = GRGB555_TO_BLUE (p % 2 ^ 15)) ∧
    (GRGB555_TO_RED p >>> 3 = (p >>> 10) % 2 ^ 5 ∧
      GRGB555_TO_RED p % 2 ^ 3 = ((p >>> 10) % 2 ^ 5) >>> 2 ∧
      GRGB555_TO_GREEN p >>> 3 = (p >>> 5) % 2 ^ 5 ∧
      GRGB555_TO_GREEN p % 2 ^ 3 = ((p >>> 5) % 2 ^ 5) >>> 2 ∧
      GRGB555_TO_BLUE p >>> 3 = p % 2 ^ 5 ∧
      GRGB555_TO_BLUE p % 2 ^ 3 = (p % 2 ^ 5) >>> 2) ∧
    (GRGB555_TO_RED (GRGB_TO_RGB555 r g b) >>> 3 = r >>> 3 ∧
      GRGB555_TO_GREEN (GRGB_TO_RGB555 r g b) >>> 3 = g >>> 3 ∧
      GRGB555_TO_BLUE (GRGB_TO_RGB555 r g b) >>> 3 = b >>> 3) := by
  simp only [GRGB555_TO_RED_form, GRGB555_TO_GREEN_form, GRGB555_TO_BLUE_form,
    GRGB_TO_RGB555_form r g b hr hg hb]
  have a1 : r &&& 0xF8 = r / 2 ^ 3 % 2 ^ 5 * 2 ^ 3 := and_mask_field _ 5 3
  have a2 : g &&& 0xF8 = g / 2 ^ 3 % 2 ^ 5 * 2 ^ 3 := and_mask_field _ 5 3
  rw [a1, a2]
  simp only [Nat.shiftLeft_eq, Nat.shiftRight_eq_div_pow]
  rw [or_field _ _ 2 8 (by omega) (by omega), or_low _ _ 5 (by omega) (by omega)]
  have h1 : (r / 8 * 1024 + g / 8 * 32 + b / 8) / 1024 % 32 = r / 8 := by omega
  have h3 : (r / 8 * 1024 + g / 8 * 32 + b / 8) / 32 % 32 = g / 8 := by omega
  have h5 : (r / 8 * 1024 + g / 8 * 32 + b / 8) % 32 = b / 8 := by omega
  rw [h1, h3, h5]
  have k1 : p % 2 ^ 15 / 1024 % 32 = p / 1024 % 32 := by omega
  have k3 : p % 2 ^ 15 / 32 % 32 = p / 32 % 32 := by omega
  have k5 : p % 2 ^ 15 % 32 = p % 32 := by omega
  rw [k1, k3, k5]
  clear h1 h3 h5 k1 k3 k5 a1 a2
  simp only [Nat.reducePow]
  obtain ⟨r1, -, -, -⟩ := replicate5 (r / 8) (by omega)
  obtain ⟨g1, -, -, -⟩ := replicate5 (g / 8) (by omega)
  obtain ⟨b1, -, -, -⟩ := replicate5 (b / 8) (by omega)
  obtain ⟨p1, p2, -, -⟩ := replicate5 (p / 1024 % 32) (by omega)
  obtain ⟨q1, q2, -, -⟩ := replicate5 (p / 32 % 32) (by omega)
  obtain ⟨s1, s2, -, -⟩ := replicate5 (p % 32) (by omega)
  refine ⟨⟨?_, ?_⟩, ?_, ⟨?_, ?_, ?_, ?_, ?_, ?_⟩, ⟨?_, ?_, ?_⟩⟩ <;>
    first | trivial | omega

/-- Witness of C14 at the colour (255, 0, 128) and the word 0xFFFF: the pack
layout and the independence from bit 15. -/
theorem rgb555_layout_witness :
    ((255 : Nat) < 256 ∧ (0 : Nat) < 256 ∧ (128 : Nat) < 256) ∧
    (GRGB_TO_RGB555 255 0 128 = ((255 &&& 0xF8) <<< 7) ||| ((0 &&& 0xF8) <<< 2) ||| (128 >>> 3) ∧
      GRGB_TO_RGB555 255 0 128 < 2 ^ 15) ∧
    (GRGB555_TO_RED 0xFFFF = GRGB555_TO_RED (0xFFFF % 2 ^ 15) ∧
      GRGB555_TO_GREEN 0xFFFF = GRGB555_TO_GREEN (0xFFFF % 2 ^ 15) ∧
      GRGB555_TO_BLUE 0xFFFF = GRGB555_TO_BLUE (0xFFFF % 2 ^ 15)) :=
  ⟨⟨by decide, by decide, by decide⟩,
   (rgb555_layout 255 0 128 0xFFFF (by decide) (by decide) (by decide)).1,
   (rgb555_layout 255 0 128 0xFFFF (by decide) (by decide) (by decide)).2.1⟩

/-- The three bytes of a packed word r * 2^16 + g * 2^8 + b. -/
theorem pack_bytes (r g b : Nat) (hr : r < 256) (hg : g < 256) (hb : b < 256) :
    ((r * 65536 + g * 256 + b) >>> 16) &&& 0xFF = r ∧
    ((r * 65536 + g * 256 + b) >>> 8) &&& 0xFF = g ∧
    (r * 65536 + g * 256 + b) &&& 0xFF = b := by
  have a1 : ((r * 65536 + g * 256 + b) >>> 16) &&& 0xFF
      = ((r * 65536 + g * 256 + b) >>> 16) % 2 ^ 8 := and_low _ 8
  have a2 : ((r * 65536 + g * 256 + b) >>> 8) &&& 0xFF
      = ((r * 65536 + g * 256 + b) >>> 8) % 2 ^ 8 := and_low _ 8
  have a3 : (r * 65536 + g * 256 + b) &&& 0xFF = (r * 65536 + g * 256 + b) % 2 ^ 8 :=
    and_low _ 8
  rw [a1, a2, a3]
  simp only [Nat.shiftRight_eq_div_pow, Nat.reducePow]
  refine ⟨?_, ?_, ?_⟩ <;> omega

/-- C15. For bytes r, g, b, GRGB_TO_GRAY8 is the truncated quotient
(3r + 6g + b) / 10, which is at most 255, and GRGB24_TO_GRAY8 of the packed word
gives the same value.  For a byte v, GGRAY8_TO_RGB24(v) is the 24-bit word whose
three bytes are all v. -/
theorem gray8_conversion (r g b v : Nat) (hr : r < 256) (hg : g < 256) (hb : b < 256)
    (hv : v < 256) :
    GRGB_TO_GRAY8 r g b = (3 * r + 6 * g + b) / 10 ∧
    (3 * r + 6 * g + b) / 10 ≤ 255 ∧
    GRGB24_TO_GRAY8 (GRGB_PACK r g b) = GRGB_TO_GRAY8 r g b ∧
    GGRAY8_TO_RGB24 v < 2 ^ 24 ∧
    (GGRAY8_TO_RGB24 v >>> 16) &&& 0xFF = v ∧
    (GGRAY8_TO_RGB24 v >>> 8) &&& 0xFF = v ∧
    GGRAY8_TO_RGB24 v &&& 0xFF = v := by
  obtain ⟨p1, p2, p3⟩ := pack_bytes r g b hr hg hb
  obtain ⟨v1, v2, v3⟩ := pack_bytes v v v hv hv hv
  unfold GRGB24_TO_GRAY8 GGRAY8_TO_RGB24 GRGB_TO_GRAY8 toUChar
  rw [GRGB_PACK_form r g b hr hg hb, GRGB_PACK_form v v v hv hv hv, p1, p2, p3, v1, v2, v3]
  refine ⟨?_, ?_, ?_, ?_, ?_, ?_, ?_⟩ <;> first | rfl | omega

/-- Witness of C15 at the colour (255, 0, 128) and the gray level 200. -/
theorem gray8_conversion_witness :
    ((255 : Nat) < 256 ∧ (0 : Nat) < 256 ∧ (128 : Nat) < 256 ∧ (200 : Nat) < 256) ∧
    (GRGB_TO_GRAY8 255 0 128 = (3 * 255 + 6 * 0 + 128) / 10 ∧
    (3 * 255 + 6 * 0 + 128) / 10 ≤ 255 ∧
    GRGB24_TO_GRAY8 (GRGB_PACK 255 0 128) = GRGB_TO_GRAY8 255 0 128 ∧
    GGRAY8_TO_RGB24 200 < 2 ^ 24 ∧
    (GGRAY8_TO_RGB24 200 >>> 16) &&& 0xFF = 200 ∧
    (GGRAY8_TO_RGB24 200 >>> 8) &&& 0xFF = 200 ∧
    GGRAY8_TO_RGB24 200 &&& 0xFF = 200) :=
  ⟨⟨by decide, by decide, by decide, by decide⟩,
   gray8_conversion 255 0 128 200 (by decide) (by decide) (by decide) (by decide)⟩

/-- C16. For bytes r, g, b, the rgb24 GDST_STOREC writes the bytes r, g, b in that
order, and the rgb32 GDST_STOREC writes the word (r << 16) | (g << 8) | b, whose
top byte is zero.  In both formats GDST_READ of the stored pixel is GRGB_PACK(r,
g, b), and the rgb32 GDST_READ of a word with top byte top and low 24 bits low
is low. -/
theorem rgb24_rgb32_store_read (r g b top low : Nat) (hr : r < 256) (hg : g < 256)
    (hb : b < 256) (htop : top < 256) (hlow : low < 2 ^ 24) :
    rgb24.GDST_STOREC r g b = (r, g, b) ∧
    rgb32.GDST_STOREC r g b = (r <<< 16) ||| (g <<< 8) ||| b ∧
    rgb32.GDST_STOREC r g b >>> 24 = 0 ∧
    rgb24.GDST_READ (rgb24.GDST_STOREC r g b) = GRGB_PACK r g b ∧
    rgb32.GDST_READ (rgb32.GDST_STOREC r g b) = GRGB_PACK r g b ∧
    rgb32.GDST_READ ((top <<< 24) ||| low) = low := by
  have e24 : rgb24.GDST_STOREC r g b = (r, g, b) := by
    unfold rgb24.GDST_STOREC GDST_STORE3 toUChar
    have e1 : r % 2 ^ 8 = r := by omega
    have e2 : g % 2 ^ 8 = g := by omega
    have e3 : b % 2 ^ 8 = b := by omega
    rw [e1, e2, e3]
  have a1 : (r * 65536 + g * 256 + b) &&& 0xFFFFFF = (r * 65536 + g * 256 + b) % 2 ^ 24 :=
    and_low _ 24
  have a2 : (top * 2 ^ 24 + low) &&& 0xFFFFFF = (top * 2 ^ 24 + low) % 2 ^ 24 := and_low _ 24
  refine ⟨e24, ?_, ?_, ?_, ?_, ?_⟩
  · unfold rgb32.GDST_STOREC
    rw [GRGB_PACK_form r g b hr hg hb]
    simp only [Nat.shiftLeft_eq]
    rw [or_field _ _ 8 8 (by omega) (by omega), or_low _ _ 8 (by omega) (by omega)]
    omega
  · unfold rgb32.GDST_STOREC
    rw [GRGB_PACK_form r g b hr hg hb]
    simp only [Nat.shiftRight_eq_div_pow, Nat.reducePow]
    omega
  · rw [e24]
    rfl
  · unfold rgb32.GDST_READ rgb32.GDST_STOREC
    rw [GRGB_PACK_form r g b hr hg hb, a1]
    omega
  · unfold rgb32.GDST_READ
    simp only [Nat.shiftLeft_eq]
    rw [Nat.or_comm, or_field low top 24 8 (by omega) (by omega), Nat.add_comm, a2]
    omega

/-- Witness of C16 at the colour (255, 0, 128) and a word with top byte 0xAB. -/
theorem rgb24_rgb32_store_read_witness :
    ((255 : Nat) < 256 ∧ (0 : Nat) < 256 ∧ (128 : Nat) < 256 ∧ (0xAB : Nat) < 256 ∧
      (0x123456 : Nat) < 2 ^ 24) ∧
    (rgb24.GDST_STOREC 255 0 128 = (255, 0, 128) ∧
    rgb32.GDST_STOREC 255 0 128 = (255 <<< 16) ||| (0 <<< 8) ||| 128 ∧
    rgb32.GDST_STOREC 255 0 128 >>> 24 = 0 ∧
    rgb24.GDST_READ (rgb24.GDST_STOREC 255 0 128) = GRGB_PACK 255 0 128 ∧
    rgb32.GDST_READ (rgb32.GDST_STOREC 255 0 128) = GRGB_PACK 255 0 128 ∧
    rgb32.GDST_READ ((0xAB <<< 24) ||| 0x123456) = 0x123456) :=
  ⟨⟨by decide, by decide, by decide, by decide, by decide⟩,
   rgb24_rgb32_store_read 255 0 128 0xAB 0x123456 (by decide) (by decide) (by decide)
     (by decide) (by decide)⟩

/-- C17. Opaque store reproduces the pen colour. For each target format and a pen
colour valid for it, GDST_READ of the pixel written by GDST_COPY is the canonical
24-bit value GDST_PIX of the pen, and GDST_PIX is GRGB_PACK of the channels
declared by GDST_CHANNELS. -/
theorem opaque_store_reproduces_pen (color : grColor) :
    (color.value ≤ 255 →
      gray8.GDST_READ (gray8.GDST_COPY color) = gray8.GDST_PIX color ∧
      gray8.GDST_PIX color = GRGB_PACK (gray8.GDST_CHANNELS color).1
        (gray8.GDST_CHANNELS color).2.1 (gray8.GDST_CHANNELS color).2.2) ∧
    (color.value < 2 ^ 16 →
      rgb565.GDST_READ (rgb565.GDST_COPY color) = rgb565.GDST_PIX color ∧
      rgb565.GDST_PIX color = GRGB_PACK (rgb565.GDST_CHANNELS color).1
        (rgb565.GDST_CHANNELS color).2.1 (rgb565.GDST_CHANNELS color).2.2) ∧
    (color.value < 2 ^ 16 →
      rgb555.GDST_READ (rgb555.GDST_COPY color) = rgb555.GDST_PIX color ∧
      rgb555.GDST_PIX color = GRGB_PACK (rgb555.GDST_CHANNELS color).1
        (rgb555.GDST_CHANNELS color).2.1 (rgb555.GDST_CHANNELS color).2.2) ∧
    (chromaAt color 0 < 256 ∧ chromaAt color 1 < 256 ∧ chromaAt color 2 < 256 →
      rgb24.GDST_READ (rgb24.GDST_COPY color) = rgb24.GDST_PIX color ∧
      rgb24.GDST_PIX color = GRGB_PACK (rgb24.GDST_CHANNELS color).1
        (rgb24.GDST_CHANNELS color).2.1 (rgb24.GDST_CHANNELS color).2.2) ∧
    (color.value < 2 ^ 32 →
      rgb32.GDST_READ (rgb32.GDST_COPY color) = rgb32.GDST_PIX color ∧
      rgb32.GDST_PIX color = GRGB_PACK (rgb32.GDST_CHANNELS color).1
        (rgb32.GDST_CHANNELS color).2.1 (rgb32.GDST_CHANNELS color).2.2) := by
  refine ⟨?_, ?_, ?_, ?_, ?_⟩
  · intro hv
    have e : color.value % 2 ^ 8 = color.value := by omega
    refine ⟨?_, rfl⟩
    unfold gray8.GDST_READ gray8.GDST_COPY gray8.GDST_PIX toUChar
    rw [e]
  · intro hv
    have e : color.value % 2 ^ 16 % 2 ^ 32 = color.value := by omega
    refine ⟨?_, ?_⟩
    · unfold rgb565.GDST_READ rgb565.GDST_COPY rgb565.GDST_PIX toUShort toGBlenderPixel
      rw [e]
    · unfold rgb565.GDST_PIX rgb565.GDST_CHANNELS
      simp only []
      obtain ⟨-, -, -, r4⟩ := replicate5 (color.value / 2048 % 32) (by omega)
      obtain ⟨-, -, -, g4⟩ := replicate6 (color.value / 32 % 64) (by omega)
      obtain ⟨-, -, -, b4⟩ := replicate5 (color.value % 32) (by omega)
      rw [GRGB565_TO_RGB24_form, GRGB565_TO_RED_form, GRGB565_TO_GREEN_form,
        GRGB565_TO_BLUE_form, GRGB_PACK_form _ _ _ r4 g4 b4]
  · intro hv
    have e : color.value % 2 ^ 16 % 2 ^ 32 = color.value := by omega
    refine ⟨?_, ?_⟩
    · unfold rgb555.GDST_READ rgb555.GDST_COPY rgb555.GDST_PIX toUShort toGBlenderPixel
      rw [e]
    · unfold rgb555.GDST_PIX rgb555.GDST_CHANNELS
      simp only []
      obtain ⟨-, -, -, r4⟩ := replicate5 (color.value / 1024 % 32) (by omega)
      obtain ⟨-, -, -, g4⟩ := replicate5 (color.value / 32 % 32) (by omega)
      obtain ⟨-, -, -, b4⟩ := replicate5 (color.value % 32) (by omega)
      rw [GRGB555_TO_RGB24_form, GRGB555_TO_RED_form, GRGB555_TO_GREEN_form,
        GRGB555_TO_BLUE_form, GRGB_PACK_form _ _ _ r4 g4 b4]
  · rintro ⟨h0, h1, h2⟩
    have e0 : chromaAt color 0 % 2 ^ 8 = chromaAt color 0 := by omega
    have e1 : chromaAt color 1 % 2 ^ 8 = chromaAt color 1 := by omega
    have e2 : chromaAt color 2 % 2 ^ 8 = chromaAt color 2 := by omega
    refine ⟨?_, rfl⟩
    unfold rgb24.GDST_READ rgb24.GDST_COPY rgb24.GDST_PIX GDST_STORE3 toUChar
    simp only []
    rw [e0, e1, e2]
  · intro hv
    have a0 : color.value % 2 ^ 32 &&& 0xFFFFFF = color.value % 2 ^ 32 % 2 ^ 24 := and_low _ 24
    have a1 : color.value &&& 0xFFFFFF = color.value % 2 ^ 24 := and_low _ 24
    have c1 : (color.value >>> 16) &&& 255 = (color.value >>> 16) % 2 ^ 8 := and_low _ 8
    have c2 : (color.value >>> 8) &&& 255 = (color.value >>> 8) % 2 ^ 8 := and_low _ 8
    have c3 : color.value &&& 255 = color.value % 2 ^ 8 := and_low _ 8
    refine ⟨?_, ?_⟩
    · unfold rgb32.GDST_READ rgb32.GDST_COPY rgb32.GDST_PIX toGBlenderPixel
      rw [a0, a1]
      omega
    · unfold rgb32.GDST_PIX rgb32.GDST_CHANNELS
      simp only []
      rw [a1, c1, c2, c3]
      simp only [Nat.shiftRight_eq_div_pow, Nat.reducePow]
      rw [GRGB_PACK_form _ _ _ (by omega) (by omega) (by omega)]
      omega

/-- Witness of C17: a gray pen of value 200, and a pen with value 0xF810 and
chroma bytes (255, 0, 128) for the other four formats. -/
theorem opaque_store_reproduces_pen_witness :
    (gray8.GDST_READ (gray8.GDST_COPY { value := 200, chroma := [200, 0, 0, 0] })
      = gray8.GDST_PIX { value := 200, chroma := [200, 0, 0, 0] }) ∧
    (rgb565.GDST_READ (rgb565.GDST_COPY { value := 0xF810, chroma := [255, 0, 128, 0] })
      = rgb565.GDST_PIX { value := 0xF810, chroma := [255, 0, 128, 0] }) ∧
    (rgb555.GDST_READ (rgb555.GDST_COPY { value := 0xF810, chroma := [255, 0, 128, 0] })
      = rgb555.GDST_PIX { value := 0xF810, chroma := [255, 0, 128, 0] }) ∧
    (rgb24.GDST_READ (rgb24.GDST_COPY { value := 0xF810, chroma := [255, 0, 128, 0] })
      = rgb24.GDST_PIX { value := 0xF810, chroma := [255, 0, 128, 0] }) ∧
    (rgb32.GDST_READ (rgb32.GDST_COPY { value := 0xF810, chroma := [255, 0, 128, 0] })
      = rgb32.GDST_PIX { value := 0xF810, chroma := [255, 0, 128, 0] }) :=
  ⟨((opaque_store_reproduces_pen { value := 200, chroma := [200, 0, 0, 0] }).1
      (by decide)).1,
   ((opaque_store_reproduces_pen { value := 0xF810, chroma := [255, 0, 128, 0] }).2.1
      (by decide)).1,
   ((opaque_store_reproduces_pen { value := 0xF810, chroma := [255, 0, 128, 0] }).2.2.1
      (by decide)).1,
   ((opaque_store_reproduces_pen { value := 0xF810, chroma := [255, 0, 128, 0] }).2.2.2.1
      (by decide)).1,
   ((opaque_store_reproduces_pen { value := 0xF810, chroma := [255, 0, 128, 0] }).2.2.2.2
      (by decide)).1⟩


/-- The origin, span function and colour left by grSetTargetPenBrush for a
supported target mode with bpp bytes per pixel. -/
theorem pen_brush_supported (spans : GrSpanFuncs) (surface : grSurface) (x y : Int)
    (color : grColor) (bpp : Int) (hbpp : bytesPerPixel surface.bitmap.mode = some bpp) :
    (grSetTargetPenBrush spans surface x y color).origin =
      some ((if surface.bitmap.pitch < 0
          then surface.bitmap.buffer + (y - surface.bitmap.rows) * surface.bitmap.pitch
          else surface.bitmap.buffer + (y - 1) * surface.bitmap.pitch) + x * bpp) ∧
    (grSetTargetPenBrush spans surface x y color).color = color ∧
    (grSetTargetPenBrush spans surface x y color).bitmap = surface.bitmap ∧
    (grSetTargetPenBrush spans surface x y color).gblender = surface.gblender := by
  unfold grSetTargetPenBrush
  cases hm : surface.bitmap.mode <;> rw [hm] at hbpp <;> simp [bytesPerPixel] at hbpp <;>
    subst hbpp <;> simp [hm]

/-- Counterexample to C18 as stated: on a top-down gray target with pitch 10 and
buffer address 1000, the pen origin for (x, y) = (0, 0) is 990, not the address
1000 of pixel (0, 0). -/
theorem pen_origin_is_pixel_xy_counterexample :
    ¬ ∀ (spans : GrSpanFuncs) (surface : grSurface) (x y : Int) (color : grColor) (bpp : Int),
        bytesPerPixel surface.bitmap.mode = some bpp →
        (0 ≤ surface.bitmap.pitch →
          (grSetTargetPenBrush spans surface x y color).origin =
            some (surface.bitmap.buffer + y * surface.bitmap.pitch + x * bpp)) ∧
        (surface.bitmap.pitch < 0 →
          (grSetTargetPenBrush spans surface x y color).origin =
            some (surface.bitmap.buffer - (surface.bitmap.rows - 1) * surface.bitmap.pitch
              + y * surface.bitmap.pitch + x * bpp)) := by
  intro h
  have h1 := (h sampleSpans sampleTarget 0 0 sampleColor 1 rfl).1 (by decide)
  revert h1
  decide

/-- C18, amended. For every supported target format with bpp bytes per pixel,
grSetTargetPenBrush sets the pen origin to the address of pixel (x, y - 1) under
the signed-pitch convention: buffer + (y - 1) * pitch + x * bpp when pitch >= 0,
and buffer - (rows - 1) * pitch + (y - 1) * pitch + x * bpp when pitch < 0. -/
theorem pen_origin_is_pixel_above (spans : GrSpanFuncs) (surface : grSurface) (x y : Int)
    (color : grColor) (bpp : Int) (hbpp : bytesPerPixel surface.bitmap.mode = some bpp) :
    (0 ≤ surface.bitmap.pitch →
      (grSetTargetPenBrush spans surface x y color).origin =
        some (surface.bitmap.buffer + (y - 1) * surface.bitmap.pitch + x * bpp)) ∧
    (surface.bitmap.pitch < 0 →
      (grSetTargetPenBrush spans surface x y color).origin =
        some (surface.bitmap.buffer - (surface.bitmap.rows - 1) * surface.bitmap.pitch
          + (y - 1) * surface.bitmap.pitch + x * bpp)) ∧
    (grSetTargetPenBrush spans surface x y color).origin =
      some (pixelAddress surface.bitmap bpp x (y - 1)) := by
  obtain ⟨ho, -, -, -⟩ := pen_brush_supported spans surface x y color bpp hbpp
  rw [ho]
  unfold pixelAddress
  refine ⟨?_, ?_, ?_⟩
  · intro hp
    rw [if_neg (by omega)]
  · intro hp
    rw [if_pos hp]
    congr 1
    ring
  · by_cases hp : surface.bitmap.pitch < 0
    · rw [if_pos hp, if_pos hp]
      congr 1
      ring
    · rw [if_neg hp, if_neg hp]

/-- Witness of C18, amended: the sample gray target (pitch 10, buffer 1000) at
(x, y) = (3, 5) gets the origin 1000 + 4 * 10 + 3. -/
theorem pen_origin_is_pixel_above_witness :
    bytesPerPixel sampleTarget.bitmap.mode = some 1 ∧
    (grSetTargetPenBrush sampleSpans sampleTarget 3 5 sampleColor).origin =
      some (pixelAddress sampleTarget.bitmap 1 3 (5 - 1)) :=
  ⟨rfl, (pen_origin_is_pixel_above sampleSpans sampleTarget 3 5 sampleColor 1 rfl).2.2⟩

/-- C19. For a target whose mode is none of gray, rgb555, rgb565, rgb24, rgb32,
grSetTargetPenBrush sets surface.origin and surface.gray_spans to NULL whatever
x, y and the pitch are, records surface.color = color, and leaves the bitmap
(buffer, width, rows, pitch, mode, grays) and the blender unchanged. -/
theorem pen_brush_unsupported_mode (spans : GrSpanFuncs) (surface : grSurface) (x y : Int)
    (color : grColor)
    (hmode : surface.bitmap.mode ∉ [gr_pixel_mode_gray, gr_pixel_mode_rgb555,
      gr_pixel_mode_rgb565, gr_pixel_mode_rgb24, gr_pixel_mode_rgb32]) :
    (grSetTargetPenBrush spans surface x y color).origin = none ∧
    (grSetTargetPenBrush spans surface x y color).gray_spans = none ∧
    (grSetTargetPenBrush spans surface x y color).color = color ∧
    (grSetTargetPenBrush spans surface x y color).bitmap = surface.bitmap ∧
    (grSetTargetPenBrush spans surface x y color).gblender = surface.gblender := by
  unfold grSetTargetPenBrush
  cases hm : surface.bitmap.mode <;> rw [hm] at hmode <;> simp at hmode <;> simp [hm]

/-- Witness of C19: a monochrome target. -/
theorem pen_brush_unsupported_mode_witness :
    (grSetTargetPenBrush sampleSpans
        (sampleSurface (sampleBitmap 10 10 (-2) gr_pixel_mode_mono 1000)) 3 5 sampleColor).origin
      = none ∧
    (grSetTargetPenBrush sampleSpans
        (sampleSurface (sampleBitmap 10 10 (-2) gr_pixel_mode_mono 1000)) 3 5
        sampleColor).gray_spans = none ∧
    (grSetTargetPenBrush sampleSpans
        (sampleSurface (sampleBitmap 10 10 (-2) gr_pixel_mode_mono 1000)) 3 5 sampleColor).color
      = sampleColor ∧
    (grSetTargetPenBrush sampleSpans
        (sampleSurface (sampleBitmap 10 10 (-2) gr_pixel_mode_mono 1000)) 3 5 sampleColor).bitmap
      = (sampleSurface (sampleBitmap 10 10 (-2) gr_pixel_mode_mono 1000)).bitmap ∧
    (grSetTargetPenBrush sampleSpans
        (sampleSurface (sampleBitmap 10 10 (-2) gr_pixel_mode_mono 1000)) 3 5
        sampleColor).gblender
      = (sampleSurface (sampleBitmap 10 10 (-2) gr_pixel_mode_mono 1000)).gblender :=
  pen_brush_unsupported_mode sampleSpans
    (sampleSurface (sampleBitmap 10 10 (-2) gr_pixel_mode_mono 1000)) 3 5 sampleColor
    (by decide)


/-! ### Clipping formulas, sub-pixel extents, dummy kernel -/

/-- The clipped extents stored by a successful call. -/
theorem init_ok_extents (ext : GrExternals) (blit : GBlenderBlitRec) (dst_x dst_y : Int)
    (surface : grSurface) (glyph : grBitmap)
    (h : (gblender_blit_init ext blit dst_x dst_y surface glyph).1 = 0) :
    (gblender_blit_init ext blit dst_x dst_y surface glyph).2.width =
      min (dst_x + effWidth glyph) surface.bitmap.width - max dst_x 0 ∧
    (gblender_blit_init ext blit dst_x dst_y surface glyph).2.height =
      min (dst_y + effHeight glyph) surface.bitmap.rows - max dst_y 0 := by
  obtain ⟨sf, df, -, -, -, -, -, -, hb⟩ := init_ok_inv ext blit dst_x dst_y surface glyph h
  rw [hb]
  exact ⟨clipLen_eq _ _ _, clipLen_eq _ _ _⟩

/-- The result of grBlitGlyphToSurface when gblender_blit_init finds nothing to
blit: 0 is returned after the single call of gblender_blit_init. -/
theorem blit_glyph_of_clipped (ext : GrExternals) (gblit : GBlenderBlitRec)
    (surface : grSurface) (glyph : grBitmap) (x y : Int) (color : grColor) (st : GrState)
    (hret : (gblender_blit_init ext gblit x y surface glyph).1 = -1) :
    (grBlitGlyphToSurface ext gblit (some surface) (some glyph) x y color st).1 = 0 ∧
    (grBlitGlyphToSurface ext gblit (some surface) (some glyph) x y color st).2.pixels
      = st.pixels ∧
    (∀ b c, GrCall.blit_run b c ∉
      (grBlitGlyphToSurface ext gblit (some surface) (some glyph) x y color st).2.calls.drop
        st.calls.length) := by
  unfold grBlitGlyphToSurface
  simp only []
  by_cases h0 : glyph.rows = 0 ∨ glyph.width = 0
  · rw [if_pos h0]
    simp
  · rw [if_neg h0, if_pos hret]
    simp

/-- C21. Clipping formulas. Whenever gblender_blit_init returns 0, dst_x =
max(dst_x, 0), src_x = max(-dst_x, 0), width = min(dst_x + W_eff, target.width) -
max(dst_x, 0), and likewise for dst_y, src_y and height with H_eff and
target.rows.  A glyph lying entirely inside the target is not clipped. -/
theorem clipping_formulas (ext : GrExternals) (blit : GBlenderBlitRec) (dst_x dst_y : Int)
    (surface : grSurface) (glyph : grBitmap)
    (h : (gblender_blit_init ext blit dst_x dst_y surface glyph).1 = 0) :
    (gblender_blit_init ext blit dst_x dst_y surface glyph).2.dst_x = max dst_x 0 ∧
    (gblender_blit_init ext blit dst_x dst_y surface glyph).2.src_x = max (-dst_x) 0 ∧
    (gblender_blit_init ext blit dst_x dst_y surface glyph).2.width =
      min (dst_x + effWidth glyph) surface.bitmap.width - max dst_x 0 ∧
    (gblender_blit_init ext blit dst_x dst_y surface glyph).2.dst_y = max dst_y 0 ∧
    (gblender_blit_init ext blit dst_x dst_y surface glyph).2.src_y = max (-dst_y) 0 ∧
    (gblender_blit_init ext blit dst_x dst_y surface glyph).2.height =
      min (dst_y + effHeight glyph) surface.bitmap.rows - max dst_y 0 ∧
    (0 ≤ dst_x → dst_x + effWidth glyph ≤ surface.bitmap.width →
      0 ≤ dst_y → dst_y + effHeight glyph ≤ surface.bitmap.rows →
      (gblender_blit_init ext blit dst_x dst_y surface glyph).2.width = effWidth glyph ∧
      (gblender_blit_init ext blit dst_x dst_y surface glyph).2.height = effHeight glyph ∧
      (gblender_blit_init ext blit dst_x dst_y surface glyph).2.src_x = 0 ∧
      (gblender_blit_init ext blit dst_x dst_y surface glyph).2.src_y = 0 ∧
      (gblender_blit_init ext blit dst_x dst_y surface glyph).2.dst_x = dst_x ∧
      (gblender_blit_init ext blit dst_x dst_y surface glyph).2.dst_y = dst_y) := by
  obtain ⟨c1, c2, c3, c4⟩ := init_ok_coords ext blit dst_x dst_y surface glyph h
  obtain ⟨e1, e2⟩ := init_ok_extents ext blit dst_x dst_y surface glyph h
  rw [c1, c2, c3, c4, e1, e2, clipSrc_eq, clipSrc_eq, clipDst_eq, clipDst_eq]
  refine ⟨rfl, rfl, rfl, rfl, rfl, rfl, ?_⟩
  intro h1 h2 h3 h4
  refine ⟨?_, ?_, ?_, ?_, ?_, ?_⟩ <;> omega

/-- Witness of C21: the sample glyph at (-1, 8) on the sample target. -/
theorem clipping_formulas_witness :
    (gblender_blit_init sampleExt sampleBlit (-1) 8 sampleTarget sampleGlyph).1 = 0 ∧
    (gblender_blit_init sampleExt sampleBlit (-1) 8 sampleTarget sampleGlyph).2.dst_x
      = max (-1) 0 ∧
    (gblender_blit_init sampleExt sampleBlit (-1) 8 sampleTarget sampleGlyph).2.src_x
      = max (-(-1)) 0 ∧
    (gblender_blit_init sampleExt sampleBlit (-1) 8 sampleTarget sampleGlyph).2.width
      = min (-1 + effWidth sampleGlyph) sampleTarget.bitmap.width - max (-1) 0 :=
  ⟨by decide,
   (clipping_formulas sampleExt sampleBlit (-1) 8 sampleTarget sampleGlyph (by decide)).1,
   (clipping_formulas sampleExt sampleBlit (-1) 8 sampleTarget sampleGlyph (by decide)).2.1,
   (clipping_formulas sampleExt sampleBlit (-1) 8 sampleTarget sampleGlyph (by decide)).2.2.1⟩

/-- Counterexample to C22 as stated: an lcd glyph of width 2 and 4 rows with 256
gray levels on a monochrome target makes grBlitGlyphToSurface return -1, not 0:
the target mode is refused before the extents are looked at. -/
theorem narrow_lcd_returns_zero_counterexample :
    ¬ ∀ (ext : GrExternals) (gblit : GBlenderBlitRec) (surface : grSurface) (glyph : grBitmap)
        (x y : Int) (color : grColor) (st : GrState),
        (glyph.mode = gr_pixel_mode_lcd ∨ glyph.mode = gr_pixel_mode_lcd2) →
        (glyph.width = 1 ∨ glyph.width = 2) →
        (grBlitGlyphToSurface ext gblit (some surface) (some glyph) x y color st).1 = 0 := by
  intro h
  have h1 := h sampleExt sampleBlit (sampleSurface (sampleBitmap 10 10 10 gr_pixel_mode_mono 1000))
    (sampleBitmap 4 2 2 gr_pixel_mode_lcd 100) 0 0 sampleColor sampleState
    (Or.inl rfl) (Or.inr rfl)
  revert h1
  decide

/-- C22, amended. Sub-pixel extent mapping. On a successful gblender_blit_init the
clipped width and height are computed from glyph.width / 3 (truncating) and
glyph.rows for lcd and lcd2 sources, from glyph.width and glyph.rows / 3 for lcdv
and lcdv2 sources, and from glyph.width and glyph.rows for gray and bgra
sources.  When the format checks pass (grays = 256, accepted target mode,
non-null table entry), an lcd or lcd2 glyph of width 1 or 2, or an lcdv or lcdv2
glyph of 1 or 2 rows, makes grBlitGlyphToSurface return 0 without drawing. -/
theorem subpixel_extent_mapping (ext : GrExternals) (gblit : GBlenderBlitRec)
    (surface : grSurface) (glyph : grBitmap) (x y : Int) (color : grColor) (st : GrState) :
    ((gblender_blit_init ext gblit x y surface glyph).1 = 0 →
      (glyph.mode = gr_pixel_mode_lcd ∨ glyph.mode = gr_pixel_mode_lcd2 →
        (gblender_blit_init ext gblit x y surface glyph).2.width =
          min (x + Int.tdiv glyph.width 3) surface.bitmap.width - max x 0 ∧
        (gblender_blit_init ext gblit x y surface glyph).2.height =
          min (y + glyph.rows) surface.bitmap.rows - max y 0) ∧
      (glyph.mode = gr_pixel_mode_lcdv ∨ glyph.mode = gr_pixel_mode_lcdv2 →
        (gblender_blit_init ext gblit x y surface glyph).2.width =
          min (x + glyph.width) surface.bitmap.width - max x 0 ∧
        (gblender_blit_init ext gblit x y surface glyph).2.height =
          min (y + Int.tdiv glyph.rows 3) surface.bitmap.rows - max y 0) ∧
      (glyph.mode = gr_pixel_mode_gray ∨ glyph.mode = gr_pixel_mode_bgra →
        (gblender_blit_init ext gblit x y surface glyph).2.width =
          min (x + glyph.width) surface.bitmap.width - max x 0 ∧
        (gblender_blit_init ext gblit x y surface glyph).2.height =
          min (y + glyph.rows) surface.bitmap.rows - max y 0)) ∧
    (glyph.grays = 256 → surface.bitmap.mode ∈ acceptedTargetModes →
      (∀ sf df, srcFormatOf glyph.mode = some sf → dstFormatOf surface.bitmap.mode = some df →
        ext.blit_funcs df sf ≠ GBlenderBlitFunc.null) →
      ((glyph.mode = gr_pixel_mode_lcd ∨ glyph.mode = gr_pixel_mode_lcd2) ∧
          (glyph.width = 1 ∨ glyph.width = 2) ∨
        (glyph.mode = gr_pixel_mode_lcdv ∨ glyph.mode = gr_pixel_mode_lcdv2) ∧
          (glyph.rows = 1 ∨ glyph.rows = 2)) →
      (grBlitGlyphToSurface ext gblit (some surface) (some glyph) x y color st).1 = 0 ∧
      (grBlitGlyphToSurface ext gblit (some surface) (some glyph) x y color st).2.pixels
        = st.pixels ∧
      (∀ b c, GrCall.blit_run b c ∉
        (grBlitGlyphToSurface ext gblit (some surface) (some glyph) x y color st).2.calls.drop
          st.calls.length)) := by
  constructor
  · intro h
    obtain ⟨e1, e2⟩ := init_ok_extents ext gblit x y surface glyph h
    rw [e1, e2]
    refine ⟨?_, ?_, ?_⟩
    · intro hm
      have ew : effWidth glyph = Int.tdiv glyph.width 3 := by
        unfold effWidth; rw [if_pos hm]
      have eh : effHeight glyph = glyph.rows := by
        unfold effHeight
        rw [if_neg]
        rcases hm with hm | hm <;> rw [hm] <;> decide
      rw [ew, eh]
      exact ⟨rfl, rfl⟩
    · intro hm
      have ew : effWidth glyph = glyph.width := by
        unfold effWidth
        rw [if_neg]
        rcases hm with hm | hm <;> rw [hm] <;> decide
      have eh : effHeight glyph = Int.tdiv glyph.rows 3 := by
        unfold effHeight; rw [if_pos hm]
      rw [ew, eh]
      exact ⟨rfl, rfl⟩
    · intro hm
      have ew : effWidth glyph = glyph.width := by
        unfold effWidth
        rw [if_neg]
        rcases hm with hm | hm <;> rw [hm] <;> decide
      have eh : effHeight glyph = glyph.rows := by
        unfold effHeight
        rw [if_neg]
        rcases hm with hm | hm <;> rw [hm] <;> decide
      rw [ew, eh]
      exact ⟨rfl, rfl⟩
  · intro hg hdst hentry hnarrow
    obtain ⟨df, hd⟩ := mem_accepted_dst _ hdst
    have hsrc : ∃ sf, srcFormatOf glyph.mode = some sf := by
      rcases hnarrow with ⟨hm | hm, -⟩ | ⟨hm | hm, -⟩ <;> rw [hm] <;> exact ⟨_, rfl⟩
    obtain ⟨sf, hs⟩ := hsrc
    have hret := init_ret_of_accepted ext gblit x y surface glyph sf df hg hs hd
      (hentry sf df hs hd)
    have hclip : clipLen x (effWidth glyph) surface.bitmap.width ≤ 0 ∨
        clipLen y (effHeight glyph) surface.bitmap.rows ≤ 0 := by
      rcases hnarrow with ⟨hm, hw⟩ | ⟨hm, hr⟩
      · left
        have ew : effWidth glyph = 0 := by
          unfold effWidth
          rw [if_pos hm]
          rcases hw with hw | hw <;> rw [hw] <;> decide
        rw [ew, clipLen_eq]
        omega
      · right
        have eh : effHeight glyph = 0 := by
          unfold effHeight
          rw [if_pos hm]
          rcases hr with hr | hr <;> rw [hr] <;> decide
        rw [eh, clipLen_eq]
        omega
    rw [if_pos hclip] at hret
    exact blit_glyph_of_clipped ext gblit surface glyph x y color st hret

/-- Witness of C22, amended: an lcd glyph of width 2 on the sample gray target. -/
theorem subpixel_extent_mapping_witness :
    (grBlitGlyphToSurface sampleExt sampleBlit (some sampleTarget)
      (some (sampleBitmap 4 2 2 gr_pixel_mode_lcd 100)) 3 3 sampleColor sampleState).1 = 0 ∧
    (grBlitGlyphToSurface sampleExt sampleBlit (some sampleTarget)
      (some (sampleBitmap 4 2 2 gr_pixel_mode_lcd 100)) 3 3 sampleColor sampleState).2.pixels
      = sampleState.pixels ∧
    (∀ b c, GrCall.blit_run b c ∉
      (grBlitGlyphToSurface sampleExt sampleBlit (some sampleTarget)
        (some (sampleBitmap 4 2 2 gr_pixel_mode_lcd 100)) 3 3 sampleColor
        sampleState).2.calls.drop sampleState.calls.length) :=
  (subpixel_extent_mapping sampleExt sampleBlit sampleTarget
      (sampleBitmap 4 2 2 gr_pixel_mode_lcd 100) 3 3 sampleColor sampleState).2
    (by decide) (by decide)
    (by
      intro sf df h1 h2
      cases h1
      cases h2
      decide)
    (Or.inl ⟨Or.inl rfl, Or.inr rfl⟩)

/-- The function pointer left in the descriptor once both formats are resolved. -/
theorem init_blit_func (ext : GrExternals) (blit : GBlenderBlitRec) (dst_x dst_y : Int)
    (surface : grSurface) (glyph : grBitmap) (sf : GBlenderSourceFormat)
    (df : GBlenderTargetFormat) (hg : glyph.grays = 256)
    (hs : srcFormatOf glyph.mode = some sf) (hd : dstFormatOf surface.bitmap.mode = some df) :
    (gblender_blit_init ext blit dst_x dst_y surface glyph).2.blit_func =
      if ext.blit_funcs df sf = GBlenderBlitFunc.null then GBlenderBlitFunc.dummy
      else if clipLen dst_x (effWidth glyph) surface.bitmap.width ≤ 0 ∨
          clipLen dst_y (effHeight glyph) surface.bitmap.rows ≤ 0 then GBlenderBlitFunc.dummy
      else ext.blit_funcs df sf := by
  rw [gblender_blit_init_eq]
  unfold initForm
  by_cases hn : ext.blit_funcs df sf = GBlenderBlitFunc.null
  · simp [hg, hs, hd, hn]
  · by_cases hc : clipLen dst_x (effWidth glyph) surface.bitmap.width ≤ 0 ∨
        clipLen dst_y (effHeight glyph) surface.bitmap.rows ≤ 0
    · simp [hg, hs, hd, hn, hc]
    · simp [hg, hs, hd, hn, hc]

/-- C23. Dummy kernel. Once both formats are resolved, a null dispatch-table
entry makes gblender_blit_init return -2, and a clipped width or height <= 0
makes it return -1; in both cases blit.blit_func is _gblender_blit_dummy.
_gblender_blit_dummy leaves pixel memory as it is for all arguments, and
blit.blit_func is never null after such a call. -/
theorem dummy_kernel (ext : GrExternals) (blit : GBlenderBlitRec) (dst_x dst_y : Int)
    (surface : grSurface) (glyph : grBitmap) (sf : GBlenderSourceFormat)
    (df : GBlenderTargetFormat) (color : grColor) (px : Pixels)
    (hg : glyph.grays = 256)
    (hs : srcFormatOf glyph.mode = some sf) (hd : dstFormatOf surface.bitmap.mode = some df) :
    (ext.blit_funcs df sf = GBlenderBlitFunc.null →
      (gblender_blit_init ext blit dst_x dst_y surface glyph).1 = -2 ∧
      (gblender_blit_init ext blit dst_x dst_y surface glyph).2.blit_func
        = GBlenderBlitFunc.dummy) ∧
    (ext.blit_funcs df sf ≠ GBlenderBlitFunc.null →
      (min (dst_x + effWidth glyph) surface.bitmap.width - max dst_x 0 ≤ 0 ∨
        min (dst_y + effHeight glyph) surface.bitmap.rows - max dst_y 0 ≤ 0) →
      (gblender_blit_init ext blit dst_x dst_y surface glyph).1 = -1 ∧
      (gblender_blit_init ext blit dst_x dst_y surface glyph).2.blit_func
        = GBlenderBlitFunc.dummy) ∧
    _gblender_blit_dummy (gblender_blit_init ext blit dst_x dst_y surface glyph).2 color px
      = px ∧
    (gblender_blit_init ext blit dst_x dst_y surface glyph).2.blit_func
      ≠ GBlenderBlitFunc.null := by
  have hf := init_blit_func ext blit dst_x dst_y surface glyph sf df hg hs hd
  refine ⟨?_, ?_, rfl, ?_⟩
  · intro hn
    refine ⟨?_, ?_⟩
    · exact init_ret_of_rejected ext blit dst_x dst_y surface glyph
        (Or.inr (Or.inr (Or.inr ⟨sf, df, hs, hd, hn⟩)))
    · rw [hf, if_pos hn]
  · intro hn hclip
    rw [← clipLen_eq, ← clipLen_eq] at hclip
    refine ⟨?_, ?_⟩
    · rw [init_ret_of_accepted ext blit dst_x dst_y surface glyph sf df hg hs hd hn,
        if_pos hclip]
    · rw [hf, if_neg hn, if_pos hclip]
  · rw [hf]
    split_ifs with h1 h2
    · decide
    · decide
    · exact h1

/-- Witness of C23: a BGRA glyph on the sample gray target, whose table entry is
null in the sample environment. -/
theorem dummy_kernel_witness :
    (sampleBitmap 4 4 16 gr_pixel_mode_bgra 100).grays = 256 ∧
    (gblender_blit_init sampleExt sampleBlit 0 0 sampleTarget
      (sampleBitmap 4 4 16 gr_pixel_mode_bgra 100)).1 = -2 ∧
    (gblender_blit_init sampleExt sampleBlit 0 0 sampleTarget
      (sampleBitmap 4 4 16 gr_pixel_mode_bgra 100)).2.blit_func = GBlenderBlitFunc.dummy :=
  ⟨rfl,
   (dummy_kernel sampleExt sampleBlit 0 0 sampleTarget
      (sampleBitmap 4 4 16 gr_pixel_mode_bgra 100) GBLENDER_SOURCE_BGRA GBLENDER_TARGET_GRAY8
      sampleColor (fun _ => 0) rfl rfl rfl).1 (by decide)⟩

/-- The effective extents of the transposed glyph are those of the glyph, exchanged. -/
theorem eff_transposeGlyph (glyph : grBitmap) :
    effWidth (transposeGlyph glyph) = effHeight glyph ∧
    effHeight (transposeGlyph glyph) = effWidth glyph := by
  unfold effWidth effHeight transposeGlyph
  cases hm : glyph.mode <;> simp [transposeMode, hm]

/-- The source format of the transposed mode is the transposed source format. -/
theorem srcFormatOf_transposeMode (m : grPixelMode) :
    srcFormatOf (transposeMode m) = (srcFormatOf m).map transposeFormat := by
  cases m <;> rfl

/-- C24. The clipping policy is symmetric between the axes. For a dispatch table
whose null entries are the same for a source format and its transpose,
transposing the inputs (dst_x with dst_y, glyph.width with glyph.rows,
target.width with target.rows, lcd with lcdv and lcd2 with lcdv2) gives the same
return code, and on success a descriptor whose width/height, src_x/src_y and
dst_x/dst_y are those of the original, exchanged. -/
theorem clipping_axes_symmetric (ext : GrExternals) (blit blit2 : GBlenderBlitRec)
    (dst_x dst_y : Int) (surface : grSurface) (glyph : grBitmap)
    (htab : ∀ df sf, ext.blit_funcs df sf = GBlenderBlitFunc.null ↔
      ext.blit_funcs df (transposeFormat sf) = GBlenderBlitFunc.null) :
    (gblender_blit_init ext blit2 dst_y dst_x (transposeTarget surface) (transposeGlyph glyph)).1
      = (gblender_blit_init ext blit dst_x dst_y surface glyph).1 ∧
    ((gblender_blit_init ext blit dst_x dst_y surface glyph).1 = 0 →
      (gblender_blit_init ext blit2 dst_y dst_x (transposeTarget surface)
          (transposeGlyph glyph)).2.width
        = (gblender_blit_init ext blit dst_x dst_y surface glyph).2.height ∧
      (gblender_blit_init ext blit2 dst_y dst_x (transposeTarget surface)
          (transposeGlyph glyph)).2.height
        = (gblender_blit_init ext blit dst_x dst_y surface glyph).2.width ∧
      (gblender_blit_init ext blit2 dst_y dst_x (transposeTarget surface)
          (transposeGlyph glyph)).2.src_x
        = (gblender_blit_init ext blit dst_x dst_y surface glyph).2.src_y ∧
      (gblender_blit_init ext blit2 dst_y dst_x (transposeTarget surface)
          (transposeGlyph glyph)).2.src_y
        = (gblender_blit_init ext blit dst_x dst_y surface glyph).2.src_x ∧
      (gblender_blit_init ext blit2 dst_y dst_x (transposeTarget surface)
          (transposeGlyph glyph)).2.dst_x
        = (gblender_blit_init ext blit dst_x dst_y surface glyph).2.dst_y ∧
      (gblender_blit_init ext blit2 dst_y dst_x (transposeTarget surface)
          (transposeGlyph glyph)).2.dst_y
        = (gblender_blit_init ext blit dst_x dst_y surface glyph).2.dst_x) := by
  obtain ⟨ew, eh⟩ := eff_transposeGlyph glyph
  have hsT := srcFormatOf_transposeMode glyph.mode
  have hmT : (transposeGlyph glyph).mode = transposeMode glyph.mode := rfl
  have hgT : (transposeGlyph glyph).grays = glyph.grays := rfl
  have hdT : (transposeTarget surface).bitmap.mode = surface.bitmap.mode := rfl
  have hwT : (transposeTarget surface).bitmap.width = surface.bitmap.rows := rfl
  have hrT : (transposeTarget surface).bitmap.rows = surface.bitmap.width := rfl
  have hret : (gblender_blit_init ext blit2 dst_y dst_x (transposeTarget surface)
      (transposeGlyph glyph)).1 = (gblender_blit_init ext blit dst_x dst_y surface glyph).1 := by
    by_cases hg : glyph.grays = 256
    · cases hs : srcFormatOf glyph.mode with
      | none =>
        rw [init_ret_of_rejected ext blit dst_x dst_y surface glyph (Or.inr (Or.inl hs)),
          init_ret_of_rejected ext blit2 dst_y dst_x _ _
            (Or.inr (Or.inl (by rw [hmT, hsT, hs]; rfl)))]
      | some sf =>
        have hs2 : srcFormatOf (transposeGlyph glyph).mode = some (transposeFormat sf) := by
          rw [hmT, hsT, hs]; rfl
        cases hd : dstFormatOf surface.bitmap.mode with
        | none =>
          rw [init_ret_of_rejected ext blit dst_x dst_y surface glyph
              (Or.inr (Or.inr (Or.inl hd))),
            init_ret_of_rejected ext blit2 dst_y dst_x _ _
              (Or.inr (Or.inr (Or.inl (by rw [hdT]; exact hd))))]
        | some df =>
          have hd2 : dstFormatOf (transposeTarget surface).bitmap.mode = some df := by
            rw [hdT]; exact hd
          by_cases hn : ext.blit_funcs df sf = GBlenderBlitFunc.null
          · rw [init_ret_of_rejected ext blit dst_x dst_y surface glyph
                (Or.inr (Or.inr (Or.inr ⟨sf, df, hs, hd, hn⟩))),
              init_ret_of_rejected ext blit2 dst_y dst_x _ _
                (Or.inr (Or.inr (Or.inr ⟨_, df, hs2, hd2, (htab df sf).1 hn⟩)))]
          · have hn2 : ext.blit_funcs df (transposeFormat sf) ≠ GBlenderBlitFunc.null :=
              fun h => hn ((htab df sf).2 h)
            rw [init_ret_of_accepted ext blit dst_x dst_y surface glyph sf df hg hs hd hn,
              init_ret_of_accepted ext blit2 dst_y dst_x _ _ _ df (by rw [hgT]; exact hg)
                hs2 hd2 hn2, ew, eh, hwT, hrT]
            by_cases h1 : clipLen dst_x (effWidth glyph) surface.bitmap.width ≤ 0
            · simp [h1]
            · by_cases h2 : clipLen dst_y (effHeight glyph) surface.bitmap.rows ≤ 0
              · simp [h2]
              · simp [h1, h2]
    · rw [init_ret_of_rejected ext blit dst_x dst_y surface glyph (Or.inl hg),
        init_ret_of_rejected ext blit2 dst_y dst_x _ _ (Or.inl (by rw [hgT]; exact hg))]
  refine ⟨hret, ?_⟩
  intro h0
  have h0T := hret.trans h0
  obtain ⟨a1, a2, a3, a4⟩ := init_ok_coords ext blit dst_x dst_y surface glyph h0
  obtain ⟨b1, b2, b3, b4⟩ := init_ok_coords ext blit2 dst_y dst_x _ _ h0T
  obtain ⟨a5, a6⟩ := init_ok_extents ext blit dst_x dst_y surface glyph h0
  obtain ⟨b5, b6⟩ := init_ok_extents ext blit2 dst_y dst_x _ _ h0T
  rw [a1, a2, a3, a4, a5, a6, b1, b2, b3, b4, b5, b6, ew, eh, hwT, hrT]
  exact ⟨rfl, rfl, rfl, rfl, rfl, rfl⟩

/-- Witness of C24: an lcd glyph of width 12 and 4 rows at (-1, 8) on a 10x20
target, against the lcdv glyph of width 4 and 12 rows at (8, -1) on the 20x10
target; the sample table has the same null entries for a format and its
transpose. -/
theorem clipping_axes_symmetric_witness :
    (∀ df sf, sampleExt.blit_funcs df sf = GBlenderBlitFunc.null ↔
      sampleExt.blit_funcs df (transposeFormat sf) = GBlenderBlitFunc.null) ∧
    (gblender_blit_init sampleExt sampleBlit 8 (-1)
        (transposeTarget (sampleSurface (sampleBitmap 10 20 20 gr_pixel_mode_gray 1000)))
        (transposeGlyph (sampleBitmap 4 12 12 gr_pixel_mode_lcd 100))).1
      = (gblender_blit_init sampleExt sampleBlit (-1) 8
          (sampleSurface (sampleBitmap 10 20 20 gr_pixel_mode_gray 1000))
          (sampleBitmap 4 12 12 gr_pixel_mode_lcd 100)).1 ∧
    (gblender_blit_init sampleExt sampleBlit 8 (-1)
        (transposeTarget (sampleSurface (sampleBitmap 10 20 20 gr_pixel_mode_gray 1000)))
        (transposeGlyph (sampleBitmap 4 12 12 gr_pixel_mode_lcd 100))).2.width
      = (gblender_blit_init sampleExt sampleBlit (-1) 8
          (sampleSurface (sampleBitmap 10 20 20 gr_pixel_mode_gray 1000))
          (sampleBitmap 4 12 12 gr_pixel_mode_lcd 100)).2.height :=
  ⟨by intro df sf; cases df <;> cases sf <;> decide,
   (clipping_axes_symmetric sampleExt sampleBlit sampleBlit (-1) 8
      (sampleSurface (sampleBitmap 10 20 20 gr_pixel_mode_gray 1000))
      (sampleBitmap 4 12 12 gr_pixel_mode_lcd 100)
      (by intro df sf; cases df <;> cases sf <;> decide)).1,
   ((clipping_axes_symmetric sampleExt sampleBlit sampleBlit (-1) 8
      (sampleSurface (sampleBitmap 10 20 20 gr_pixel_mode_gray 1000))
      (sampleBitmap 4 12 12 gr_pixel_mode_lcd 100)
      (by intro df sf; cases df <;> cases sf <;> decide)).2 (by decide)).1⟩

/-- The return code of gblender_blit_init depends only on the dispatch table,
the gray levels, the two modes, the position and the extents. -/
theorem init_ret_congr (ext1 ext2 : GrExternals) (blit1 blit2 : GBlenderBlitRec)
    (x y : Int) (s1 s2 : grSurface) (g1 g2 : grBitmap)
    (htab : ext1.blit_funcs = ext2.blit_funcs)
    (hrows : g1.rows = g2.rows) (hwidth : g1.width = g2.width) (hgrays : g1.grays = g2.grays)
    (hmode : g1.mode = g2.mode) (htmode : s1.bitmap.mode = s2.bitmap.mode)
    (htw : s1.bitmap.width = s2.bitmap.width) (hth : s1.bitmap.rows = s2.bitmap.rows) :
    (gblender_blit_init ext1 blit1 x y s1 g1).1 = (gblender_blit_init ext2 blit2 x y s2 g2).1 := by
  have ew : effWidth g1 = effWidth g2 := by unfold effWidth; rw [hmode, hwidth]
  have eh : effHeight g1 = effHeight g2 := by unfold effHeight; rw [hmode, hrows]
  rw [gblender_blit_init_eq, gblender_blit_init_eq]
  unfold initForm
  rw [ew, eh, hgrays, hmode, htmode, htw, hth, htab]
  by_cases hg : g2.grays = 256
  · cases hs : srcFormatOf g2.mode with
    | none => simp [hg]
    | some sf =>
      cases hd : dstFormatOf s2.bitmap.mode with
      | none => simp [hg]
      | some df =>
        by_cases hn : ext2.blit_funcs df sf = GBlenderBlitFunc.null
        · simp [hg, hn]
        · by_cases hc : clipLen x (effWidth g2) s2.bitmap.width ≤ 0 ∨
              clipLen y (effHeight g2) s2.bitmap.rows ≤ 0
          · simp [hg, hn, hc]
          · simp [hg, hn, hc]
  · simp [hg]

/-- Appending a gblender_blit_init entry does not change the count of runs. -/
theorem runCount_append_init (calls : List GrCall) (x y : Int) :
    runCount (calls ++ [GrCall.blit_init x y]) = runCount calls := by
  induction calls with
  | nil => rfl
  | cons c rest ih =>
    cases c with
    | blit_init a b => simpa [runCount] using ih
    | blit_run a b => simpa [runCount] using ih

/-- The return value of grBlitGlyphToSurface as a function of the return code
of gblender_blit_init, and its effect when it is not positive. -/
theorem blit_glyph_ret (ext : GrExternals) (gblit : GBlenderBlitRec)
    (surface : grSurface) (glyph : grBitmap) (x y : Int) (color : grColor) (st : GrState) :
    (grBlitGlyphToSurface ext gblit (some surface) (some glyph) x y color st).1 =
      (if glyph.rows = 0 ∨ glyph.width = 0 then 0
       else if (gblender_blit_init ext gblit x y surface glyph).1 = -1 then 0
       else if (gblender_blit_init ext gblit x y surface glyph).1 = -2 then -1
       else 1) ∧
    ((grBlitGlyphToSurface ext gblit (some surface) (some glyph) x y color st).1 ≤ 0 →
      (grBlitGlyphToSurface ext gblit (some surface) (some glyph) x y color st).2.pixels
        = st.pixels ∧
      runCount (grBlitGlyphToSurface ext gblit (some surface) (some glyph) x y color st).2.calls
        = runCount st.calls) := by
  unfold grBlitGlyphToSurface
  simp only []
  by_cases h0 : glyph.rows = 0 ∨ glyph.width = 0
  · rw [if_pos h0, if_pos h0]
    simp
  · rw [if_neg h0, if_neg h0]
    by_cases h1 : (gblender_blit_init ext gblit x y surface glyph).1 = -1
    · rw [if_pos h1, if_pos h1]
      simp [runCount_append_init]
    · rw [if_neg h1, if_neg h1]
      by_cases h2 : (gblender_blit_init ext gblit x y surface glyph).1 = -2
      · rw [if_pos h2, if_pos h2]
        simp [runCount_append_init]
      · rw [if_neg h2, if_neg h2]
        simp

/-- C25. Result codes are functions of the geometry and format inputs only. Two
calls of grBlitGlyphToSurface with non-null arguments and the same dispatch
table that agree on glyph.rows, glyph.width, glyph.grays, glyph.mode,
target.mode, target.width, target.rows, x and y return the same value, whatever
the buffers, pitches, blender, pen colour, runner, initial descriptor and state
are.  A call that returns 0 or a negative value leaves pixel memory unchanged
and runs no kernel. -/
theorem result_code_deterministic (ext1 ext2 : GrExternals) (gblit1 gblit2 : GBlenderBlitRec)
    (s1 s2 : grSurface) (g1 g2 : grBitmap) (x y : Int) (color1 color2 : grColor)
    (st1 st2 : GrState)
    (htab : ext1.blit_funcs = ext2.blit_funcs)
    (hrows : g1.rows = g2.rows) (hwidth : g1.width = g2.width) (hgrays : g1.grays = g2.grays)
    (hmode : g1.mode = g2.mode) (htmode : s1.bitmap.mode = s2.bitmap.mode)
    (htw : s1.bitmap.width = s2.bitmap.width) (hth : s1.bitmap.rows = s2.bitmap.rows) :
    (grBlitGlyphToSurface ext1 gblit1 (some s1) (some g1) x y color1 st1).1 =
      (grBlitGlyphToSurface ext2 gblit2 (some s2) (some g2) x y color2 st2).1 ∧
    ((grBlitGlyphToSurface ext1 gblit1 (some s1) (some g1) x y color1 st1).1 ≤ 0 →
      (grBlitGlyphToSurface ext1 gblit1 (some s1) (some g1) x y color1 st1).2.pixels
        = st1.pixels ∧
      runCount (grBlitGlyphToSurface ext1 gblit1 (some s1) (some g1) x y color1 st1).2.calls
        = runCount st1.calls) := by
  obtain ⟨r1, e1⟩ := blit_glyph_ret ext1 gblit1 s1 g1 x y color1 st1
  obtain ⟨r2, -⟩ := blit_glyph_ret ext2 gblit2 s2 g2 x y color2 st2
  refine ⟨?_, e1⟩
  rw [r1, r2, init_ret_congr ext1 ext2 gblit1 gblit2 x y s1 s2 g1 g2 htab hrows hwidth hgrays
    hmode htmode htw hth, hrows, hwidth]

/-- Witness of C25: the sample glyph at (-1, 8), once top-down on the sample
target and once with negative pitches, another buffer, another runner and
another pen colour. -/
theorem result_code_deterministic_witness :
    (grBlitGlyphToSurface sampleExt sampleBlit (some sampleTarget) (some sampleGlyph) (-1) 8
        sampleColor sampleState).1 =
      (grBlitGlyphToSurface
        { blit_funcs := sampleExt.blit_funcs, gblender_blit_run := fun _ _ px => px,
          gr_err_bad_argument := -7 }
        sampleBlit (some (sampleSurface (sampleBitmap 10 10 (-10) gr_pixel_mode_gray 5000)))
        (some (sampleBitmap 4 4 (-4) gr_pixel_mode_gray 300)) (-1) 8
        { value := 200, chroma := [1, 2, 3, 4] } sampleState).1 :=
  (result_code_deterministic sampleExt
    { blit_funcs := sampleExt.blit_funcs, gblender_blit_run := fun _ _ px => px,
      gr_err_bad_argument := -7 }
    sampleBlit sampleBlit sampleTarget
    (sampleSurface (sampleBitmap 10 10 (-10) gr_pixel_mode_gray 5000)) sampleGlyph
    (sampleBitmap 4 4 (-4) gr_pixel_mode_gray 300) (-1) 8 sampleColor
    { value := 200, chroma := [1, 2, 3, 4] } sampleState sampleState
    rfl rfl rfl rfl rfl rfl rfl rfl).1


/-! ### Re-packing, monotonicity, gray retraction -/

/-- The channels unpacked from a packed RGB565 colour, in terms of the bytes. -/
theorem unpack_pack565 (r g b : Nat) (hr : r < 256) (hg : g < 256) (hb : b < 256) :
    GRGB565_TO_RED (GRGB_TO_RGB565 r g b) = r / 8 * 8 + r / 8 / 4 ∧
    GRGB565_TO_GREEN (GRGB_TO_RGB565 r g b) = g / 4 * 4 + g / 4 / 16 ∧
    GRGB565_TO_BLUE (GRGB_TO_RGB565 r g b) = b / 8 * 8 + b / 8 / 4 := by
  rw [GRGB565_TO_RED_form, GRGB565_TO_GREEN_form, GRGB565_TO_BLUE_form,
    GRGB_TO_RGB565_form r g b hr hg hb]
  have h1 : (r / 8 * 2048 + g / 4 * 32 + b / 8) / 2048 % 32 = r / 8 := by omega
  have h3 : (r / 8 * 2048 + g / 4 * 32 + b / 8) / 32 % 64 = g / 4 := by omega
  have h5 : (r / 8 * 2048 + g / 4 * 32 + b / 8) % 32 = b / 8 := by omega
  rw [h1, h3, h5]
  exact ⟨rfl, rfl, rfl⟩

/-- The channels unpacked from a packed RGB555 colour, in terms of the bytes. -/
theorem unpack_pack555 (r g b : Nat) (hr : r < 256) (hg : g < 256) (hb : b < 256) :
    GRGB555_TO_RED (GRGB_TO_RGB555 r g b) = r / 8 * 8 + r / 8 / 4 ∧
    GRGB555_TO_GREEN (GRGB_TO_RGB555 r g b) = g / 8 * 8 + g / 8 / 4 ∧
    GRGB555_TO_BLUE (GRGB_TO_RGB555 r g b) = b / 8 * 8 + b / 8 / 4 := by
  rw [GRGB555_TO_RED_form, GRGB555_TO_GREEN_form, GRGB555_TO_BLUE_form,
    GRGB_TO_RGB555_form r g b hr hg hb]
  have h1 : (r / 8 * 1024 + g / 8 * 32 + b / 8) / 1024 % 32 = r / 8 := by omega
  have h3 : (r / 8 * 1024 + g / 8 * 32 + b / 8) / 32 % 32 = g / 8 := by omega
  have h5 : (r / 8 * 1024 + g / 8 * 32 + b / 8) % 32 = b / 8 := by omega
  rw [h1, h3, h5]
  exact ⟨rfl, rfl, rfl⟩

/-- Packing the channels unpacked from p gives back the low 16 bits of p. -/
theorem repack565 (p : Nat) :
    GRGB_TO_RGB565 (GRGB565_TO_RED p) (GRGB565_TO_GREEN p) (GRGB565_TO_BLUE p) = p % 65536 := by
  rw [GRGB565_TO_RED_form, GRGB565_TO_GREEN_form, GRGB565_TO_BLUE_form]
  obtain ⟨r1, -, -, r4⟩ := replicate5 (p / 2048 % 32) (by omega)
  obtain ⟨g1, -, -, g4⟩ := replicate6 (p / 32 % 64) (by omega)
  obtain ⟨b1, -, -, b4⟩ := replicate5 (p % 32) (by omega)
  rw [GRGB_TO_RGB565_form _ _ _ r4 g4 b4, r1, g1, b1]
  clear r1 g1 b1 r4 g4 b4
  have e1 : p / 32 / 64 = p / 2048 := by omega
  have e2 : p / 2048 / 32 = p / 65536 := by omega
  omega

/-- Packing the channels unpacked from p gives back the low 15 bits of p. -/
theorem repack555 (p : Nat) :
    GRGB_TO_RGB555 (GRGB555_TO_RED p) (GRGB555_TO_GREEN p) (GRGB555_TO_BLUE p) = p % 32768 := by
  rw [GRGB555_TO_RED_form, GRGB555_TO_GREEN_form, GRGB555_TO_BLUE_form]
  obtain ⟨r1, -, -, r4⟩ := replicate5 (p / 1024 % 32) (by omega)
  obtain ⟨g1, -, -, g4⟩ := replicate5 (p / 32 % 32) (by omega)
  obtain ⟨b1, -, -, b4⟩ := replicate5 (p % 32) (by omega)
  rw [GRGB_TO_RGB555_form _ _ _ r4 g4 b4, r1, g1, b1]
  clear r1 g1 b1 r4 g4 b4
  have e1 : p / 32 / 32 = p / 1024 := by omega
  have e2 : p / 1024 / 32 = p / 32768 := by omega
  omega

/-- C26. Re-packing an unpacked pixel is the identity on the stored bits: for a
16-bit p, GRGB_TO_RGB565 of the three channels unpacked from p is p, and
GRGB_TO_RGB555 of the three channels unpacked from p is p & 0x7FFF.  Hence for
bytes r, g, b unpacking, packing and unpacking again a packed colour gives the
channels of the first unpacking, in both formats. -/
theorem repack_identity (p r g b : Nat) (hp : p < 2 ^ 16) (hr : r < 256) (hg : g < 256)
    (hb : b < 256) :
    GRGB_TO_RGB565 (GRGB565_TO_RED p) (GRGB565_TO_GREEN p) (GRGB565_TO_BLUE p) = p ∧
    GRGB_TO_RGB555 (GRGB555_TO_RED p) (GRGB555_TO_GREEN p) (GRGB555_TO_BLUE p)
      = p &&& 0x7FFF ∧
    (GRGB565_TO_RED (GRGB_TO_RGB565 (GRGB565_TO_RED (GRGB_TO_RGB565 r g b))
        (GRGB565_TO_GREEN (GRGB_TO_RGB565 r g b)) (GRGB565_TO_BLUE (GRGB_TO_RGB565 r g b)))
        = GRGB565_TO_RED (GRGB_TO_RGB565 r g b) ∧
      GRGB565_TO_GREEN (GRGB_TO_RGB565 (GRGB565_TO_RED (GRGB_TO_RGB565 r g b))
        (GRGB565_TO_GREEN (GRGB_TO_RGB565 r g b)) (GRGB565_TO_BLUE (GRGB_TO_RGB565 r g b)))
        = GRGB565_TO_GREEN (GRGB_TO_RGB565 r g b) ∧
      GRGB565_TO_BLUE (GRGB_TO_RGB565 (GRGB565_TO_RED (GRGB_TO_RGB565 r g b))
        (GRGB565_TO_GREEN (GRGB_TO_RGB565 r g b)) (GRGB565_TO_BLUE (GRGB_TO_RGB565 r g b)))
        = GRGB565_TO_BLUE (GRGB_TO_RGB565 r g b)) ∧
    (GRGB555_TO_RED (GRGB_TO_RGB555 (GRGB555_TO_RED (GRGB_TO_RGB555 r g b))
        (GRGB555_TO_GREEN (GRGB_TO_RGB555 r g b)) (GRGB555_TO_BLUE (GRGB_TO_RGB555 r g b)))
        = GRGB555_TO_RED (GRGB_TO_RGB555 r g b) ∧
      GRGB555_TO_GREEN (GRGB_TO_RGB555 (GRGB555_TO_RED (GRGB_TO_RGB555 r g b))
        (GRGB555_TO_GREEN (GRGB_TO_RGB555 r g b)) (GRGB555_TO_BLUE (GRGB_TO_RGB555 r g b)))
        = GRGB555_TO_GREEN (GRGB_TO_RGB555 r g b) ∧
      GRGB555_TO_BLUE (GRGB_TO_RGB555 (GRGB555_TO_RED (GRGB_TO_RGB555 r g b))
        (GRGB555_TO_GREEN (GRGB_TO_RGB555 r g b)) (GRGB555_TO_BLUE (GRGB_TO_RGB555 r g b)))
        = GRGB555_TO_BLUE (GRGB_TO_RGB555 r g b)) := by
  have a1 : p &&& 0x7FFF = p % 2 ^ 15 := and_low _ 15
  have q565 : GRGB_TO_RGB565 r g b % 65536 = GRGB_TO_RGB565 r g b := by
    rw [GRGB_TO_RGB565_form r g b hr hg hb]; omega
  have q555 : GRGB_TO_RGB555 r g b % 32768 = GRGB_TO_RGB555 r g b := by
    rw [GRGB_TO_RGB555_form r g b hr hg hb]; omega
  rw [repack565 p, repack555 p, repack565 (GRGB_TO_RGB565 r g b),
    repack555 (GRGB_TO_RGB555 r g b), q565, q555, a1]
  refine ⟨by omega, by omega, ⟨rfl, rfl, rfl⟩, ⟨rfl, rfl, rfl⟩⟩

/-- Witness of C26 at the word 0xFFFF and the colour (255, 0, 128). -/
theorem repack_identity_witness :
    ((0xFFFF : Nat) < 2 ^ 16 ∧ (255 : Nat) < 256 ∧ (0 : Nat) < 256 ∧ (128 : Nat) < 256) ∧
    GRGB_TO_RGB565 (GRGB565_TO_RED 0xFFFF) (GRGB565_TO_GREEN 0xFFFF) (GRGB565_TO_BLUE 0xFFFF)
      = 0xFFFF ∧
    GRGB_TO_RGB555 (GRGB555_TO_RED 0xFFFF) (GRGB555_TO_GREEN 0xFFFF) (GRGB555_TO_BLUE 0xFFFF)
      = 0xFFFF &&& 0x7FFF :=
  ⟨⟨by decide, by decide, by decide, by decide⟩,
   (repack_identity 0xFFFF 255 0 128 (by decide) (by decide) (by decide) (by decide)).1,
   (repack_identity 0xFFFF 255 0 128 (by decide) (by decide) (by decide) (by decide)).2.1⟩

/-- The round trip of a 5-bit channel c / 8 * 8 + c / 8 / 4 is monotone. -/
theorem round5_mono (c1 c2 : Nat) (h : c1 ≤ c2) :
    c1 / 8 * 8 + c1 / 8 / 4 ≤ c2 / 8 * 8 + c2 / 8 / 4 := by
  have h1 : c1 / 8 ≤ c2 / 8 := Nat.div_le_div_right h
  have h2 : c1 / 8 / 4 ≤ c2 / 8 / 4 := Nat.div_le_div_right h1
  omega

/-- The round trip of a 6-bit channel c / 4 * 4 + c / 4 / 16 is monotone. -/
theorem round6_mono (c1 c2 : Nat) (h : c1 ≤ c2) :
    c1 / 4 * 4 + c1 / 4 / 16 ≤ c2 / 4 * 4 + c2 / 4 / 16 := by
  have h1 : c1 / 4 ≤ c2 / 4 := Nat.div_le_div_right h
  have h2 : c1 / 4 / 16 ≤ c2 / 4 / 16 := Nat.div_le_div_right h1
  omega

/-- C27. Bit replication preserves the range and the order of channel values. In
RGB565 and RGB555, for every channel, the round trip of a byte through pack and
unpack does not depend on the other two channels being u, v or u2, v2, maps 0 to
0 and 255 to 255, and is monotone: c1 <= c2 gives round trips in the same order. -/
theorem round_trip_monotone (c1 c2 u v u2 v2 : Nat) (hc1 : c1 < 256) (hc2 : c2 < 256)
    (hu : u < 256) (hv : v < 256) (hu2 : u2 < 256) (hv2 : v2 < 256) (hle : c1 ≤ c2) :
    (GRGB565_TO_RED (GRGB_TO_RGB565 c1 u v) ≤ GRGB565_TO_RED (GRGB_TO_RGB565 c2 u2 v2) ∧
      GRGB565_TO_GREEN (GRGB_TO_RGB565 u c1 v) ≤ GRGB565_TO_GREEN (GRGB_TO_RGB565 u2 c2 v2) ∧
      GRGB565_TO_BLUE (GRGB_TO_RGB565 u v c1) ≤ GRGB565_TO_BLUE (GRGB_TO_RGB565 u2 v2 c2)) ∧
    (GRGB555_TO_RED (GRGB_TO_RGB555 c1 u v) ≤ GRGB555_TO_RED (GRGB_TO_RGB555 c2 u2 v2) ∧
      GRGB555_TO_GREEN (GRGB_TO_RGB555 u c1 v) ≤ GRGB555_TO_GREEN (GRGB_TO_RGB555 u2 c2 v2) ∧
      GRGB555_TO_BLUE (GRGB_TO_RGB555 u v c1) ≤ GRGB555_TO_BLUE (GRGB_TO_RGB555 u2 v2 c2)) ∧
    (GRGB565_TO_RED (GRGB_TO_RGB565 0 u v) = 0 ∧
      GRGB565_TO_GREEN (GRGB_TO_RGB565 u 0 v) = 0 ∧
      GRGB565_TO_BLUE (GRGB_TO_RGB565 u v 0) = 0 ∧
      GRGB555_TO_RED (GRGB_TO_RGB555 0 u v) = 0 ∧
      GRGB555_TO_GREEN (GRGB_TO_RGB555 u 0 v) = 0 ∧
      GRGB555_TO_BLUE (GRGB_TO_RGB555 u v 0) = 0) ∧
    (GRGB565_TO_RED (GRGB_TO_RGB565 255 u v) = 255 ∧
      GRGB565_TO_GREEN (GRGB_TO_RGB565 u 255 v) = 255 ∧
      GRGB565_TO_BLUE (GRGB_TO_RGB565 u v 255) = 255 ∧
      GRGB555_TO_RED (GRGB_TO_RGB555 255 u v) = 255 ∧
      GRGB555_TO_GREEN (GRGB_TO_RGB555 u 255 v) = 255 ∧
      GRGB555_TO_BLUE (GRGB_TO_RGB555 u v 255) = 255) := by
  have z : (0 : Nat) < 256 := by decide
  have w : (255 : Nat) < 256 := by decide
  rw [(unpack_pack565 c1 u v hc1 hu hv).1, (unpack_pack565 c2 u2 v2 hc2 hu2 hv2).1,
    (unpack_pack565 u c1 v hu hc1 hv).2.1, (unpack_pack565 u2 c2 v2 hu2 hc2 hv2).2.1,
    (unpack_pack565 u v c1 hu hv hc1).2.2, (unpack_pack565 u2 v2 c2 hu2 hv2 hc2).2.2,
    (unpack_pack555 c1 u v hc1 hu hv).1, (unpack_pack555 c2 u2 v2 hc2 hu2 hv2).1,
    (unpack_pack555 u c1 v hu hc1 hv).2.1, (unpack_pack555 u2 c2 v2 hu2 hc2 hv2).2.1,
    (unpack_pack555 u v c1 hu hv hc1).2.2, (unpack_pack555 u2 v2 c2 hu2 hv2 hc2).2.2,
    (unpack_pack565 0 u v z hu hv).1, (unpack_pack565 u 0 v hu z hv).2.1,
    (unpack_pack565 u v 0 hu hv z).2.2, (unpack_pack555 0 u v z hu hv).1,
    (unpack_pack555 u 0 v hu z hv).2.1, (unpack_pack555 u v 0 hu hv z).2.2,
    (unpack_pack565 255 u v w hu hv).1, (unpack_pack565 u 255 v hu w hv).2.1,
    (unpack_pack565 u v 255 hu hv w).2.2, (unpack_pack555 255 u v w hu hv).1,
    (unpack_pack555 u 255 v hu w hv).2.1, (unpack_pack555 u v 255 hu hv w).2.2]
  exact ⟨⟨round5_mono c1 c2 hle, round6_mono c1 c2 hle, round5_mono c1 c2 hle⟩,
    ⟨round5_mono c1 c2 hle, round5_mono c1 c2 hle, round5_mono c1 c2 hle⟩,
    ⟨rfl, rfl, rfl, rfl, rfl, rfl⟩, ⟨rfl, rfl, rfl, rfl, rfl, rfl⟩⟩

/-- Witness of C27: the channel values 100 <= 200 with other channels 7, 9 and
250, 3; the red channel of RGB565. -/
theorem round_trip_monotone_witness :
    ((100 : Nat) < 256 ∧ (200 : Nat) < 256 ∧ (100 : Nat) ≤ 200) ∧
    GRGB565_TO_RED (GRGB_TO_RGB565 100 7 9) ≤ GRGB565_TO_RED (GRGB_TO_RGB565 200 250 3) :=
  ⟨⟨by decide, by decide, by decide⟩,
   (round_trip_monotone 100 200 7 9 250 3 (by decide) (by decide) (by decide) (by decide)
      (by decide) (by decide) (by decide)).1.1⟩

/-- C28. Gray conversion is a retraction of gray expansion and stays inside the
channel range. For a byte v, GRGB24_TO_GRAY8(GGRAY8_TO_RGB24(v)) = v and
GRGB_TO_GRAY8(v, v, v) = v; for bytes r, g, b the gray value lies between the
least and the greatest channel, and does not decrease when one channel grows to
a byte r2, g2 or b2. -/
theorem gray8_retraction (v r g b r2 g2 b2 : Nat) (hv : v < 256) (hr : r < 256)
    (hg : g < 256) (hb : b < 256) (hr2 : r2 < 256) (hg2 : g2 < 256) (hb2 : b2 < 256) :
    GRGB24_TO_GRAY8 (GGRAY8_TO_RGB24 v) = v ∧
    GRGB_TO_GRAY8 v v v = v ∧
    min (min r g) b ≤ GRGB_TO_GRAY8 r g b ∧
    GRGB_TO_GRAY8 r g b ≤ max (max r g) b ∧
    (r ≤ r2 → GRGB_TO_GRAY8 r g b ≤ GRGB_TO_GRAY8 r2 g b) ∧
    (g ≤ g2 → GRGB_TO_GRAY8 r g b ≤ GRGB_TO_GRAY8 r g2 b) ∧
    (b ≤ b2 → GRGB_TO_GRAY8 r g b ≤ GRGB_TO_GRAY8 r g b2) := by
  obtain ⟨v1, v2, v3⟩ := pack_bytes v v v hv hv hv
  have gray_eq : ∀ x y z : Nat, x < 256 → y < 256 → z < 256 →
      GRGB_TO_GRAY8 x y z = (3 * x + 6 * y + z) / 10 := by
    intro x y z hx hy hz
    unfold GRGB_TO_GRAY8 toUChar
    exact Nat.mod_eq_of_lt (by omega)
  rw [gray_eq v v v hv hv hv, gray_eq r g b hr hg hb, gray_eq r2 g b hr2 hg hb,
    gray_eq r g2 b hr hg2 hb, gray_eq r g b2 hr hg hb2]
  unfold GRGB24_TO_GRAY8 GGRAY8_TO_RGB24 toUChar
  rw [GRGB_PACK_form v v v hv hv hv, v1, v2, v3]
  clear v1 v2 v3 gray_eq
  simp only [Nat.reducePow]
  refine ⟨?_, ?_, ?_, ?_, ?_, ?_, ?_⟩ <;> omega

/-- Witness of C28 at the gray level 200 and the colour (255, 0, 128) growing
to (255, 10, 128). -/
theorem gray8_retraction_witness :
    ((200 : Nat) < 256 ∧ (255 : Nat) < 256 ∧ (0 : Nat) < 256 ∧ (128 : Nat) < 256 ∧
      (10 : Nat) < 256) ∧
    (GRGB24_TO_GRAY8 (GGRAY8_TO_RGB24 200) = 200 ∧
    GRGB_TO_GRAY8 200 200 200 = 200 ∧
    min (min 255 0) 128 ≤ GRGB_TO_GRAY8 255 0 128 ∧
    GRGB_TO_GRAY8 255 0 128 ≤ max (max 255 0) 128 ∧
    ((255 : Nat) ≤ 255 → GRGB_TO_GRAY8 255 0 128 ≤ GRGB_TO_GRAY8 255 0 128) ∧
    ((0 : Nat) ≤ 10 → GRGB_TO_GRAY8 255 0 128 ≤ GRGB_TO_GRAY8 255 10 128) ∧
    ((128 : Nat) ≤ 128 → GRGB_TO_GRAY8 255 0 128 ≤ GRGB_TO_GRAY8 255 0 128)) :=
  ⟨⟨by decide, by decide, by decide, by decide, by decide⟩,
   gray8_retraction 200 255 0 128 255 10 128 (by decide) (by decide) (by decide) (by decide)
     (by decide) (by decide) (by decide)⟩


/-! ### Word conversions against channel conversions, pen brush -/

/-- GRGB24_TO_RGB565 of a packed word of three bytes. -/
theorem GRGB24_TO_RGB565_pack (r g b : Nat) (hr : r < 256) (hg : g < 256) (hb : b < 256) :
    GRGB24_TO_RGB565 (r * 65536 + g * 256 + b) = r / 8 * 2048 + g / 4 * 32 + b / 8 := by
  unfold GRGB24_TO_RGB565 toUShort
  simp only [Nat.shiftRight_eq_div_pow]
  generalize hp : r * 65536 + g * 256 + b = p
  have a1 : (p / 2 ^ 8) &&& 0xF800 = p / 2 ^ 8 / 2 ^ 11 % 2 ^ 5 * 2 ^ 11 := and_mask_field _ 5 11
  have a2 : (p / 2 ^ 5) &&& 0x07E0 = p / 2 ^ 5 / 2 ^ 5 % 2 ^ 6 * 2 ^ 5 := and_mask_field _ 6 5
  have a3 : (p / 2 ^ 3) &&& 0x001F = p / 2 ^ 3 % 2 ^ 5 := and_low _ 5
  rw [a1, a2, a3, or_field _ _ 5 6 (by omega) (by omega), or_low _ _ 5 (by omega) (by omega)]
  clear a1 a2 a3
  simp only [Nat.reducePow]
  have e1 : p / 256 / 2048 % 32 = r / 8 := by omega
  have e2 : p / 32 / 32 % 64 = g / 4 := by omega
  have e3 : p / 8 % 32 = b / 8 := by omega
  rw [e1, e2, e3]
  omega

/-- GRGB24_TO_RGB555 of a packed word of three bytes. -/
theorem GRGB24_TO_RGB555_pack (r g b : Nat) (hr : r < 256) (hg : g < 256) (hb : b < 256) :
    GRGB24_TO_RGB555 (r * 65536 + g * 256 + b) = r / 8 * 1024 + g / 8 * 32 + b / 8 := by
  unfold GRGB24_TO_RGB555 toUShort
  simp only [Nat.shiftRight_eq_div_pow]
  generalize hp : r * 65536 + g * 256 + b = p
  have a1 : (p / 2 ^ 9) &&& 0x7C00 = p / 2 ^ 9 / 2 ^ 10 % 2 ^ 5 * 2 ^ 10 := and_mask_field _ 5 10
  have a2 : (p / 2 ^ 6) &&& 0x03E0 = p / 2 ^ 6 / 2 ^ 5 % 2 ^ 5 * 2 ^ 5 := and_mask_field _ 5 5
  have a3 : (p / 2 ^ 3) &&& 0x001F = p / 2 ^ 3 % 2 ^ 5 := and_low _ 5
  rw [a1, a2, a3, or_field _ _ 5 5 (by omega) (by omega), or_low _ _ 5 (by omega) (by omega)]
  clear a1 a2 a3
  simp only [Nat.reducePow]
  have e1 : p / 512 / 1024 % 32 = r / 8 := by omega
  have e2 : p / 64 / 32 % 32 = g / 8 := by omega
  have e3 : p / 8 % 32 = b / 8 := by omega
  rw [e1, e2, e3]
  omega

/-- C30. The 24-bit-word conversion macros agree with the per-channel macros. For
every p, 16-bit or not, GRGB565_TO_RGB24(p) and GRGB555_TO_RGB24(p) are GRGB_PACK of the three
channels unpacked from p; for bytes r, g, b, GRGB24_TO_RGB565 and
GRGB24_TO_RGB555 of GRGB_PACK(r, g, b) are GRGB_TO_RGB565(r, g, b) and
GRGB_TO_RGB555(r, g, b).  So for both 16-bit targets GDST_STOREP of a pixel cell
holding GRGB_PACK of three channel cells stores the same unsigned short as
GDST_STOREB and GDST_STOREC of these channels. -/
theorem word_macros_agree (p r g b : Nat) (pcells ccells : Nat → Nat) (a : Nat)
    (hr : r < 256) (hg : g < 256) (hb : b < 256)
    (hc0 : ccells (a * 3) < 256) (hc1 : ccells (a * 3 + 1) < 256)
    (hc2 : ccells (a * 3 + 2) < 256)
    (hpc : pcells a = GRGB_PACK (ccells (a * 3)) (ccells (a * 3 + 1)) (ccells (a * 3 + 2))) :
    GRGB565_TO_RGB24 p
      = GRGB_PACK (GRGB565_TO_RED p) (GRGB565_TO_GREEN p) (GRGB565_TO_BLUE p) ∧
    GRGB555_TO_RGB24 p
      = GRGB_PACK (GRGB555_TO_RED p) (GRGB555_TO_GREEN p) (GRGB555_TO_BLUE p) ∧
    GRGB24_TO_RGB565 (GRGB_PACK r g b) = GRGB_TO_RGB565 r g b ∧
    GRGB24_TO_RGB555 (GRGB_PACK r g b) = GRGB_TO_RGB555 r g b ∧
    (rgb565.GDST_STOREP pcells a = rgb565.GDST_STOREB ccells a ∧
      rgb565.GDST_STOREB ccells a
        = rgb565.GDST_STOREC (ccells (a * 3)) (ccells (a * 3 + 1)) (ccells (a * 3 + 2))) ∧
    (rgb555.GDST_STOREP pcells a = rgb555.GDST_STOREB ccells a ∧
      rgb555.GDST_STOREB ccells a
        = rgb555.GDST_STOREC (ccells (a * 3)) (ccells (a * 3 + 1)) (ccells (a * 3 + 2))) := by
  have w565 : ∀ x y z : Nat, x < 256 → y < 256 → z < 256 →
      GRGB24_TO_RGB565 (GRGB_PACK x y z) = GRGB_TO_RGB565 x y z := by
    intro x y z hx hy hz
    rw [GRGB_PACK_form x y z hx hy hz, GRGB24_TO_RGB565_pack x y z hx hy hz,
      GRGB_TO_RGB565_form x y z hx hy hz]
  have w555 : ∀ x y z : Nat, x < 256 → y < 256 → z < 256 →
      GRGB24_TO_RGB555 (GRGB_PACK x y z) = GRGB_TO_RGB555 x y z := by
    intro x y z hx hy hz
    rw [GRGB_PACK_form x y z hx hy hz, GRGB24_TO_RGB555_pack x y z hx hy hz,
      GRGB_TO_RGB555_form x y z hx hy hz]
  refine ⟨?_, ?_, w565 r g b hr hg hb, w555 r g b hr hg hb, ⟨?_, rfl⟩, ⟨?_, rfl⟩⟩
  · obtain ⟨-, -, -, r4⟩ := replicate5 (p / 2048 % 32) (by omega)
    obtain ⟨-, -, -, g4⟩ := replicate6 (p / 32 % 64) (by omega)
    obtain ⟨-, -, -, b4⟩ := replicate5 (p % 32) (by omega)
    rw [GRGB565_TO_RGB24_form, GRGB565_TO_RED_form, GRGB565_TO_GREEN_form,
      GRGB565_TO_BLUE_form, GRGB_PACK_form _ _ _ r4 g4 b4]
  · obtain ⟨-, -, -, r4⟩ := replicate5 (p / 1024 % 32) (by omega)
    obtain ⟨-, -, -, g4⟩ := replicate5 (p / 32 % 32) (by omega)
    obtain ⟨-, -, -, b4⟩ := replicate5 (p % 32) (by omega)
    rw [GRGB555_TO_RGB24_form, GRGB555_TO_RED_form, GRGB555_TO_GREEN_form,
      GRGB555_TO_BLUE_form, GRGB_PACK_form _ _ _ r4 g4 b4]
  · unfold rgb565.GDST_STOREP rgb565.GDST_STOREB
    rw [hpc, w565 _ _ _ hc0 hc1 hc2]
  · unfold rgb555.GDST_STOREP rgb555.GDST_STOREB
    rw [hpc, w555 _ _ _ hc0 hc1 hc2]

/-- Witness of C30 at the word 0xF810, the colour (255, 0, 128) and cell arrays
holding that colour at index 0. -/
theorem word_macros_agree_witness :
    GRGB565_TO_RGB24 0xF810
      = GRGB_PACK (GRGB565_TO_RED 0xF810) (GRGB565_TO_GREEN 0xF810) (GRGB565_TO_BLUE 0xF810) ∧
    GRGB24_TO_RGB565 (GRGB_PACK 255 0 128) = GRGB_TO_RGB565 255 0 128 ∧
    rgb565.GDST_STOREP (fun _ => GRGB_PACK 255 0 128) 0
      = rgb565.GDST_STOREB (fun i => if i = 0 then 255 else if i = 1 then 0 else 128) 0 :=
  ⟨(word_macros_agree 0xF810 255 0 128 (fun _ => GRGB_PACK 255 0 128)
      (fun i => if i = 0 then 255 else if i = 1 then 0 else 128) 0
      (by decide) (by decide) (by decide) (by decide) (by decide) (by decide)
      (by decide)).1,
   (word_macros_agree 0xF810 255 0 128 (fun _ => GRGB_PACK 255 0 128)
      (fun i => if i = 0 then 255 else if i = 1 then 0 else 128) 0
      (by decide) (by decide) (by decide) (by decide) (by decide) (by decide)
      (by decide)).2.2.1,
   (word_macros_agree 0xF810 255 0 128 (fun _ => GRGB_PACK 255 0 128)
      (fun i => if i = 0 then 255 else if i = 1 then 0 else 128) 0
      (by decide) (by decide) (by decide) (by decide) (by decide) (by decide)
      (by decide)).2.2.2.2.1.1⟩

/-- The span function selected by grSetTargetPenBrush for each supported mode. -/
theorem pen_brush_spans (spans : GrSpanFuncs) (surface : grSurface) (x y : Int)
    (color : grColor) :
    (surface.bitmap.mode = gr_pixel_mode_gray →
      (grSetTargetPenBrush spans surface x y color).gray_spans
        = some spans._gblender_spans_gray8) ∧
    (surface.bitmap.mode = gr_pixel_mode_rgb555 →
      (grSetTargetPenBrush spans surface x y color).gray_spans
        = some spans._gblender_spans_rgb555) ∧
    (surface.bitmap.mode = gr_pixel_mode_rgb565 →
      (grSetTargetPenBrush spans surface x y color).gray_spans
        = some spans._gblender_spans_rgb565) ∧
    (surface.bitmap.mode = gr_pixel_mode_rgb24 →
      (grSetTargetPenBrush spans surface x y color).gray_spans
        = some spans._gblender_spans_rgb24) ∧
    (surface.bitmap.mode = gr_pixel_mode_rgb32 →
      (grSetTargetPenBrush spans surface x y color).gray_spans
        = some spans._gblender_spans_rgb32) := by
  unfold grSetTargetPenBrush
  refine ⟨?_, ?_, ?_, ?_, ?_⟩ <;> intro hm <;> simp [hm]

/-- C29. For every supported target mode, grSetTargetPenBrush sets surface.origin
to buffer + (y - 1) * pitch + x * bpp when pitch >= 0 and to buffer + (y - rows) *
pitch + x * bpp when pitch < 0, where bpp is 1 for gray, 2 for rgb555 and rgb565,
3 for rgb24 and 4 for rgb32, the GDST_INCR of the format; in both cases this is
the address of pixel (x, y - 1) under the signed-pitch convention.  It selects
the span function of the same format, stores the colour, and leaves the bitmap
and the blender as they were. -/
theorem pen_brush_supported_modes (spans : GrSpanFuncs) (surface : grSurface) (x y : Int)
    (color : grColor) (bpp : Int) (hbpp : bytesPerPixel surface.bitmap.mode = some bpp) :
    (0 ≤ surface.bitmap.pitch →
      (grSetTargetPenBrush spans surface x y color).origin =
        some (surface.bitmap.buffer + (y - 1) * surface.bitmap.pitch + x * bpp)) ∧
    (surface.bitmap.pitch < 0 →
      (grSetTargetPenBrush spans surface x y color).origin =
        some (surface.bitmap.buffer + (y - surface.bitmap.rows) * surface.bitmap.pitch
          + x * bpp)) ∧
    (grSetTargetPenBrush spans surface x y color).origin =
      some (pixelAddress surface.bitmap bpp x (y - 1)) ∧
    (surface.bitmap.mode = gr_pixel_mode_gray →
      bpp = 1 ∧ bpp = gray8.GDST_INCR ∧
      (grSetTargetPenBrush spans surface x y color).gray_spans
        = some spans._gblender_spans_gray8) ∧
    (surface.bitmap.mode = gr_pixel_mode_rgb555 →
      bpp = 2 ∧ bpp = rgb555.GDST_INCR ∧
      (grSetTargetPenBrush spans surface x y color).gray_spans
        = some spans._gblender_spans_rgb555) ∧
    (surface.bitmap.mode = gr_pixel_mode_rgb565 →
      bpp = 2 ∧ bpp = rgb565.GDST_INCR ∧
      (grSetTargetPenBrush spans surface x y color).gray_spans
        = some spans._gblender_spans_rgb565) ∧
    (surface.bitmap.mode = gr_pixel_mode_rgb24 →
      bpp = 3 ∧ bpp = rgb24.GDST_INCR ∧
      (grSetTargetPenBrush spans surface x y color).gray_spans
        = some spans._gblender_spans_rgb24) ∧
    (surface.bitmap.mode = gr_pixel_mode_rgb32 →
      bpp = 4 ∧ bpp = rgb32.GDST_INCR ∧
      (grSetTargetPenBrush spans surface x y color).gray_spans
        = some spans._gblender_spans_rgb32) ∧
    (grSetTargetPenBrush spans surface x y color).color = color ∧
    (grSetTargetPenBrush spans surface x y color).bitmap = surface.bitmap ∧
    (grSetTargetPenBrush spans surface x y color).gblender = surface.gblender := by
  obtain ⟨ho, hcol, hbm, hgb⟩ := pen_brush_supported spans surface x y color bpp hbpp
  obtain ⟨s1, s2, s3, s4, s5⟩ := pen_brush_spans spans surface x y color
  have bppOf : ∀ m n, surface.bitmap.mode = m → bytesPerPixel m = some n → bpp = n := by
    intro m n hm hn
    rw [hm, hn] at hbpp
    exact (Option.some.inj hbpp).symm
  refine ⟨?_, ?_, ?_, ?_, ?_, ?_, ?_, ?_, hcol, hbm, hgb⟩
  · intro hp
    rw [ho, if_neg (by omega)]
  · intro hp
    rw [ho, if_pos hp]
  · rw [ho]
    unfold pixelAddress
    by_cases hp : surface.bitmap.pitch < 0
    · rw [if_pos hp, if_pos hp]
      congr 1
      ring
    · rw [if_neg hp, if_neg hp]
  · intro hm
    exact ⟨bppOf _ 1 hm rfl, bppOf _ 1 hm rfl, s1 hm⟩
  · intro hm
    exact ⟨bppOf _ 2 hm rfl, bppOf _ 2 hm rfl, s2 hm⟩
  · intro hm
    exact ⟨bppOf _ 2 hm rfl, bppOf _ 2 hm rfl, s3 hm⟩
  · intro hm
    exact ⟨bppOf _ 3 hm rfl, bppOf _ 3 hm rfl, s4 hm⟩
  · intro hm
    exact ⟨bppOf _ 4 hm rfl, bppOf _ 4 hm rfl, s5 hm⟩

/-- Witness of C29: an rgb24 target with pitch -30, 10 rows and buffer address
1000, at (x, y) = (3, 5). -/
theorem pen_brush_supported_modes_witness :
    bytesPerPixel
      (sampleSurface (sampleBitmap 10 10 (-30) gr_pixel_mode_rgb24 1000)).bitmap.mode
      = some 3 ∧
    (grSetTargetPenBrush sampleSpans
        (sampleSurface (sampleBitmap 10 10 (-30) gr_pixel_mode_rgb24 1000)) 3 5
        sampleColor).origin
      = some (pixelAddress
          (sampleSurface (sampleBitmap 10 10 (-30) gr_pixel_mode_rgb24 1000)).bitmap 3 3
          (5 - 1)) ∧
    (grSetTargetPenBrush sampleSpans
        (sampleSurface (sampleBitmap 10 10 (-30) gr_pixel_mode_rgb24 1000)) 3 5
        sampleColor).gray_spans
      = some sampleSpans._gblender_spans_rgb24 :=
  ⟨rfl,
   (pen_brush_supported_modes sampleSpans
      (sampleSurface (sampleBitmap 10 10 (-30) gr_pixel_mode_rgb24 1000)) 3 5 sampleColor 3
      rfl).2.2.1,
   ((pen_brush_supported_modes sampleSpans
      (sampleSurface (sampleBitmap 10 10 (-30) gr_pixel_mode_rgb24 1000)) 3 5 sampleColor 3
      rfl).2.2.2.2.2.2.1 rfl).2.2⟩

end GblBlit
